import Mathlib

/-!
Enzo `grid::ComputeTimeStep` — verification development

Shallow embedding of `src/enzo/Grid_ComputeTimeStep.C`.

Conventions of the embedding.

* The C types `float`, `FLOAT` and `double` are idealised as one linearly ordered
  field `F` (exact arithmetic: no rounding, no NaN, no infinities).  All
  definitions are polymorphic in `F` and executable at `F = ℚ`.
* A floating-point quotient by zero is infinite, and a minimum taken with `+inf`
  keeps its other argument: where the routine takes such a minimum (lines 165,
  463 and 549) the model leaves the running minimum as it is at a zero divisor.
  The theorems about these loops ask for what keeps the quotient from being a
  NaN (a positive numerator, a non-negative divisor).
* The `MHD_RK` scan divides by the density and takes the square root of a
  difference.  The model is that of the routine on the cells of positive density
  whose radicand is clear of zero (`RegularMHDCell`); on other cells the routine
  computes with infinities or NaN, and a rounded radicand below zero makes
  `sqrt` return NaN.  The sign of a radicand that is zero up to rounding is
  outside this embedding.
* The math library (`sqrt`, `POW`) is a parameter `Libm F`; `fabs` is the
  absolute value of the field.
* `int` variables are `Nat` (counts, indices, dimensions) or `Int` (flags and
  enumerations compared with `==`); none of the integer arithmetic of the routine
  is modelled with wrap-around.
* Every function of the repository that the routine calls but that is not part of
  the file (unit lookup, kernels, ...) is a field of the input record holding the
  result that the call delivers on this grid.
* A fatal exit (`ENZO_FAIL`, `exit(FAIL)`) is the outcome `fatal`.
-/

namespace Enzo

/-- The math-library functions used by the routine. -/
structure Libm (F : Type) where
  sqrt : F → F
  POW : F → F → F

section Model

variable {F : Type} [LinearOrderedField F]

/-- The `min(A,B)` preprocessor form of `macros_and_parameters.h`:
`((A) < (B) ? (A) : (B))`. -/
def cmin (A B : F) : F := if A < B then A else B

/-- The `max(A,B)` preprocessor form of `macros_and_parameters.h`:
`((A) > (B) ? (A) : (B))`. -/
def cmax (A B : F) : F := if A > B then A else B

/-- Modelled from the spec: `my_MAX` is declared in `hydro_rk/tools.h`, which is
not part of the sources at hand; it is the largest of its three arguments
("max over cells and axes"). -/
def my_MAX (a b c : F) : F := cmax (cmax a b) c

/-- The C library `fabs`. -/
def fabs (x : F) : F := |x|

/-- The values `HydroMethod` is compared with (`typedefs.h`). -/
def PPM_DirectEuler : Int := 0
def PPM_LagrangeRemap : Int := 1
def Zeus_Hydro : Int := 2
def HD_RK : Int := 3
def MHD_RK : Int := 4
def NoHydro : Int := 5
def MHD_Li : Int := 6

/-- `FAIL` of `macros_and_parameters.h`. -/
def FAIL : Int := 0

/-- `TRUE` of `macros_and_parameters.h`. -/
def TRUE : Int := 1

/-- The five conversion factors written by `GetUnits`. -/
structure Units (F : Type) where
  DensityUnits : F
  LengthUnits : F
  TemperatureUnits : F
  TimeUnits : F
  VelocityUnits : F

/-- The field numbers written by `IdentifyPhysicalQuantities`. -/
structure FieldNums where
  DensNum : Nat
  GENum : Nat
  Vel1Num : Nat
  Vel2Num : Nat
  Vel3Num : Nat
  TENum : Nat
  B1Num : Nat
  B2Num : Nat
  B3Num : Nat
  PhiNum : Nat
  CRNum : Nat

/-- Everything one call of `grid::ComputeTimeStep` reads: the members of the grid,
the global run parameters, the constants of the headers, and the results of the
external routines on this grid.  A pointer that may be `NULL` is an `Option`; an
external routine that reports `SUCCESS`/`FAIL` delivers `Option` (`none` is
`FAIL`) or a status flag next to its output when the status is not tested. -/
structure grid (F : Type) where
  -- constants of the headers
  huge_number : F
  tiny_number : F
  pi : F
  -- processor ownership
  ProcessorNumber : Int
  MyProcessorNumber : Int
  -- geometry
  GridRank : Nat
  GridDimension : Nat → Nat
  GridStartIndex : Nat → Nat
  GridEndIndex : Nat → Nat
  CellWidth : Nat → Nat → F
  -- baryon fields
  NumberOfBaryonFields : Nat
  BaryonField : Nat → Nat → F
  -- particles
  NumberOfParticles : Nat
  NumberOfActiveParticles : Nat
  ParticleVelocity : Nat → Nat → F
  /-- `ActiveParticles[i]->ReturnVelocity()[dim]`, as a function of `i` and `dim`. -/
  ActiveParticleVelocity : Nat → Nat → F
  -- gravity
  AccelerationField : Nat → Option (Nat → F)
  PotentialField : Option (Nat → F)
  GravitatingMassFieldDimension : Nat → Nat
  -- run parameters
  HydroMethod : Int
  ProblemType : Int
  ComovingCoordinates : Int
  SelfGravity : Int
  DualEnergyFormalism : Int
  IsotropicConduction : Int
  AnisotropicConduction : Int
  CRModel : Int
  CRDiffusion : Int
  CRStreaming : Int
  UseGasDrag : Int
  UseCoolingTimestep : Int
  QuantumPressure : Int
  NumberOfGhostZones : Nat
  CourantSafetyNumber : F
  ParticleCourantSafetyNumber : F
  CRCourantSafetyNumber : F
  CoolingTimestepSafetyFactor : F
  GasDragCoefficient : F
  CRgamma : F
  GravitationalConstant : F
  OneZoneFreefallTimestepFraction : F
  FDMMass : F
  -- results of the external routines on this grid
  GetUnits : Option (Units F)
  /-- Status and the value left in `a`; the routine ignores the status. -/
  CosmologyComputeExpansionFactor : Bool × F
  /-- The ten-argument overload (status, field numbers). -/
  IdentifyPhysicalQuantities10 : Bool × FieldNums
  /-- The six-argument overload (status, field numbers). -/
  IdentifyPhysicalQuantities6 : Bool × FieldNums
  /-- The seven-argument overload ending in `CRNum` (status, field numbers). -/
  IdentifyPhysicalQuantities7 : Bool × FieldNums
  ComputeOneZoneCollapseFactor : Option (Nat → F)
  ComputePressure : Nat → F
  /-- The outputs `dt` and `dtviscous` of the Fortran kernel `calc_dt`. -/
  calc_dt : F × F
  /-- The output `dt` of the Fortran kernel `mhd_dt`. -/
  mhd_dt : F
  /-- The sound speed `cs` that `EOS` returns for density and internal energy. -/
  EOS : F → F → F
  CosmologyComputeExpansionTimestep : Option F
  ComputeConductionTimeStep : Option F
  ComputeCRDiffusionTimeStep : Option F
  ComputeCRStreamingTimeStep : Option F
  ComputeCoolingTime : Option (Nat → F)

/-- The candidate time steps, the local variables `dtBaryons` ... `dtQuantum`. -/
@[ext]
structure Candidates (F : Type) where
  dtBaryons : F
  dtViscous : F
  dtParticles : F
  dtExpansion : F
  dtAcceleration : F
  dtMHD : F
  dtConduction : F
  dtCR : F
  dtGasDrag : F
  dtCooling : F
  dtQuantum : F

/-- How a part of the routine ends: it falls through to the next statement with
its state, it executes `return dt`, or it ends the run. -/
inductive Flow (F α : Type) where
  | next : α → Flow F α
  | ret : F → Flow F α
  | fatal : Flow F α

/-- Sequencing of two parts of the routine. -/
def Flow.bind {α β : Type} (x : Flow F α) (f : α → Flow F β) : Flow F β :=
  match x with
  | .next a => f a
  | .ret dt => .ret dt
  | .fatal => .fatal

/-- What the caller of `ComputeTimeStep` observes. -/
inductive Outcome (F : Type) where
  | value : F → Outcome F
  | fatal : Outcome F

/-- The indices `lo, lo+1, ..., hi` of a loop `for (i = lo; i <= hi; i++)`. -/
def loopIncl (lo hi : Nat) : List Nat := List.range' lo (hi + 1 - lo)

/-- The indices `lo, ..., hi-1` of a loop `for (i = lo; i < hi; i++)`. -/
def loopExcl (lo hi : Nat) : List Nat := List.range' lo (hi - lo)

/-- Lines 104-116: every candidate starts as `huge_number`. -/
def initialCandidates (g : grid F) : Candidates F :=
  { dtBaryons := g.huge_number, dtViscous := g.huge_number, dtParticles := g.huge_number,
    dtExpansion := g.huge_number, dtAcceleration := g.huge_number, dtMHD := g.huge_number,
    dtConduction := g.huge_number, dtCR := g.huge_number, dtGasDrag := g.huge_number,
    dtCooling := g.huge_number, dtQuantum := g.huge_number }

/-- Lines 128-130: `size`, the product of the first `GridRank` dimensions. -/
def fieldSize (g : grid F) : Nat :=
  (List.range g.GridRank).foldl (fun size dim => size * g.GridDimension dim) 1

/-- Lines 135-138: the expansion factor `a` (and `afloat`). -/
def expansionFactor (g : grid F) : F :=
  if g.ComovingCoordinates ≠ 0 then g.CosmologyComputeExpansionFactor.2 else 1

/-- Lines 158-174: the free-fall time of the one-zone collapse test, scaled by
`OneZoneFreefallTimestepFraction`.  The exponent `0.5` is `1/2`.  In a cell whose
divisor `32 · G · ρ · (1 − f)` is zero the floating-point quotient `3π / 0` is
infinite and so is its root, and `min(dt, +inf)` is `dt`: the field `F` has no
infinity, so the loop body leaves `dt` as it is in such a cell. -/
def freeFallTimeStep (L : Libm F) (g : grid F) (DensNum : Nat) (force_factor : Nat → F) : F :=
  let dt :=
    (loopIncl (g.GridStartIndex 2) (g.GridEndIndex 2)).foldl (fun dt k =>
      (loopIncl (g.GridStartIndex 1) (g.GridEndIndex 1)).foldl (fun dt j =>
        (loopIncl (g.GridStartIndex 0) (g.GridEndIndex 0)).foldl (fun dt i =>
          let index := i + j * g.GridDimension 0 + k * g.GridDimension 0 * g.GridDimension 1
          if 32 * g.GravitationalConstant * g.BaryonField DensNum index *
              (1 - force_factor index) = 0 then dt
          else
            cmin dt (L.POW ((3 * g.pi) /
                            (32 * g.GravitationalConstant *
                             g.BaryonField DensNum index *
                             (1 - force_factor index))) (1 / 2)))
          dt) dt) g.huge_number
  dt * g.OneZoneFreefallTimestepFraction

/-- Lines 142-258: the Courant condition of the finite-difference solvers.  The
call of `find_min_dt_cell` (lines 205-222) only prints and is left out; the
stores to `CellWidth[1][0]` and `CellWidth[2][0]` (lines 228-235) touch only
dimensions `≥ GridRank`, which the rest of the routine does not read. -/
def baryonsFD (L : Libm F) (g : grid F) (afloat : F) (c : Candidates F) :
    Flow F (Candidates F) :=
  if 0 < g.NumberOfBaryonFields ∧ g.HydroMethod ≠ HD_RK ∧ g.HydroMethod ≠ MHD_RK then
    let nums := g.IdentifyPhysicalQuantities10.2
    if g.ProblemType = 63 then
      match g.ComputeOneZoneCollapseFactor with
      | none => .fatal
      | some force_factor => .ret (freeFallTimeStep L g nums.DensNum force_factor)
    else
      let c1 : Candidates F :=
        if g.HydroMethod ≠ MHD_Li then
          { c with dtBaryons := g.calc_dt.1, dtViscous := g.calc_dt.2 }
        else c
      let c2 : Candidates F :=
        if g.HydroMethod = MHD_Li then
          { c1 with dtMHD := g.mhd_dt * g.CourantSafetyNumber * afloat }
        else c1
      .next { c2 with dtBaryons := c2.dtBaryons * g.CourantSafetyNumber }
  else .next c

/-- Lines 281-311: the body of the `HD_RK` scan for the cell numbered `st.2`; the
state is the running maximum `dt_temp` and the counter `n`. -/
def hdrkCell (g : grid F) (dxinv dyinv dzinv : F) (nums : FieldNums) (st : F × Nat) :
    F × Nat :=
  let n := st.2
  let rho := g.BaryonField nums.DensNum n
  let vx := g.BaryonField nums.Vel1Num n
  let vy := g.BaryonField nums.Vel2Num n
  let vz := g.BaryonField nums.Vel3Num n
  let eint :=
    if g.DualEnergyFormalism ≠ 0 then g.BaryonField nums.GENum n
    else g.BaryonField nums.TENum n - 1 / 2 * (vx * vx + vy * vy + vz * vz)
  let cs := g.EOS rho eint
  let v_signal_x := cs + fabs vx
  let v_signal_y := if g.GridRank > 1 then cs + fabs vy else 0
  let v_signal_z := if g.GridRank > 2 then cs + fabs vz else 0
  let dt_x := v_signal_x * dxinv
  let dt_y := v_signal_y * dyinv
  let dt_z := v_signal_z * dzinv
  let dt_ltemp := my_MAX dt_x dt_y dt_z
  (if dt_ltemp > st.1 then dt_ltemp else st.1, n + 1)

/-- Lines 271-314: the `HD_RK` scan over the whole block; the result is `dt_temp`. -/
def hdrkScan (g : grid F) (a : F) (nums : FieldNums) : F :=
  let dxinv := 1 / g.CellWidth 0 0 / a
  let dyinv := if g.GridRank > 1 then 1 / g.CellWidth 1 0 / a else 0
  let dzinv := if g.GridRank > 2 then 1 / g.CellWidth 2 0 / a else 0
  ((List.range (g.GridDimension 2)).foldl (fun st _k =>
    (List.range (g.GridDimension 1)).foldl (fun st _j =>
      (List.range (g.GridDimension 0)).foldl (fun st _i =>
        hdrkCell g dxinv dyinv dzinv nums st) st) st) (1 / 10 ^ 20, 0)).1

/-- Lines 261-318: the Courant condition of the `HD_RK` solver. -/
def baryonsHD_RK (g : grid F) (a : F) (c : Candidates F) : Flow F (Candidates F) :=
  if 0 < g.NumberOfBaryonFields ∧ g.HydroMethod = HD_RK then
    if g.IdentifyPhysicalQuantities6.1 = false then .fatal
    else
      .next { c with
        dtBaryons := g.CourantSafetyNumber / hdrkScan g a g.IdentifyPhysicalQuantities6.2 }
  else .next c

/-- Lines 326-334: the field numbers in force in the `MHD_RK` scan: those of the
ten-argument call, overwritten by the seven-argument call when `CRModel` is on. -/
def mhdFieldNums (g : grid F) : FieldNums :=
  let n10 := g.IdentifyPhysicalQuantities10.2
  let n7 := g.IdentifyPhysicalQuantities7.2
  if g.CRModel ≠ 0 then
    { n10 with DensNum := n7.DensNum, GENum := n7.GENum, Vel1Num := n7.Vel1Num,
               Vel2Num := n7.Vel2Num, Vel3Num := n7.Vel3Num, TENum := n7.TENum,
               CRNum := n7.CRNum }
  else n10

/-- Lines 378-379 (and 384-385, 391-392): the fast magnetosonic speed `cf` for the
Alfven term `ca2`. -/
def fastSpeed (L : Libm F) (temp1 cs2 ca2 : F) : F :=
  let cf2 := 1 / 2 * (temp1 + L.sqrt (temp1 * temp1 - 4 * cs2 * ca2))
  L.sqrt cf2

/-- Lines 347-408: the body of the `MHD_RK` scan for the cell numbered `st.2`, in
exact arithmetic: the value is that of the routine on a cell of positive density
whose radicands are clear of zero. -/
def mhdCell (L : Libm F) (g : grid F) (dxinv dyinv dzinv : F) (nums : FieldNums)
    (st : F × Nat) : F × Nat :=
  let n := st.2
  let rho := g.BaryonField nums.DensNum n
  let vx := g.BaryonField nums.Vel1Num n
  let vy := g.BaryonField nums.Vel2Num n
  let vz := g.BaryonField nums.Vel3Num n
  let Bx := g.BaryonField nums.B1Num n
  let By := g.BaryonField nums.B2Num n
  let Bz := g.BaryonField nums.B3Num n
  let Pcr := (g.CRgamma - 1) * g.BaryonField nums.CRNum n
  let B2 := Bx * Bx + By * By + Bz * Bz
  let eint :=
    if g.DualEnergyFormalism ≠ 0 then g.BaryonField nums.GENum n
    else g.BaryonField nums.TENum n - 1 / 2 * (vx * vx + vy * vy + vz * vz) - 1 / 2 * B2 / rho
  let cs := g.EOS rho eint
  let cs2 := if g.CRModel ≠ 0 then cs * cs + g.CRgamma * Pcr / rho else cs * cs
  let temp1 := cs2 + B2 / rho
  let v_signal_x := fastSpeed L temp1 cs2 (Bx * Bx / rho) + fabs vx
  let v_signal_y := if g.GridRank > 1 then fastSpeed L temp1 cs2 (By * By / rho) + fabs vy else 0
  let v_signal_z := if g.GridRank > 2 then fastSpeed L temp1 cs2 (Bz * Bz / rho) + fabs vz else 0
  let dt_x := v_signal_x * dxinv
  let dt_y := v_signal_y * dyinv
  let dt_z := v_signal_z * dzinv
  let dt_ltemp := my_MAX dt_x dt_y dt_z
  (if dt_ltemp > st.1 then dt_ltemp else st.1, n + 1)

/-- Lines 335-412: the `MHD_RK` scan over the whole block; the result is `dt_temp`. -/
def mhdScan (L : Libm F) (g : grid F) (a : F) (nums : FieldNums) : F :=
  let dxinv := 1 / g.CellWidth 0 0 / a
  let dyinv := if g.GridRank > 1 then 1 / g.CellWidth 1 0 / a else 0
  let dzinv := if g.GridRank > 2 then 1 / g.CellWidth 2 0 / a else 0
  ((List.range (g.GridDimension 2)).foldl (fun st _k =>
    (List.range (g.GridDimension 1)).foldl (fun st _j =>
      (List.range (g.GridDimension 0)).foldl (fun st _i =>
        mhdCell L g dxinv dyinv dzinv nums st) st) st) (1 / 10 ^ 20, 0)).1

/-- Lines 322-421: the fast-magnetosonic condition of the `MHD_RK` solver. -/
def baryonsMHD_RK (L : Libm F) (g : grid F) (a : F) (c : Candidates F) :
    Flow F (Candidates F) :=
  if 0 < g.NumberOfBaryonFields ∧ g.HydroMethod = MHD_RK then
    if g.IdentifyPhysicalQuantities10.1 = false then .fatal
    else if g.CRModel ≠ 0 ∧ g.IdentifyPhysicalQuantities7.1 = false then .fatal
    else .next { c with dtMHD := g.CourantSafetyNumber / mhdScan L g a (mhdFieldNums g) }
  else .next c

/-- Lines 430-440: the loops over the dimensions and over the ordinary and the
active particles; the result is `dtParticles` before its scaling. -/
def particleScan (g : grid F) (a : F) (dtParticles : F) : F :=
  (List.range g.GridRank).foldl (fun dtP dim =>
    let dCell := g.CellWidth dim 0 * a
    let dtP1 := (List.range g.NumberOfParticles).foldl (fun dtP i =>
      let dtTemp := dCell / cmax (fabs (g.ParticleVelocity dim i)) g.tiny_number
      cmin dtP dtTemp) dtP
    (List.range g.NumberOfActiveParticles).foldl (fun dtP i =>
      let dtTemp := dCell / cmax (fabs (g.ActiveParticleVelocity i dim)) g.tiny_number
      cmin dtP dtTemp) dtP1) dtParticles

/-- Lines 426-446: the particle velocity condition. -/
def particles (g : grid F) (a : F) (c : Candidates F) : Candidates F :=
  if 0 < g.NumberOfParticles ∨ 0 < g.NumberOfActiveParticles then
    { c with dtParticles := particleScan g a c.dtParticles * g.ParticleCourantSafetyNumber }
  else c

/-- Lines 451-455: the expansion condition. -/
def expansion (g : grid F) (c : Candidates F) : Flow F (Candidates F) :=
  if g.ComovingCoordinates ≠ 0 then
    match g.CosmologyComputeExpansionTimestep with
    | none => .fatal
    | some dtExpansion => .next { c with dtExpansion := dtExpansion }
  else .next c

/-- Lines 460-466: the loops over the dimensions and the cells of the acceleration
fields; the result is `dtAcceleration` before its scaling.  In a cell whose
acceleration is zero the floating-point quotient `CellWidth / 0` is infinite for a
positive cell width, `dtTemp` is infinite, and `min(dtAcceleration, +inf)` is
`dtAcceleration`: the field `F` has no infinity, so the loop body leaves
`dtAcceleration` as it is in such a cell. -/
def accelerationScan (L : Libm F) (g : grid F) (dtAcceleration : F) : F :=
  (List.range g.GridRank).foldl (fun dtA dim =>
    match g.AccelerationField dim with
    | some acc =>
      (List.range (fieldSize g)).foldl (fun dtA i =>
        if acc i = 0 then dtA
        else
          let dtTemp := L.sqrt (g.CellWidth dim 0 / fabs (acc i) + g.tiny_number)
          cmin dtA dtTemp) dtA
    | none => dtA) dtAcceleration

/-- Lines 459-469: the acceleration condition. -/
def acceleration (L : Libm F) (g : grid F) (c : Candidates F) : Candidates F :=
  if g.SelfGravity ≠ 0 then
    let dtA := accelerationScan L g c.dtAcceleration
    { c with dtAcceleration := if dtA ≠ g.huge_number then dtA * (1 / 2) else dtA }
  else c

/-- Lines 473-478: the conduction condition. -/
def conduction (g : grid F) (c : Candidates F) : Flow F (Candidates F) :=
  if g.IsotropicConduction ≠ 0 ∨ g.AnisotropicConduction ≠ 0 then
    match g.ComputeConductionTimeStep with
    | none => .fatal
    | some dtConduction =>
      .next { c with dtConduction := dtConduction * (g.NumberOfGhostZones : F) }
  else .next c

/-- Lines 482-498: the cosmic-ray condition.  A failing routine makes the function
execute `return FAIL`. -/
def cosmicRays (g : grid F) (c : Candidates F) : Flow F (Candidates F) :=
  if g.CRModel ≠ 0 then
    let afterDiffusion : Flow F F :=
      if g.CRDiffusion ≠ 0 then
        match g.ComputeCRDiffusionTimeStep with
        | none => .ret ((FAIL : Int) : F)
        | some dtCR => .next dtCR
      else .next c.dtCR
    afterDiffusion.bind fun dtCR1 =>
    let afterStreaming : Flow F F :=
      if g.CRStreaming ≠ 0 then
        match g.ComputeCRStreamingTimeStep with
        | none => .ret ((FAIL : Int) : F)
        | some dtCR => .next dtCR
      else .next dtCR1
    afterStreaming.bind fun dtCR2 =>
    let dtCR3 := dtCR2 * g.CRCourantSafetyNumber
    .next { c with
      dtCR := if g.CRDiffusion = 1 then dtCR3 * (g.NumberOfGhostZones : F) else dtCR3 }
  else .next c

/-- Lines 501-503: the gas-drag condition. -/
def gasDrag (g : grid F) (c : Candidates F) : Candidates F :=
  if g.UseGasDrag ≠ 0 ∧ g.GasDragCoefficient ≠ 0 then
    { c with dtGasDrag := 1 / 2 / g.GasDragCoefficient }
  else c

/-- Modelled from the spec: `GRIDINDEX_NOGHOST` is declared in a header that is not
part of the sources at hand; fields are "indexed by `i + j*nx + k*nx*ny`". -/
def GRIDINDEX_NOGHOST (g : grid F) (i j k : Nat) : Nat :=
  (k * g.GridDimension 1 + j) * g.GridDimension 0 + i

/-- Lines 514-521: the loops over the cooling-time field; the result is `dtCooling`
before its scaling. -/
def coolingScan (g : grid F) (cooling_time : Nat → F) (dtCooling : F) : F :=
  (loopExcl (g.GridStartIndex 2) (g.GridEndIndex 2)).foldl (fun dtC k =>
    (loopExcl (g.GridStartIndex 1) (g.GridEndIndex 1)).foldl (fun dtC j =>
      let index := GRIDINDEX_NOGHOST g (g.GridStartIndex 0) j k
      ((loopExcl (g.GridStartIndex 0) (g.GridEndIndex 0)).foldl (fun st _i =>
        (cmin st.1 (cooling_time st.2), st.2 + 1)) (dtC, index)).1) dtC) dtCooling

/-- Lines 508-525: the cooling condition. -/
def cooling (g : grid F) (c : Candidates F) : Flow F (Candidates F) :=
  if g.UseCoolingTimestep = TRUE then
    match g.ComputeCoolingTime with
    | none => .fatal
    | some cooling_time =>
      .next { c with
        dtCooling := coolingScan g cooling_time c.dtCooling * g.CoolingTimestepSafetyFactor }
  else .next c

/-- Line 531: the coefficient `hmcoef`. -/
def hmcoef (L : Libm F) (g : grid F) (u : Units F) (afloat : F) : F :=
  59157166856 * 10 ^ 17 * u.TimeUnits / L.POW (u.LengthUnits / afloat) 2 / g.FDMMass

/-- Lines 529-553: the quantum-pressure condition.  In a cell whose potential is
zero the floating-point quotient `hmcoef / 0` is infinite for `hmcoef ≠ 0`, and
`min(dtQuantum, +inf)` is `dtQuantum`: the field `F` has no infinity, so the loop
body leaves `dtQuantum` as it is in such a cell. -/
def quantum (L : Libm F) (g : grid F) (u : Units F) (afloat : F) (c : Candidates F) :
    Candidates F :=
  if g.QuantumPressure ≠ 0 then
    let hm := hmcoef L g u afloat
    let dx0 := g.CellWidth 0 0 * afloat
    let dx1 := if g.GridRank > 1 then cmin dx0 (g.CellWidth 1 0 * afloat) else dx0
    let dx := if g.GridRank > 2 then cmin dx1 (g.CellWidth 2 0 * afloat) else dx1
    let dtQ := L.POW dx 2 / hm / 2 * g.CourantSafetyNumber
    let dtQ1 :=
      match g.PotentialField with
      | some potential =>
        if g.SelfGravity ≠ 0 then
          let gsize := g.GravitatingMassFieldDimension 0 * g.GravitatingMassFieldDimension 1 *
            g.GravitatingMassFieldDimension 2
          (List.range gsize).foldl (fun dtQ i =>
            if potential i = 0 then dtQ else cmin dtQ (fabs (hm * 1 / potential i))) dtQ
        else dtQ
      | none => dtQ
    { c with dtQuantum := dtQ1 }
  else c

/-- Lines 557-566: the final reduction. -/
def finalReduction (c : Candidates F) : F :=
  let dt := cmin c.dtBaryons c.dtParticles
  let dt := cmin dt c.dtMHD
  let dt := cmin dt c.dtViscous
  let dt := cmin dt c.dtAcceleration
  let dt := cmin dt c.dtExpansion
  let dt := cmin dt c.dtConduction
  let dt := cmin dt c.dtCR
  let dt := cmin dt c.dtGasDrag
  let dt := cmin dt c.dtCooling
  cmin dt c.dtQuantum

/-- Lines 121-553 for a grid of this processor: the candidates that reach the final
reduction, an early `return`, or a fatal exit. -/
def candidates (L : Libm F) (g : grid F) : Flow F (Candidates F) :=
  match g.GetUnits with
  | none => .fatal
  | some u =>
    let a := expansionFactor g
    (baryonsFD L g a (initialCandidates g)).bind fun c =>
    (baryonsHD_RK g a c).bind fun c =>
    (baryonsMHD_RK L g a c).bind fun c =>
    (expansion g (particles g a c)).bind fun c =>
    (conduction g (acceleration L g c)).bind fun c =>
    (cosmicRays g c).bind fun c =>
    (cooling g (gasDrag g c)).bind fun c =>
    .next (quantum L g u a c)

/-- The function `grid::ComputeTimeStep` (lines 92-643), compiled without
`TRANSFER`; the debugging output is left out. -/
def ComputeTimeStep (L : Libm F) (g : grid F) : Outcome F :=
  if g.ProcessorNumber ≠ g.MyProcessorNumber then .value g.huge_number
  else
    match candidates L g with
    | .next c => .value (finalReduction c)
    | .ret dt => .value dt
    | .fatal => .fatal

/-- `DBL_MAX` of `<float.h>`, the largest finite `double`: `(2^53 − 1) · 2^971`. -/
def DBL_MAX : F := (2 ^ 53 - 1) * 2 ^ 971

/-- The arguments of `find_min_dt_cell` (lines 647-668).  A pointer to one number
is that number, an array is a function of the index, and a pointer that the
function tests against `NULL` is an `Option`. -/
structure MinDtArgs (F : Type) where
  rank : Nat
  nx : Nat
  ny : Nat
  nz : Nat
  i1 : Nat
  i2 : Nat
  j1 : Nat
  j2 : Nat
  k1 : Nat
  k2 : Nat
  hydroMethod : Int
  C2 : F
  dx : Nat → F
  dy : Nat → F
  dz : Nat → F
  vgx : Option F
  vgy : Option F
  vgz : Option F
  gamma : F
  ipfree : Int
  aye : F
  dens : Nat → F
  pres : Nat → F
  u : Nat → F
  v : Nat → F
  w : Option (Nat → F)

/-- The four outputs of `find_min_dt_cell` (lines 669-672). -/
@[ext]
structure MinDtOut (F : Type) where
  out_rho : F
  out_cs : F
  out_dx : F
  out_dt : F

/-- The local variables `best_dt`, `best_i`, `best_j`, `best_k` (lines 675-676). -/
@[ext]
structure BestCell (F : Type) where
  best_dt : F
  best_i : Nat
  best_j : Nat
  best_k : Nat

/-- Lines 688-690: the flattened index `idx` of the cell `(ii, jj, kk)`. -/
def cellIndex (A : MinDtArgs F) (ii jj kk : Nat) : Nat :=
  ii + jj * A.nx + kk * (A.nx * A.ny)

/-- Lines 679-681 and 698-714: the denominator `denom` of the cell `(ii, jj, kk)`. -/
def cellDenom (L : Libm F) (A : MinDtArgs F) (ii jj kk : Nat) : F :=
  let vgx_val := match A.vgx with
    | some vgx => vgx
    | none => 0
  let vgy_val := match A.vgy with
    | some vgy => vgy
    | none => 0
  let vgz_val := match A.vgz with
    | some vgz => vgz
    | none => 0
  let idx := cellIndex A ii jj kk
  let rho := A.dens idx
  let P := A.pres idx
  let cs_local := if A.ipfree = 1 then 1 / 10 ^ 20 else L.sqrt (A.gamma * P / rho)
  let du := fabs (A.u idx - vgx_val)
  let dv := fabs (A.v idx - vgy_val)
  let denom := (cs_local + du) / A.dx ii + (cs_local + dv) / A.dy jj
  match A.w with
  | some w =>
    if A.rank = 3 then
      let dw := fabs (w idx - vgz_val)
      denom + (cs_local + dw) / A.dz kk
    else denom
  | none => denom

/-- Lines 688-728: the loop body for the cell `(ii, jj, kk)`. -/
def minDtCell (L : Libm F) (A : MinDtArgs F) (best : BestCell F) (ii jj kk : Nat) :
    BestCell F :=
  let idx := cellIndex A ii jj kk
  let rho := A.dens idx
  let P := A.pres idx
  if ¬ (rho > 0) ∨ ¬ (P > 0) then best
  else
    let denom := cellDenom L A ii jj kk
    if denom ≤ 1 / 10 ^ 20 then best
    else
      let dt_cell := A.aye / denom
      if dt_cell < best.best_dt then
        { best_dt := dt_cell, best_i := ii, best_j := jj, best_k := kk }
      else best

/-- Lines 675-731: the scan of the active range `[i1..i2] × [j1..j2] × [k1..k2]`. -/
def minDtScan (L : Libm F) (A : MinDtArgs F) : BestCell F :=
  (loopIncl A.k1 A.k2).foldl (fun best kk =>
    (loopIncl A.j1 A.j2).foldl (fun best jj =>
      (loopIncl A.i1 A.i2).foldl (fun best ii => minDtCell L A best ii jj kk) best) best)
    { best_dt := DBL_MAX, best_i := A.i1, best_j := A.j1, best_k := A.k1 }

/-- The function `find_min_dt_cell` (lines 647-754). -/
def find_min_dt_cell (L : Libm F) (A : MinDtArgs F) : MinDtOut F :=
  let best := minDtScan L A
  if best.best_dt < DBL_MAX then
    let idxm := cellIndex A best.best_i best.best_j best.best_k
    let rho_m := A.dens idxm
    let P_m := A.pres idxm
    let cs_m := L.sqrt (A.gamma * P_m / rho_m)
    { out_rho := rho_m, out_cs := cs_m, out_dx := A.dx best.best_i, out_dt := best.best_dt }
  else
    { out_rho := 0, out_cs := 0, out_dx := 0, out_dt := 0 }

/-- The contributions `dt_x`, `dt_y`, `dt_z` of one cell to a Runge-Kutta scan. -/
structure AxisContributions (F : Type) where
  dt_x : F
  dt_y : F
  dt_z : F

/-- Lines 281-305: the contributions of the cell numbered `n` in the `HD_RK` scan. -/
def hdrkContributions (g : grid F) (dxinv dyinv dzinv : F) (nums : FieldNums) (n : Nat) :
    AxisContributions F :=
  let rho := g.BaryonField nums.DensNum n
  let vx := g.BaryonField nums.Vel1Num n
  let vy := g.BaryonField nums.Vel2Num n
  let vz := g.BaryonField nums.Vel3Num n
  let eint :=
    if g.DualEnergyFormalism ≠ 0 then g.BaryonField nums.GENum n
    else g.BaryonField nums.TENum n - 1 / 2 * (vx * vx + vy * vy + vz * vz)
  let cs := g.EOS rho eint
  let v_signal_x := cs + fabs vx
  let v_signal_y := if g.GridRank > 1 then cs + fabs vy else 0
  let v_signal_z := if g.GridRank > 2 then cs + fabs vz else 0
  { dt_x := v_signal_x * dxinv, dt_y := v_signal_y * dyinv, dt_z := v_signal_z * dzinv }

/-- Lines 347-398: the contributions of the cell numbered `n` in the `MHD_RK` scan,
in exact arithmetic: the values are those of the routine on a cell of positive
density whose radicands are clear of zero. -/
def mhdContributions (L : Libm F) (g : grid F) (dxinv dyinv dzinv : F) (nums : FieldNums)
    (n : Nat) : AxisContributions F :=
  let rho := g.BaryonField nums.DensNum n
  let vx := g.BaryonField nums.Vel1Num n
  let vy := g.BaryonField nums.Vel2Num n
  let vz := g.BaryonField nums.Vel3Num n
  let Bx := g.BaryonField nums.B1Num n
  let By := g.BaryonField nums.B2Num n
  let Bz := g.BaryonField nums.B3Num n
  let Pcr := (g.CRgamma - 1) * g.BaryonField nums.CRNum n
  let B2 := Bx * Bx + By * By + Bz * Bz
  let eint :=
    if g.DualEnergyFormalism ≠ 0 then g.BaryonField nums.GENum n
    else g.BaryonField nums.TENum n - 1 / 2 * (vx * vx + vy * vy + vz * vz) - 1 / 2 * B2 / rho
  let cs := g.EOS rho eint
  let cs2 := if g.CRModel ≠ 0 then cs * cs + g.CRgamma * Pcr / rho else cs * cs
  let temp1 := cs2 + B2 / rho
  let v_signal_x := fastSpeed L temp1 cs2 (Bx * Bx / rho) + fabs vx
  let v_signal_y := if g.GridRank > 1 then fastSpeed L temp1 cs2 (By * By / rho) + fabs vy else 0
  let v_signal_z := if g.GridRank > 2 then fastSpeed L temp1 cs2 (Bz * Bz / rho) + fabs vz else 0
  { dt_x := v_signal_x * dxinv, dt_y := v_signal_y * dyinv, dt_z := v_signal_z * dzinv }

/-- Lines 271 and 335: `dxinv`. -/
def dxinv (g : grid F) (a : F) : F := 1 / g.CellWidth 0 0 / a

/-- Lines 272 and 336: `dyinv`. -/
def dyinv (g : grid F) (a : F) : F := if g.GridRank > 1 then 1 / g.CellWidth 1 0 / a else 0

/-- Lines 273 and 337: `dzinv`. -/
def dzinv (g : grid F) (a : F) : F := if g.GridRank > 2 then 1 / g.CellWidth 2 0 / a else 0

/-- Line 307: the maximum `dt_ltemp` of the cell numbered `n` in the `HD_RK` scan. -/
def hdrk_dt_ltemp (g : grid F) (a : F) (nums : FieldNums) (n : Nat) : F :=
  my_MAX (hdrkContributions g (dxinv g a) (dyinv g a) (dzinv g a) nums n).dt_x
    (hdrkContributions g (dxinv g a) (dyinv g a) (dzinv g a) nums n).dt_y
    (hdrkContributions g (dxinv g a) (dyinv g a) (dzinv g a) nums n).dt_z

/-- Line 400: the maximum `dt_ltemp` of the cell numbered `n` in the `MHD_RK` scan. -/
def mhd_dt_ltemp (L : Libm F) (g : grid F) (a : F) (nums : FieldNums) (n : Nat) : F :=
  my_MAX (mhdContributions L g (dxinv g a) (dyinv g a) (dzinv g a) nums n).dt_x
    (mhdContributions L g (dxinv g a) (dyinv g a) (dzinv g a) nums n).dt_y
    (mhdContributions L g (dxinv g a) (dyinv g a) (dzinv g a) nums n).dt_z

end Model

/-! ## Sample inputs

Concrete grids and a concrete math library, used to evaluate the model. -/

/-- A math library over `ℚ`: the square root of Mathlib on rationals (exact on
squares), and `POW` for the two exponents the routine uses, `2` and `0.5`. -/
def ratLibm : Libm ℚ where
  sqrt := fun x => Rat.sqrt x
  POW := fun x y => if y = 2 then x * x else Rat.sqrt x

/-- A grid of this processor with one cell, unit widths, and every process
switched off; the external routines all succeed. -/
def quietGrid (F : Type) [LinearOrderedField F] : grid F where
  huge_number := 10 ^ 20
  tiny_number := 1 / 10 ^ 20
  pi := 314159265358979323846 / 10 ^ 20
  ProcessorNumber := 0
  MyProcessorNumber := 0
  GridRank := 1
  GridDimension := fun _ => 1
  GridStartIndex := fun _ => 0
  GridEndIndex := fun _ => 0
  CellWidth := fun _ _ => 1
  NumberOfBaryonFields := 0
  BaryonField := fun _ _ => 0
  NumberOfParticles := 0
  NumberOfActiveParticles := 0
  ParticleVelocity := fun _ _ => 0
  ActiveParticleVelocity := fun _ _ => 0
  AccelerationField := fun _ => none
  PotentialField := none
  GravitatingMassFieldDimension := fun _ => 1
  HydroMethod := Zeus_Hydro
  ProblemType := 0
  ComovingCoordinates := 0
  SelfGravity := 0
  DualEnergyFormalism := 0
  IsotropicConduction := 0
  AnisotropicConduction := 0
  CRModel := 0
  CRDiffusion := 0
  CRStreaming := 0
  UseGasDrag := 0
  UseCoolingTimestep := 0
  QuantumPressure := 0
  NumberOfGhostZones := 3
  CourantSafetyNumber := 1 / 2
  ParticleCourantSafetyNumber := 1 / 2
  CRCourantSafetyNumber := 1 / 2
  CoolingTimestepSafetyFactor := 1 / 10
  GasDragCoefficient := 0
  CRgamma := 4 / 3
  GravitationalConstant := 1
  OneZoneFreefallTimestepFraction := 1 / 1000
  FDMMass := 1
  GetUnits := some ⟨1, 1, 1, 1, 1⟩
  CosmologyComputeExpansionFactor := (true, 1)
  IdentifyPhysicalQuantities10 := (true, ⟨0, 1, 2, 3, 4, 5, 6, 7, 8, 9, 10⟩)
  IdentifyPhysicalQuantities6 := (true, ⟨0, 1, 2, 3, 4, 5, 6, 7, 8, 9, 10⟩)
  IdentifyPhysicalQuantities7 := (true, ⟨0, 1, 2, 3, 4, 5, 6, 7, 8, 9, 10⟩)
  ComputeOneZoneCollapseFactor := some fun _ => 0
  ComputePressure := fun _ => 1
  calc_dt := (1, 1)
  mhd_dt := 1
  EOS := fun _ _ => 1
  CosmologyComputeExpansionTimestep := some 1
  ComputeConductionTimeStep := some 1
  ComputeCRDiffusionTimeStep := some 1
  ComputeCRStreamingTimeStep := some 1
  ComputeCoolingTime := some fun _ => 1

/-- The quiet grid with two particles of speeds `1` and `2` and gas drag of
coefficient `1`. -/
def particleGrid (F : Type) [LinearOrderedField F] : grid F :=
  { quietGrid F with
    NumberOfParticles := 2
    ParticleVelocity := fun _ i => (i : F) + 1
    UseGasDrag := 1
    GasDragCoefficient := 1 }

/-- The quiet grid on which the unit lookup fails. -/
def unitlessGrid (F : Type) [LinearOrderedField F] : grid F :=
  { quietGrid F with GetUnits := none }

/-- The quantities the free-fall shortcut reads: two grids agree on the density
field (the field that `IdentifyPhysicalQuantities` names `DensNum`), on the
collapse-factor field, on `OneZoneFreefallTimestepFraction`, on the gravitational
constant, on the active index range and the dimensions that lay out the fields,
and on the constants `pi` and `huge_number`. -/
def FreeFallAgree {F : Type} (g1 g2 : grid F) : Prop :=
  (∀ n, g1.BaryonField g1.IdentifyPhysicalQuantities10.2.DensNum n =
        g2.BaryonField g2.IdentifyPhysicalQuantities10.2.DensNum n) ∧
  g1.ComputeOneZoneCollapseFactor = g2.ComputeOneZoneCollapseFactor ∧
  g1.OneZoneFreefallTimestepFraction = g2.OneZoneFreefallTimestepFraction ∧
  g1.GravitationalConstant = g2.GravitationalConstant ∧
  (∀ d, g1.GridStartIndex d = g2.GridStartIndex d) ∧
  (∀ d, g1.GridEndIndex d = g2.GridEndIndex d) ∧
  (∀ d, g1.GridDimension d = g2.GridDimension d) ∧
  g1.pi = g2.pi ∧
  g1.huge_number = g2.huge_number

/-- The quiet grid with baryon fields of density `1/4` (field `0`) and
zero energy and velocity, run as the one-zone
free-fall test with a finite-difference solver. -/
def collapseGrid (F : Type) [LinearOrderedField F] : grid F :=
  { quietGrid F with
    NumberOfBaryonFields := 1
    ProblemType := 63
    BaryonField := fun field _ => if field = 0 then 1 / 4 else 0 }

/-- The free-fall test grid on which the unit lookup fails. -/
def collapseUnitlessGrid (F : Type) [LinearOrderedField F] : grid F :=
  { collapseGrid F with GetUnits := none }

/-- The free-fall test grid run with the `HD_RK` solver. -/
def collapseRKGrid (F : Type) [LinearOrderedField F] : grid F :=
  { collapseGrid F with HydroMethod := HD_RK }

/-- The free-fall test grid run with the `HD_RK` solver and holding two particles
of speeds `1` and `2`. -/
def collapseRKParticleGrid (F : Type) [LinearOrderedField F] : grid F :=
  { collapseGrid F with
    HydroMethod := HD_RK
    NumberOfParticles := 2
    ParticleVelocity := fun _ i => (i : F) + 1 }

/-- The free-fall test grid holding two particles, with self-gravity and gas drag
switched on. -/
def collapseBusyGrid (F : Type) [LinearOrderedField F] : grid F :=
  { collapseGrid F with
    NumberOfParticles := 2
    ParticleVelocity := fun _ i => (i : F) + 1
    SelfGravity := 1
    UseGasDrag := 1
    GasDragCoefficient := 1 }

/-- The velocity component along axis `d` in cell `n`: the fields `Vel1Num`,
`Vel2Num`, `Vel3Num` for `d = 0, 1, 2`. -/
def velocity {F : Type} (g : grid F) (nums : FieldNums) (d n : Nat) : F :=
  g.BaryonField (if d = 0 then nums.Vel1Num else if d = 1 then nums.Vel2Num else nums.Vel3Num) n

/-- The internal energy the `HD_RK` scan hands to the equation of state: the
dual-energy field if `DualEnergyFormalism` is on, `total_energy − ½|v|²` otherwise. -/
def hdInternalEnergy {F : Type} [LinearOrderedField F] (g : grid F) (nums : FieldNums)
    (n : Nat) : F :=
  if g.DualEnergyFormalism ≠ 0 then g.BaryonField nums.GENum n
  else g.BaryonField nums.TENum n -
    1 / 2 * (velocity g nums 0 n * velocity g nums 0 n + velocity g nums 1 n * velocity g nums 1 n
      + velocity g nums 2 n * velocity g nums 2 n)

/-- The scaled signal speed of the claim for the `HD_RK` scan:
`v_signal_d / (CellWidth[d][0] · a)` with `v_signal_d = cs + |v_d|` and `cs` the
sound speed of the equation of state for `(ρ, eint)`. -/
def hdSignalRate {F : Type} [LinearOrderedField F] (g : grid F) (a : F) (nums : FieldNums)
    (d n : Nat) : F :=
  (g.EOS (g.BaryonField nums.DensNum n) (hdInternalEnergy g nums n) + |velocity g nums d n|) /
    (g.CellWidth d 0 * a)

/-- The magnetic field component along axis `d` in cell `n`: the fields `B1Num`,
`B2Num`, `B3Num` for `d = 0, 1, 2`. -/
def magneticField {F : Type} (g : grid F) (nums : FieldNums) (d n : Nat) : F :=
  g.BaryonField (if d = 0 then nums.B1Num else if d = 1 then nums.B2Num else nums.B3Num) n

/-- The sum `B²` of the three squared field components in cell `n`. -/
def magneticFieldSq {F : Type} [LinearOrderedField F] (g : grid F) (nums : FieldNums)
    (n : Nat) : F :=
  magneticField g nums 0 n ^ 2 + magneticField g nums 1 n ^ 2 + magneticField g nums 2 n ^ 2

/-- The internal energy the `MHD_RK` scan hands to the equation of state: the
dual-energy field if `DualEnergyFormalism` is on, and
`total_energy − ½|v|² − ½B²/ρ` otherwise. -/
def mhdInternalEnergy {F : Type} [LinearOrderedField F] (g : grid F) (nums : FieldNums)
    (n : Nat) : F :=
  if g.DualEnergyFormalism ≠ 0 then g.BaryonField nums.GENum n
  else g.BaryonField nums.TENum n -
    1 / 2 * (velocity g nums 0 n ^ 2 + velocity g nums 1 n ^ 2 + velocity g nums 2 n ^ 2) -
    1 / 2 * magneticFieldSq g nums n / g.BaryonField nums.DensNum n

/-- The claim's `cs²`: the squared sound speed of the equation of state, plus
`CRgamma · P_CR / ρ` with `P_CR = (CRgamma − 1) · E_CR` when `CRModel` is on. -/
def mhdSoundSpeedSq {F : Type} [LinearOrderedField F] (g : grid F) (nums : FieldNums)
    (n : Nat) : F :=
  g.EOS (g.BaryonField nums.DensNum n) (mhdInternalEnergy g nums n) ^ 2 +
    (if g.CRModel ≠ 0 then
      g.CRgamma * ((g.CRgamma - 1) * g.BaryonField nums.CRNum n) / g.BaryonField nums.DensNum n
    else 0)

/-- The claim's fast magnetosonic speed along axis `d`:
`sqrt(½(cs² + B²/ρ + sqrt((cs² + B²/ρ)² − 4 cs² B_d²/ρ)))`. -/
def mhdFastSpeed {F : Type} [LinearOrderedField F] (L : Libm F) (g : grid F) (nums : FieldNums)
    (d n : Nat) : F :=
  L.sqrt (1 / 2 * (mhdSoundSpeedSq g nums n + magneticFieldSq g nums n / g.BaryonField nums.DensNum n +
    L.sqrt ((mhdSoundSpeedSq g nums n + magneticFieldSq g nums n / g.BaryonField nums.DensNum n) ^ 2 -
      4 * mhdSoundSpeedSq g nums n * magneticField g nums d n ^ 2 / g.BaryonField nums.DensNum n)))

/-- The scaled signal speed of the claim for the `MHD_RK` scan:
`(cf_d + |v_d|) / (CellWidth[d][0] · a)`. -/
def mhdSignalRate {F : Type} [LinearOrderedField F] (L : Libm F) (g : grid F) (a : F)
    (nums : FieldNums) (d n : Nat) : F :=
  (mhdFastSpeed L g nums d n + |velocity g nums d n|) / (g.CellWidth d 0 * a)

/-- The quiet grid with baryon fields at rest, run with the `HD_RK` solver, whose
equation of state returns the sound speed `1e-30`. -/
def coldGrid (F : Type) [LinearOrderedField F] : grid F :=
  { quietGrid F with
    NumberOfBaryonFields := 1
    HydroMethod := HD_RK
    EOS := fun _ _ => 1 / 10 ^ 30 }

/-- The quiet grid with two particles of speeds `1` and `2` and the particle
safety number `-1`. -/
def negativeSafetyGrid (F : Type) [LinearOrderedField F] : grid F :=
  { quietGrid F with
    NumberOfParticles := 2
    ParticleVelocity := fun _ i => (i : F) + 1
    ParticleCourantSafetyNumber := -1 }

/-- The condition of line 142: baryon fields and a finite-difference solver. -/
def finiteDifference {F : Type} (g : grid F) : Prop :=
  0 < g.NumberOfBaryonFields ∧ g.HydroMethod ≠ HD_RK ∧ g.HydroMethod ≠ MHD_RK

instance {F : Type} (g : grid F) : Decidable (finiteDifference g) := by
  unfold finiteDifference
  infer_instance

/-- The input makes lines 121-553 fall through to the final reduction: no early
`return` and no fatal exit.  This is a derived form, proved equivalent to the
model in `candidates_eq_next_iff`. -/
def Reaches {F : Type} (g : grid F) : Prop :=
  g.GetUnits.isSome ∧
  ¬ (finiteDifference g ∧ g.ProblemType = 63) ∧
  (0 < g.NumberOfBaryonFields ∧ g.HydroMethod = HD_RK → g.IdentifyPhysicalQuantities6.1 = true) ∧
  (0 < g.NumberOfBaryonFields ∧ g.HydroMethod = MHD_RK →
    g.IdentifyPhysicalQuantities10.1 = true ∧
    (g.CRModel ≠ 0 → g.IdentifyPhysicalQuantities7.1 = true)) ∧
  (g.ComovingCoordinates ≠ 0 → g.CosmologyComputeExpansionTimestep.isSome) ∧
  (g.IsotropicConduction ≠ 0 ∨ g.AnisotropicConduction ≠ 0 →
    g.ComputeConductionTimeStep.isSome) ∧
  (g.CRModel ≠ 0 →
    (g.CRDiffusion ≠ 0 → g.ComputeCRDiffusionTimeStep.isSome) ∧
    (g.CRStreaming ≠ 0 → g.ComputeCRStreamingTimeStep.isSome)) ∧
  (g.UseCoolingTimestep = TRUE → g.ComputeCoolingTime.isSome)

/-- The candidates at the final reduction, each written as a function of the
input.  This is a derived form, proved equal to the state the model reaches in
`candidates_eq_next_iff`. -/
def finalCandidates {F : Type} [LinearOrderedField F] (L : Libm F) (g : grid F) (u : Units F) :
    Candidates F where
  dtBaryons :=
    if finiteDifference g then
      (if g.HydroMethod ≠ MHD_Li then g.calc_dt.1 else g.huge_number) * g.CourantSafetyNumber
    else if 0 < g.NumberOfBaryonFields ∧ g.HydroMethod = HD_RK then
      g.CourantSafetyNumber / hdrkScan g (expansionFactor g) g.IdentifyPhysicalQuantities6.2
    else g.huge_number
  dtViscous :=
    if finiteDifference g ∧ g.HydroMethod ≠ MHD_Li then g.calc_dt.2 else g.huge_number
  dtParticles :=
    if 0 < g.NumberOfParticles ∨ 0 < g.NumberOfActiveParticles then
      particleScan g (expansionFactor g) g.huge_number * g.ParticleCourantSafetyNumber
    else g.huge_number
  dtExpansion :=
    if g.ComovingCoordinates ≠ 0 then g.CosmologyComputeExpansionTimestep.getD g.huge_number
    else g.huge_number
  dtAcceleration :=
    if g.SelfGravity ≠ 0 then
      (if accelerationScan L g g.huge_number ≠ g.huge_number then
        accelerationScan L g g.huge_number * (1 / 2)
      else accelerationScan L g g.huge_number)
    else g.huge_number
  dtMHD :=
    if finiteDifference g ∧ g.HydroMethod = MHD_Li then
      g.mhd_dt * g.CourantSafetyNumber * expansionFactor g
    else if 0 < g.NumberOfBaryonFields ∧ g.HydroMethod = MHD_RK then
      g.CourantSafetyNumber / mhdScan L g (expansionFactor g) (mhdFieldNums g)
    else g.huge_number
  dtConduction :=
    if g.IsotropicConduction ≠ 0 ∨ g.AnisotropicConduction ≠ 0 then
      g.ComputeConductionTimeStep.getD g.huge_number * (g.NumberOfGhostZones : F)
    else g.huge_number
  dtCR :=
    if g.CRModel ≠ 0 then
      (if g.CRStreaming ≠ 0 then g.ComputeCRStreamingTimeStep.getD g.huge_number
        else if g.CRDiffusion ≠ 0 then g.ComputeCRDiffusionTimeStep.getD g.huge_number
        else g.huge_number) * g.CRCourantSafetyNumber *
        (if g.CRDiffusion = 1 then (g.NumberOfGhostZones : F) else 1)
    else g.huge_number
  dtGasDrag :=
    if g.UseGasDrag ≠ 0 ∧ g.GasDragCoefficient ≠ 0 then 1 / 2 / g.GasDragCoefficient
    else g.huge_number
  dtCooling :=
    if g.UseCoolingTimestep = TRUE then
      coolingScan g (g.ComputeCoolingTime.getD fun _ => 0) g.huge_number *
        g.CoolingTimestepSafetyFactor
    else g.huge_number
  dtQuantum := (quantum L g u (expansionFactor g) (initialCandidates g)).dtQuantum

/-- The candidate of one cell as the claim words it:
`sqrt(CellWidth[d][0] / (|acceleration| + tiny_number))`, the ε inside the
denominator. -/
def accelerationCandidateSpec {F : Type} [LinearOrderedField F] (L : Libm F) (g : grid F)
    (d : Nat) (acc : Nat → F) (i : Nat) : F :=
  L.sqrt (g.CellWidth d 0 / (|acc i| + g.tiny_number))

/-- The quiet grid with self-gravity on and no acceleration field populated. -/
def nullGravityGrid (F : Type) [LinearOrderedField F] : grid F :=
  { quietGrid F with SelfGravity := 1 }

/-- The quiet grid with self-gravity on and the acceleration `1/4` in its cell. -/
def gravityGrid (F : Type) [LinearOrderedField F] : grid F :=
  { quietGrid F with
    SelfGravity := 1
    AccelerationField := fun _ => some fun _ => 1 / 4 }

/-- The quiet grid with self-gravity on and the acceleration `0` in its cell. -/
def zeroGravityGrid (F : Type) [LinearOrderedField F] : grid F :=
  { quietGrid F with
    SelfGravity := 1
    AccelerationField := fun _ => some fun _ => 0 }

/-- The quiet grid with self-gravity on and the acceleration `1e-30` in its cell. -/
def faintGravityGrid (F : Type) [LinearOrderedField F] : grid F :=
  { quietGrid F with
    SelfGravity := 1
    AccelerationField := fun _ => some fun _ => 1 / 10 ^ 30 }

/-- The second input is the first with one process disabled: its flag switched
off or its field taken away.  Comoving coordinates are not in the list, and
`CRModel` is in it only when the `MHD_RK` scan of lines 322-421 does not run (no
baryon fields, or another solver): in that scan the cosmic-ray pressure enters
the sound speed. -/
def Disables {F : Type} [LinearOrderedField F] (g g' : grid F) : Prop :=
  g' = { g with NumberOfBaryonFields := 0 } ∨
  g' = { g with NumberOfParticles := 0, NumberOfActiveParticles := 0 } ∨
  g' = { g with SelfGravity := 0 } ∨
  g' = { g with AccelerationField := fun _ => none } ∨
  g' = { g with PotentialField := none } ∨
  g' = { g with IsotropicConduction := 0, AnisotropicConduction := 0 } ∨
  (g' = { g with CRModel := 0 } ∧
    ¬ (0 < g.NumberOfBaryonFields ∧ g.HydroMethod = MHD_RK)) ∨
  g' = { g with UseGasDrag := 0 } ∨
  g' = { g with UseCoolingTimestep := 0 } ∨
  g' = { g with QuantumPressure := 0 }

/-- The quiet grid with two particles of speeds `1` and `2` in comoving
coordinates: expansion factor `2`, expansion time step `1000`. -/
def comovingGrid (F : Type) [LinearOrderedField F] : grid F :=
  { quietGrid F with
    NumberOfParticles := 2
    ParticleVelocity := fun _ i => (i : F) + 1
    ComovingCoordinates := 1
    CosmologyComputeExpansionFactor := (true, 2)
    CosmologyComputeExpansionTimestep := some 1000 }

/-- The comoving grid with comoving coordinates switched off. -/
def comovingOffGrid (F : Type) [LinearOrderedField F] : grid F :=
  { comovingGrid F with ComovingCoordinates := 0 }

/-- The one-zone free-fall test with two particles of speeds `1` and `2`: density
`1`, collapse factor `0`, fraction `1` and `G = 3π/128`, so that the free-fall
time of the cell is `sqrt(4) = 2`. -/
def shortcutGrid (F : Type) [LinearOrderedField F] : grid F :=
  { quietGrid F with
    NumberOfBaryonFields := 1
    ProblemType := 63
    BaryonField := fun field _ => if field = 0 then 1 else 0
    GravitationalConstant := 3 * (314159265358979323846 / 10 ^ 20) / 128
    OneZoneFreefallTimestepFraction := 1
    NumberOfParticles := 2
    ParticleVelocity := fun _ i => (i : F) + 1 }

/-- The free-fall test grid of `shortcutGrid` without baryon fields. -/
def shortcutOffGrid (F : Type) [LinearOrderedField F] : grid F :=
  { shortcutGrid F with NumberOfBaryonFields := 0 }

/-- The quiet grid with cosmic rays: diffusion (mode `2`) with time step `1` and
streaming with time step `10`. -/
def streamingGrid (F : Type) [LinearOrderedField F] : grid F :=
  { quietGrid F with
    CRModel := 1
    CRDiffusion := 2
    CRStreaming := 1
    ComputeCRDiffusionTimeStep := some 1
    ComputeCRStreamingTimeStep := some 10 }

/-- The cosmic-ray grid with streaming switched off. -/
def streamingOffGrid (F : Type) [LinearOrderedField F] : grid F :=
  { streamingGrid F with CRStreaming := 0 }

/-- A one-cell `MHD_RK` grid with cosmic rays whose cosmic-ray energy is negative:
density `1` (field `0`), cosmic-ray energy `-81/64` (field `10`), all other
fields `0`, sound speed `5/4` and `CRgamma = 4/3`, so that `cs²` is
`25/16 − 9/16 = 1` with `CRModel` on and `25/16` with it off. -/
def drainedGrid (F : Type) [LinearOrderedField F] : grid F :=
  { quietGrid F with
    NumberOfBaryonFields := 1
    HydroMethod := MHD_RK
    CRModel := 1
    BaryonField := fun field _ => if field = 0 then 1 else if field = 10 then -81 / 64 else 0
    EOS := fun _ _ => 5 / 4 }

/-- The grid `drainedGrid` with `CRModel` switched off. -/
def drainedOffGrid (F : Type) [LinearOrderedField F] : grid F :=
  { drainedGrid F with CRModel := 0 }

/-- The quiet grid with the cooling time step on: one active cell (start and end
index `0` in every dimension) whose cooling time is `1`. -/
def coolingGrid (F : Type) [LinearOrderedField F] : grid F :=
  { quietGrid F with UseCoolingTimestep := TRUE }

/-- A block of rank 3 with `2 × 2 × 2` cells, all active (start index `0`, end
index `1`), with the cooling time step on; the cooling time is `1` in the last
cell (number `7`) and `100` in the others. -/
def coolingBlock (F : Type) [LinearOrderedField F] : grid F :=
  { quietGrid F with
    GridRank := 3
    GridDimension := fun _ => 2
    GridEndIndex := fun _ => 1
    UseCoolingTimestep := TRUE
    ComputeCoolingTime := some fun n => if n = 7 then 1 else 100 }

/-- The cell `(i, j, k)` lies in the active range of `find_min_dt_cell`. -/
def ActiveCell {F : Type} (A : MinDtArgs F) (i j k : Nat) : Prop :=
  (A.i1 ≤ i ∧ i ≤ A.i2) ∧ (A.j1 ≤ j ∧ j ≤ A.j2) ∧ (A.k1 ≤ k ∧ k ≤ A.k2)

/-- The cell `(i, j, k)` is not skipped by `find_min_dt_cell`: its density and its
pressure are positive (line 694) and its denominator exceeds `1e-20` (line 715). -/
def NotSkipped {F : Type} [LinearOrderedField F] (L : Libm F) (A : MinDtArgs F)
    (i j k : Nat) : Prop :=
  0 < A.dens (cellIndex A i j k) ∧ 0 < A.pres (cellIndex A i j k) ∧
    1 / 10 ^ 20 < cellDenom L A i j k

/-- Line 718: the estimate `dt_cell = aye / denom` of the cell `(i, j, k)`. -/
def cellEstimate {F : Type} [LinearOrderedField F] (L : Libm F) (A : MinDtArgs F)
    (i j k : Nat) : F :=
  A.aye / cellDenom L A i j k

/-- The state of the scan of `find_min_dt_cell` after some cells: `best_dt` is at
most `DBL_MAX` and at most every estimate in `S`, and once below `DBL_MAX` it is
the estimate of the active, not skipped cell `(best_i, best_j, best_k)`. -/
def ScanInvariant {F : Type} [LinearOrderedField F] (L : Libm F) (A : MinDtArgs F)
    (S : Set F) (b : BestCell F) : Prop :=
  b.best_dt ∈ lowerBounds S ∧ b.best_dt ≤ DBL_MAX ∧
    (b.best_dt < DBL_MAX → ActiveCell A b.best_i b.best_j b.best_k ∧
      NotSkipped L A b.best_i b.best_j b.best_k ∧
      b.best_dt = cellEstimate L A b.best_i b.best_j b.best_k)


/-- The term of axis `d` in the sum of the claimed estimate:
`(c_s + |v_axis − v_grid,axis|) / Δaxis` with `c_s = sqrt(γ · P / ρ)`; a bulk
velocity or a `w` field that is `NULL` counts as zero. -/
def axisTerm {F : Type} [LinearOrderedField F] (L : Libm F) (A : MinDtArgs F)
    (d i j k : Nat) : F :=
  if d = 0 then
    (L.sqrt (A.gamma * A.pres (cellIndex A i j k) / A.dens (cellIndex A i j k)) +
      |A.u (cellIndex A i j k) - A.vgx.getD 0|) / A.dx i
  else if d = 1 then
    (L.sqrt (A.gamma * A.pres (cellIndex A i j k) / A.dens (cellIndex A i j k)) +
      |A.v (cellIndex A i j k) - A.vgy.getD 0|) / A.dy j
  else
    (L.sqrt (A.gamma * A.pres (cellIndex A i j k) / A.dens (cellIndex A i j k)) +
      |(A.w.getD fun _ => 0) (cellIndex A i j k) - A.vgz.getD 0|) / A.dz k

/-- The estimate as the claim words it: `aye` divided by the sum of the terms of
the first `rank` axes. -/
def cellEstimateSpec {F : Type} [LinearOrderedField F] (L : Libm F) (A : MinDtArgs F)
    (i j k : Nat) : F :=
  A.aye / ((List.range A.rank).map fun d => axisTerm L A d i j k).sum

/-- A block of rank 1 with one cell at rest: density, pressure and `γ` are `1`
(sound speed `1`), all cell widths are `1`, and `aye = 1`. -/
def oneCellArgs (F : Type) [LinearOrderedField F] : MinDtArgs F where
  rank := 1
  nx := 1
  ny := 1
  nz := 1
  i1 := 0
  i2 := 0
  j1 := 0
  j2 := 0
  k1 := 0
  k2 := 0
  hydroMethod := 0
  C2 := 0
  dx := fun _ => 1
  dy := fun _ => 1
  dz := fun _ => 1
  vgx := some 0
  vgy := some 0
  vgz := some 0
  gamma := 1
  ipfree := 0
  aye := 1
  dens := fun _ => 1
  pres := fun _ => 1
  u := fun _ => 0
  v := fun _ => 0
  w := some fun _ => 0

/-- The one-cell block with cell widths `2` and `aye = DBL_MAX`: the estimate of
its cell is `DBL_MAX`. -/
def sentinelArgs (F : Type) [LinearOrderedField F] : MinDtArgs F :=
  { oneCellArgs F with
    dx := fun _ => 2
    dy := fun _ => 2
    aye := DBL_MAX }

/-- The one-cell block with cell widths `4e20`: the denominator of its cell is
`5e-21`. -/
def wideArgs (F : Type) [LinearOrderedField F] : MinDtArgs F :=
  { oneCellArgs F with
    dx := fun _ => 4 * 10 ^ 20
    dy := fun _ => 4 * 10 ^ 20 }

/-- A row of two active cells, the first of density `0`, the second of pressure
`-1`. -/
def voidArgs (F : Type) [LinearOrderedField F] : MinDtArgs F :=
  { oneCellArgs F with
    nx := 2
    i2 := 1
    dens := fun n => if n = 0 then 0 else 1
    pres := fun n => if n = 0 then 1 else -1 }

/-- A row of two active cells at rest, the first of density `0`, the second of
density, pressure and sound speed `1`. -/
def pairArgs (F : Type) [LinearOrderedField F] : MinDtArgs F :=
  { oneCellArgs F with
    nx := 2
    i2 := 1
    dens := fun n => if n = 0 then 0 else 1 }

/-- The one-cell block at rest, of rank 2. -/
def flatArgs (F : Type) [LinearOrderedField F] : MinDtArgs F :=
  { oneCellArgs F with rank := 2 }

/-- The quiet grid with cosmic rays and diffusion on, whose diffusion time-step
routine reports failure. -/
def diffusionFailGrid (F : Type) [LinearOrderedField F] : grid F :=
  { quietGrid F with
    CRModel := 1
    CRDiffusion := 1
    ComputeCRDiffusionTimeStep := none }

/-- The quiet grid with cosmic rays and streaming on, whose streaming time-step
routine reports failure. -/
def streamingFailGrid (F : Type) [LinearOrderedField F] : grid F :=
  { quietGrid F with
    CRModel := 1
    CRStreaming := 1
    ComputeCRStreamingTimeStep := none }

/-- The quiet grid in comoving coordinates on which `CosmologyComputeExpansionFactor`
reports failure (leaving `a = 1`); the expansion time step is `1`. -/
def expansionFactorFailGrid (F : Type) [LinearOrderedField F] : grid F :=
  { quietGrid F with
    ComovingCoordinates := 1
    CosmologyComputeExpansionFactor := (false, 1) }

/-- The quiet grid with baryon fields and the `Zeus_Hydro` solver on which
`IdentifyPhysicalQuantities` reports failure; `calc_dt` delivers `1`. -/
def identifyFailGrid (F : Type) [LinearOrderedField F] : grid F :=
  { quietGrid F with
    NumberOfBaryonFields := 1
    IdentifyPhysicalQuantities10 := (false, ⟨0, 1, 2, 3, 4, 5, 6, 7, 8, 9, 10⟩) }

/-- A one-cell `HD_RK` grid of rank 1 whose `y` and `z` velocities are `7` and
`-9` (fields `3` and `4`); density `1`, sound speed `1`. -/
def sidewaysGrid (F : Type) [LinearOrderedField F] : grid F :=
  { quietGrid F with
    NumberOfBaryonFields := 1
    HydroMethod := HD_RK
    BaryonField := fun field _ =>
      if field = 0 then 1 else if field = 3 then 7 else if field = 4 then -9 else 0 }

/-- An `HD_RK` block of rank 3 with `2 × 2 × 2` cells.  Cell `0` has density `0`
and the `x` velocity `9`; the other cells have density `1` and are at rest.  The
equation of state returns the sound speed `1` for every cell. -/
def zeroDensityBlock (F : Type) [LinearOrderedField F] : grid F :=
  { quietGrid F with
    GridRank := 3
    GridDimension := fun _ => 2
    GridEndIndex := fun _ => 1
    NumberOfBaryonFields := 1
    HydroMethod := HD_RK
    BaryonField := fun field n =>
      if field = 0 then (if n = 0 then 0 else 1)
      else if field = 2 then (if n = 0 then 9 else 0)
      else 0 }

/-- The quiet grid with cosmic rays: diffusion in mode `1` with time step `3` and
streaming with time step `10`. -/
def subcycledGrid (F : Type) [LinearOrderedField F] : grid F :=
  { quietGrid F with
    CRModel := 1
    CRDiffusion := 1
    CRStreaming := 1
    ComputeCRDiffusionTimeStep := some 3
    ComputeCRStreamingTimeStep := some 10 }

/-- The coefficient of the quantum-pressure claim:
`5.9157166856e27 · TimeUnits / (LengthUnits / a)² / FDMMass`. -/
def quantumCoefficient {F : Type} [LinearOrderedField F] (g : grid F) (u : Units F) (a : F) : F :=
  59157166856 * 10 ^ 17 * u.TimeUnits / (u.LengthUnits / a) ^ 2 / g.FDMMass

/-- The quiet grid of rank 2 with quantum pressure and self-gravity on, cell
widths `2` and `3`, and a potential field of two cells holding `4` and `-8`. -/
def quantumGrid (F : Type) [LinearOrderedField F] : grid F :=
  { quietGrid F with
    GridRank := 2
    CellWidth := fun d _ => if d = 0 then 2 else 3
    QuantumPressure := 1
    SelfGravity := 1
    PotentialField := some fun i => if i = 0 then 4 else -8
    GravitatingMassFieldDimension := fun d => if d = 0 then 2 else 1 }

/-- A one-cell `HD_RK` grid of density `1` at rest whose equation of state returns
the sound speed `0`: every signal speed is zero. -/
def stillGrid (F : Type) [LinearOrderedField F] : grid F :=
  { quietGrid F with
    NumberOfBaryonFields := 1
    HydroMethod := HD_RK
    BaryonField := fun field _ => if field = 0 then 1 else 0
    EOS := fun _ _ => 0 }

/-- A one-cell `MHD_RK` grid of density `1` at rest, without magnetic field, whose
equation of state returns the sound speed `0`: every signal speed is zero. -/
def stillMHDGrid (F : Type) [LinearOrderedField F] : grid F :=
  { quietGrid F with
    NumberOfBaryonFields := 1
    HydroMethod := MHD_RK
    BaryonField := fun field _ => if field = 0 then 1 else 0
    EOS := fun _ _ => 0 }

/-! ## Auxiliary lemmas -/

section Lemmas

set_option linter.unusedSectionVars false

variable {F : Type} [LinearOrderedField F]

theorem cmin_eq_min (a b : F) : cmin a b = min a b := by
  unfold cmin
  split_ifs with h
  · exact (min_eq_left h.le).symm
  · exact (min_eq_right (not_lt.mp h)).symm

theorem cmax_eq_max (a b : F) : cmax a b = max a b := by
  unfold cmax
  split_ifs with h
  · exact (max_eq_left (le_of_lt h)).symm
  · exact (max_eq_right (not_lt.mp h)).symm

theorem min_mem_of_mem (a b : F) (S : Set F) (ha : a ∈ S) (hb : b ∈ S) : min a b ∈ S := by
  rcases min_choice a b with h | h <;> rw [h] <;> assumption

/-- The final reduction is the least of the eleven candidates. -/
theorem finalReduction_isLeast (c : Candidates F) :
    IsLeast ({c.dtBaryons, c.dtParticles, c.dtMHD, c.dtViscous, c.dtAcceleration,
      c.dtExpansion, c.dtConduction, c.dtCR, c.dtGasDrag, c.dtCooling, c.dtQuantum} : Set F)
      (finalReduction c) := by
  constructor
  · simp only [finalReduction, cmin_eq_min]
    repeat' (first | apply min_mem_of_mem | simp)
  · intro x hx
    simp only [Set.mem_insert_iff, Set.mem_singleton_iff] at hx
    simp only [finalReduction, cmin_eq_min, min_le_iff]
    rcases hx with h | h | h | h | h | h | h | h | h | h | h <;> subst h <;> simp

theorem mem_loopIncl (lo hi x : Nat) : x ∈ loopIncl lo hi ↔ lo ≤ x ∧ x ≤ hi := by
  unfold loopIncl
  rw [List.mem_range'_1]
  omega

theorem mem_loopExcl (lo hi x : Nat) : x ∈ loopExcl lo hi ↔ lo ≤ x ∧ x < hi := by
  unfold loopExcl
  rw [List.mem_range'_1]
  omega

/-- A loop whose every step extends a running minimum by the values `T y` ends with
the minimum extended by the values of all the steps. -/
theorem foldl_isLeast {α : Type} (T : α → Set F) (step : F → α → F) (l : List α)
    (hstep : ∀ (S : Set F) (acc : F) (y : α), y ∈ l → IsLeast S acc →
      IsLeast (S ∪ T y) (step acc y)) :
    ∀ (S : Set F) (init : F), IsLeast S init →
      IsLeast (S ∪ {x | ∃ y ∈ l, x ∈ T y}) (l.foldl step init) := by
  induction l with
  | nil =>
    intro S init h
    simpa using h
  | cons a l ih =>
    intro S init h
    have h1 := hstep S init a (List.mem_cons_self a l) h
    have h2 := ih (fun S acc y hy => hstep S acc y (List.mem_cons_of_mem a hy)) _ _ h1
    have hset : S ∪ {x | ∃ y ∈ a :: l, x ∈ T y} = S ∪ T a ∪ {x | ∃ y ∈ l, x ∈ T y} := by
      ext x
      simp only [Set.mem_union, Set.mem_setOf_eq, List.mem_cons]
      constructor
      · rintro (h | ⟨y, rfl | hy, hx⟩)
        · exact Or.inl (Or.inl h)
        · exact Or.inl (Or.inr hx)
        · exact Or.inr ⟨y, hy, hx⟩
      · rintro ((h | h) | ⟨y, hy, hx⟩)
        · exact Or.inl h
        · exact Or.inr ⟨a, Or.inl rfl, h⟩
        · exact Or.inr ⟨y, Or.inr hy, hx⟩
    rw [hset]
    exact h2

/-- One step `acc = min(acc, v)` extends a running minimum by `v`. -/
theorem cmin_isLeast (S : Set F) (acc v : F) (h : IsLeast S acc) :
    IsLeast (S ∪ {v}) (cmin acc v) := by
  rw [cmin_eq_min]
  exact h.union isLeast_singleton

/-- One step `if (p) skip; else acc = min(acc, v)` extends a running minimum by `v`
unless `p` holds. -/
theorem guarded_cmin_isLeast (S : Set F) (acc v : F) (p : Prop) [Decidable p]
    (h : IsLeast S acc) :
    IsLeast (S ∪ {x | ¬ p ∧ x = v}) (if p then acc else cmin acc v) := by
  by_cases hp : p
  · rw [if_pos hp]
    convert h using 1
    ext x
    simp [hp]
  · rw [if_neg hp]
    convert cmin_isLeast S acc v h using 1
    ext x
    simp [hp]

/-- Lines 158-174: the unscaled free-fall step is the least of `huge_number` and
the free-fall times of the cells of the active index range whose divisor
`32 · G · ρ · (1 − f)` is not zero. -/
theorem freeFallScan_isLeast (L : Libm F) (g : grid F) (DensNum : Nat) (ff : Nat → F) :
    ∃ m, freeFallTimeStep L g DensNum ff = m * g.OneZoneFreefallTimestepFraction ∧
      IsLeast {x | x = g.huge_number ∨ ∃ i j k,
        (g.GridStartIndex 0 ≤ i ∧ i ≤ g.GridEndIndex 0) ∧
        (g.GridStartIndex 1 ≤ j ∧ j ≤ g.GridEndIndex 1) ∧
        (g.GridStartIndex 2 ≤ k ∧ k ≤ g.GridEndIndex 2) ∧
        32 * g.GravitationalConstant *
          g.BaryonField DensNum (i + j * g.GridDimension 0 +
            k * g.GridDimension 0 * g.GridDimension 1) *
          (1 - ff (i + j * g.GridDimension 0 +
            k * g.GridDimension 0 * g.GridDimension 1)) ≠ 0 ∧
        x = L.POW ((3 * g.pi) / (32 * g.GravitationalConstant *
              g.BaryonField DensNum (i + j * g.GridDimension 0 +
                k * g.GridDimension 0 * g.GridDimension 1) *
              (1 - ff (i + j * g.GridDimension 0 +
                k * g.GridDimension 0 * g.GridDimension 1)))) (1 / 2)} m := by
  refine ⟨_, rfl, ?_⟩
  have h := foldl_isLeast
    (fun k => {x | ∃ j ∈ loopIncl (g.GridStartIndex 1) (g.GridEndIndex 1),
      x ∈ {x | ∃ i ∈ loopIncl (g.GridStartIndex 0) (g.GridEndIndex 0),
        x ∈ ({x | ¬ (32 * g.GravitationalConstant *
              g.BaryonField DensNum (i + j * g.GridDimension 0 +
                k * g.GridDimension 0 * g.GridDimension 1) *
              (1 - ff (i + j * g.GridDimension 0 +
                k * g.GridDimension 0 * g.GridDimension 1)) = 0) ∧
            x = L.POW ((3 * g.pi) / (32 * g.GravitationalConstant *
              g.BaryonField DensNum (i + j * g.GridDimension 0 +
                k * g.GridDimension 0 * g.GridDimension 1) *
              (1 - ff (i + j * g.GridDimension 0 +
                k * g.GridDimension 0 * g.GridDimension 1)))) (1 / 2)} : Set F)}})
    _ (loopIncl (g.GridStartIndex 2) (g.GridEndIndex 2))
    (fun S acc k _ hS => foldl_isLeast _ _ _
      (fun S acc j _ hS => foldl_isLeast _ _ _
        (fun S acc i _ hS => guarded_cmin_isLeast S acc _ _ hS) S acc hS) S acc hS)
    {g.huge_number} g.huge_number isLeast_singleton
  convert h using 1
  ext x
  simp only [Set.mem_setOf_eq, Set.mem_union, Set.mem_singleton_iff, mem_loopIncl]
  constructor
  · rintro (h | ⟨i, j, k, hi, hj, hk, hx⟩)
    · exact Or.inl h
    · exact Or.inr ⟨k, hk, j, hj, i, hi, hx⟩
  · rintro (h | ⟨k, hk, j, hj, i, hi, hx⟩)
    · exact Or.inl h
    · exact Or.inr ⟨i, j, k, hi, hj, hk, hx⟩

/-- The call takes the free-fall shortcut of lines 152-176. -/
theorem ComputeTimeStep_freeFall (L : Libm F) (g : grid F) (u : Units F) (ff : Nat → F)
    (hlocal : g.ProcessorNumber = g.MyProcessorNumber)
    (hunits : g.GetUnits = some u)
    (hbaryon : 0 < g.NumberOfBaryonFields)
    (hhd : g.HydroMethod ≠ HD_RK) (hmhd : g.HydroMethod ≠ MHD_RK)
    (hpt : g.ProblemType = 63)
    (hff : g.ComputeOneZoneCollapseFactor = some ff) :
    ComputeTimeStep L g =
      .value (freeFallTimeStep L g g.IdentifyPhysicalQuantities10.2.DensNum ff) := by
  simp [ComputeTimeStep, candidates, baryonsFD, Flow.bind, hlocal, hunits, hbaryon, hhd, hmhd,
    hpt, hff]

/-- One step of a scan that keeps a running maximum `st.1` of the values `r n` and
counts the cells in `st.2`. -/
theorem iterate_running_max (r : Nat → F) (v0 : F) (N : Nat) :
    ((fun st : F × Nat => ((if r st.2 > st.1 then r st.2 else st.1), st.2 + 1))^[N] (v0, 0)).2 = N ∧
    IsGreatest {x | x = v0 ∨ ∃ n, n < N ∧ x = r n}
      ((fun st : F × Nat => ((if r st.2 > st.1 then r st.2 else st.1), st.2 + 1))^[N] (v0, 0)).1 := by
  induction N with
  | zero =>
    refine ⟨rfl, ?_, ?_⟩
    · simp
    · rintro x (h | ⟨n, hn, _⟩)
      · simp [h]
      · omega
  | succ N ih =>
    obtain ⟨hcount, hmem, hub⟩ := ih
    rw [Function.iterate_succ_apply']
    simp only [hcount]
    refine ⟨trivial, ?_, ?_⟩
    · split_ifs with h
      · exact Or.inr ⟨N, Nat.lt_succ_self N, rfl⟩
      · rcases hmem with h0 | ⟨n, hn, hx⟩
        · exact Or.inl h0
        · exact Or.inr ⟨n, Nat.lt_succ_of_lt hn, hx⟩
    · rintro x (h0 | ⟨n, hn, hx⟩)
      · have := hub (Or.inl h0)
        split_ifs with h
        · exact le_trans this (le_of_lt h)
        · exact this
      · rcases Nat.lt_succ_iff_lt_or_eq.mp hn with hlt | heq
        · have := hub (Or.inr ⟨n, hlt, hx⟩)
          split_ifs with h
          · exact le_trans this (le_of_lt h)
          · exact this
        · subst heq
          subst hx
          split_ifs with h
          · exact le_refl _
          · exact not_lt.mp h

/-- Three nested counting loops that apply the same step are the step iterated
`d0 * d1 * d2` times. -/
theorem nested_loops_iterate {σ : Type} (f : σ → σ) (d0 d1 d2 : Nat) (s : σ) :
    (List.range d2).foldl (fun st _k =>
      (List.range d1).foldl (fun st _j =>
        (List.range d0).foldl (fun st _i => f st) st) st) s = f^[d0 * d1 * d2] s := by
  have h0 : ∀ st : σ, (List.range d0).foldl (fun st _i => f st) st = f^[d0] st := by
    intro st
    rw [List.foldl_const, List.length_range]
  have h1 : ∀ st : σ, (List.range d1).foldl (fun st _j => f^[d0] st) st = f^[d0 * d1] st := by
    intro st
    rw [List.foldl_const, List.length_range, Function.iterate_mul]
  simp only [h0, h1, List.foldl_const, List.length_range, Function.iterate_mul]

/-- The largest of three values is one of them and bounds them. -/
theorem my_MAX_eq (a b c : F) : my_MAX a b c = max (max a b) c := by
  simp [my_MAX, cmax_eq_max]

/-- The scaling by `dxinv` is the division by `CellWidth · a`. -/
theorem mul_inv_width (v w a : F) : v * (1 / w / a) = v / (w * a) := by
  rw [div_div, mul_one_div]

/-- A scan that keeps the running maximum of `my_MAX` of the three axis values,
where the axes at or above `rank` contribute `0`, started at a positive floor:
after `N` cells the maximum is the greatest element of the set holding the floor
and the values of the first `N` cells along the axes below `rank`. -/
theorem running_max_axes (rate : Nat → Nat → F) (rank N : Nat) (floor : F)
    (hfloor : 0 < floor) (hrank1 : 1 ≤ rank) (hrank3 : rank ≤ 3) :
    IsGreatest {x | x = floor ∨ ∃ n d, n < N ∧ d < rank ∧ x = rate d n}
      ((fun st : F × Nat =>
        ((if my_MAX (rate 0 st.2) (if rank > 1 then rate 1 st.2 else 0)
              (if rank > 2 then rate 2 st.2 else 0) > st.1
          then my_MAX (rate 0 st.2) (if rank > 1 then rate 1 st.2 else 0)
              (if rank > 2 then rate 2 st.2 else 0)
          else st.1), st.2 + 1))^[N] (floor, 0)).1 := by
  obtain ⟨-, hmem, hub⟩ := iterate_running_max
    (fun n => my_MAX (rate 0 n) (if rank > 1 then rate 1 n else 0)
      (if rank > 2 then rate 2 n else 0)) floor N
  constructor
  · rcases hmem with h0 | ⟨n, hn, hx⟩
    · exact Or.inl h0
    · have hge := hub (Or.inl rfl)
      rw [hx] at hge ⊢
      simp only [my_MAX_eq] at hge ⊢
      rcases max_choice (max (rate 0 n) (if rank > 1 then rate 1 n else 0))
          (if rank > 2 then rate 2 n else 0) with h | h
      · rcases max_choice (rate 0 n) (if rank > 1 then rate 1 n else 0) with h' | h'
        · rw [h, h']
          exact Or.inr ⟨n, 0, hn, hrank1, rfl⟩
        · rw [h, h'] at hge ⊢
          split_ifs at hge ⊢ with hr
          · exact Or.inr ⟨n, 1, hn, hr, rfl⟩
          · exact absurd (lt_of_lt_of_le hfloor hge) (lt_irrefl _)
      · rw [h] at hge ⊢
        split_ifs at hge ⊢ with hr
        · exact Or.inr ⟨n, 2, hn, hr, rfl⟩
        · exact absurd (lt_of_lt_of_le hfloor hge) (lt_irrefl _)
  · rintro x (h0 | ⟨n, d, hn, hd, hx⟩)
    · exact hub (Or.inl h0)
    · refine le_trans ?_ (hub (Or.inr ⟨n, hn, rfl⟩))
      simp only [my_MAX_eq]
      have hd3 : d = 0 ∨ d = 1 ∨ d = 2 := by omega
      rcases hd3 with rfl | rfl | rfl
      · rw [hx]; exact le_max_of_le_left (le_max_left _ _)
      · rw [hx, if_pos hd]; exact le_max_of_le_left (le_max_right _ _)
      · rw [hx, if_pos hd]; exact le_max_right _ _

/-- The body of the `HD_RK` scan, written with the scaled signal speeds. -/
theorem hdrkCell_eq (g : grid F) (a : F) (nums : FieldNums) :
    hdrkCell g (1 / g.CellWidth 0 0 / a)
      (if g.GridRank > 1 then 1 / g.CellWidth 1 0 / a else 0)
      (if g.GridRank > 2 then 1 / g.CellWidth 2 0 / a else 0) nums =
    fun st : F × Nat =>
      ((if my_MAX (hdSignalRate g a nums 0 st.2)
            (if g.GridRank > 1 then hdSignalRate g a nums 1 st.2 else 0)
            (if g.GridRank > 2 then hdSignalRate g a nums 2 st.2 else 0) > st.1
        then my_MAX (hdSignalRate g a nums 0 st.2)
            (if g.GridRank > 1 then hdSignalRate g a nums 1 st.2 else 0)
            (if g.GridRank > 2 then hdSignalRate g a nums 2 st.2 else 0)
        else st.1), st.2 + 1) := by
  funext st
  have e0 : ∀ n, hdSignalRate g a nums 0 n = (g.EOS (g.BaryonField nums.DensNum n)
      (hdInternalEnergy g nums n) + fabs (g.BaryonField nums.Vel1Num n)) *
      (1 / g.CellWidth 0 0 / a) := fun n => by
    rw [mul_inv_width]; simp [hdSignalRate, velocity, fabs]
  have e1 : ∀ n, (if g.GridRank > 1 then hdSignalRate g a nums 1 n else 0) =
      (if g.GridRank > 1 then g.EOS (g.BaryonField nums.DensNum n)
        (hdInternalEnergy g nums n) + fabs (g.BaryonField nums.Vel2Num n) else 0) *
      (if g.GridRank > 1 then 1 / g.CellWidth 1 0 / a else 0) := fun n => by
    split_ifs
    · rw [mul_inv_width]; simp [hdSignalRate, velocity, fabs]
    · simp
  have e2 : ∀ n, (if g.GridRank > 2 then hdSignalRate g a nums 2 n else 0) =
      (if g.GridRank > 2 then g.EOS (g.BaryonField nums.DensNum n)
        (hdInternalEnergy g nums n) + fabs (g.BaryonField nums.Vel3Num n) else 0) *
      (if g.GridRank > 2 then 1 / g.CellWidth 2 0 / a else 0) := fun n => by
    split_ifs
    · rw [mul_inv_width]; simp [hdSignalRate, velocity, fabs]
    · simp
  simp only [e0, e1, e2]
  simp only [hdrkCell, hdInternalEnergy, velocity]
  simp

/-- Lines 271-314: `dt_temp` after the `HD_RK` scan is the greatest element of the
set holding the floor `1e-20` and the scaled signal speeds of every cell of the
block along every axis below `GridRank`. -/
theorem hdrkScan_isGreatest (g : grid F) (a : F) (nums : FieldNums)
    (hrank1 : 1 ≤ g.GridRank) (hrank3 : g.GridRank ≤ 3) :
    IsGreatest {x | x = 1 / 10 ^ 20 ∨ ∃ n d,
        n < g.GridDimension 0 * g.GridDimension 1 * g.GridDimension 2 ∧ d < g.GridRank ∧
        x = hdSignalRate g a nums d n}
      (hdrkScan g a nums) := by
  unfold hdrkScan
  simp only []
  rw [nested_loops_iterate, hdrkCell_eq]
  exact running_max_axes (fun d n => hdSignalRate g a nums d n) g.GridRank _ _
    (by positivity) hrank1 hrank3

/-- The fast speed of lines 377-379 is the claim's `cf` for the same cell. -/
theorem fastSpeed_eq (L : Libm F) (g : grid F) (nums : FieldNums) (d n : Nat) :
    fastSpeed L
      ((if g.CRModel ≠ 0 then
          g.EOS (g.BaryonField nums.DensNum n) (mhdInternalEnergy g nums n) *
            g.EOS (g.BaryonField nums.DensNum n) (mhdInternalEnergy g nums n) +
          g.CRgamma * ((g.CRgamma - 1) * g.BaryonField nums.CRNum n) /
            g.BaryonField nums.DensNum n
        else g.EOS (g.BaryonField nums.DensNum n) (mhdInternalEnergy g nums n) *
            g.EOS (g.BaryonField nums.DensNum n) (mhdInternalEnergy g nums n)) +
        (g.BaryonField nums.B1Num n * g.BaryonField nums.B1Num n +
          g.BaryonField nums.B2Num n * g.BaryonField nums.B2Num n +
          g.BaryonField nums.B3Num n * g.BaryonField nums.B3Num n) /
          g.BaryonField nums.DensNum n)
      (if g.CRModel ≠ 0 then
          g.EOS (g.BaryonField nums.DensNum n) (mhdInternalEnergy g nums n) *
            g.EOS (g.BaryonField nums.DensNum n) (mhdInternalEnergy g nums n) +
          g.CRgamma * ((g.CRgamma - 1) * g.BaryonField nums.CRNum n) /
            g.BaryonField nums.DensNum n
        else g.EOS (g.BaryonField nums.DensNum n) (mhdInternalEnergy g nums n) *
            g.EOS (g.BaryonField nums.DensNum n) (mhdInternalEnergy g nums n))
      (magneticField g nums d n * magneticField g nums d n / g.BaryonField nums.DensNum n) =
    mhdFastSpeed L g nums d n := by
  have hcs : (if g.CRModel ≠ 0 then
          g.EOS (g.BaryonField nums.DensNum n) (mhdInternalEnergy g nums n) *
            g.EOS (g.BaryonField nums.DensNum n) (mhdInternalEnergy g nums n) +
          g.CRgamma * ((g.CRgamma - 1) * g.BaryonField nums.CRNum n) /
            g.BaryonField nums.DensNum n
        else g.EOS (g.BaryonField nums.DensNum n) (mhdInternalEnergy g nums n) *
            g.EOS (g.BaryonField nums.DensNum n) (mhdInternalEnergy g nums n)) =
      mhdSoundSpeedSq g nums n := by
    unfold mhdSoundSpeedSq
    split_ifs <;> ring
  have hB : g.BaryonField nums.B1Num n * g.BaryonField nums.B1Num n +
          g.BaryonField nums.B2Num n * g.BaryonField nums.B2Num n +
          g.BaryonField nums.B3Num n * g.BaryonField nums.B3Num n =
      magneticFieldSq g nums n := by
    simp only [magneticFieldSq, magneticField]
    simp
    ring
  rw [hcs, hB]
  unfold fastSpeed mhdFastSpeed
  simp only []
  congr 3
  ring_nf

/-- The internal energy of lines 358-365 is the claim's. -/
theorem mhdInternalEnergy_eq (g : grid F) (nums : FieldNums) (n : Nat) :
    (if g.DualEnergyFormalism ≠ 0 then g.BaryonField nums.GENum n
      else g.BaryonField nums.TENum n -
        1 / 2 * (g.BaryonField nums.Vel1Num n * g.BaryonField nums.Vel1Num n +
          g.BaryonField nums.Vel2Num n * g.BaryonField nums.Vel2Num n +
          g.BaryonField nums.Vel3Num n * g.BaryonField nums.Vel3Num n) -
        1 / 2 * (g.BaryonField nums.B1Num n * g.BaryonField nums.B1Num n +
          g.BaryonField nums.B2Num n * g.BaryonField nums.B2Num n +
          g.BaryonField nums.B3Num n * g.BaryonField nums.B3Num n) /
          g.BaryonField nums.DensNum n) = mhdInternalEnergy g nums n := by
  unfold mhdInternalEnergy magneticFieldSq magneticField velocity
  by_cases h : g.DualEnergyFormalism ≠ 0
  · simp only [if_pos h]
  · simp only [if_neg h, if_true, one_ne_zero, if_false, OfNat.ofNat_ne_zero,
      OfNat.ofNat_ne_one]
    ring

/-- The body of the `MHD_RK` scan, written with the scaled signal speeds. -/
theorem mhdCell_eq (L : Libm F) (g : grid F) (a : F) (nums : FieldNums) :
    mhdCell L g (1 / g.CellWidth 0 0 / a)
      (if g.GridRank > 1 then 1 / g.CellWidth 1 0 / a else 0)
      (if g.GridRank > 2 then 1 / g.CellWidth 2 0 / a else 0) nums =
    fun st : F × Nat =>
      ((if my_MAX (mhdSignalRate L g a nums 0 st.2)
            (if g.GridRank > 1 then mhdSignalRate L g a nums 1 st.2 else 0)
            (if g.GridRank > 2 then mhdSignalRate L g a nums 2 st.2 else 0) > st.1
        then my_MAX (mhdSignalRate L g a nums 0 st.2)
            (if g.GridRank > 1 then mhdSignalRate L g a nums 1 st.2 else 0)
            (if g.GridRank > 2 then mhdSignalRate L g a nums 2 st.2 else 0)
        else st.1), st.2 + 1) := by
  funext st
  have e : ∀ d n, mhdSignalRate L g a nums d n =
      (mhdFastSpeed L g nums d n + fabs (velocity g nums d n)) *
      (1 / g.CellWidth d 0 / a) := fun d n => by
    rw [mul_inv_width]; rfl
  have e1 : ∀ n, (if g.GridRank > 1 then mhdSignalRate L g a nums 1 n else 0) =
      (if g.GridRank > 1 then mhdFastSpeed L g nums 1 n + fabs (velocity g nums 1 n) else 0) *
      (if g.GridRank > 1 then 1 / g.CellWidth 1 0 / a else 0) := fun n => by
    split_ifs
    · exact e 1 n
    · simp
  have e2 : ∀ n, (if g.GridRank > 2 then mhdSignalRate L g a nums 2 n else 0) =
      (if g.GridRank > 2 then mhdFastSpeed L g nums 2 n + fabs (velocity g nums 2 n) else 0) *
      (if g.GridRank > 2 then 1 / g.CellWidth 2 0 / a else 0) := fun n => by
    split_ifs
    · exact e 2 n
    · simp
  simp only [e1, e2, e 0]
  have f0 := fastSpeed_eq L g nums 0 st.2
  have f1 := fastSpeed_eq L g nums 1 st.2
  have f2 := fastSpeed_eq L g nums 2 st.2
  simp only [magneticField, if_true, one_ne_zero, if_false, OfNat.ofNat_ne_zero,
    OfNat.ofNat_ne_one] at f0 f1 f2
  simp only [mhdCell, mhdInternalEnergy_eq, velocity, if_true, one_ne_zero, if_false,
    OfNat.ofNat_ne_zero, OfNat.ofNat_ne_one]
  rw [f0, f1, f2]

/-- Lines 335-412: `dt_temp` after the `MHD_RK` scan is the greatest element of the
set holding the floor `1e-20` and the scaled fast-magnetosonic signal speeds of
every cell of the block along every axis below `GridRank`. -/
theorem mhdScan_isGreatest (L : Libm F) (g : grid F) (a : F) (nums : FieldNums)
    (hrank1 : 1 ≤ g.GridRank) (hrank3 : g.GridRank ≤ 3) :
    IsGreatest {x | x = 1 / 10 ^ 20 ∨ ∃ n d,
        n < g.GridDimension 0 * g.GridDimension 1 * g.GridDimension 2 ∧ d < g.GridRank ∧
        x = mhdSignalRate L g a nums d n}
      (mhdScan L g a nums) := by
  unfold mhdScan
  simp only []
  rw [nested_loops_iterate, mhdCell_eq]
  exact running_max_axes (fun d n => mhdSignalRate L g a nums d n) g.GridRank _ _
    (by positivity) hrank1 hrank3

/-- The scaled `MHD_RK` signal speed of a cell at rest without magnetic field, in
terms of its `cs²`. -/
theorem mhdSignalRate_unmagnetised (L : Libm F) (g : grid F) (a : F) (nums : FieldNums)
    (d n : Nat) (s : F) (hs : mhdSoundSpeedSq g nums n = s)
    (hB : ∀ d, magneticField g nums d n = 0)
    (hv : velocity g nums d n = 0) :
    mhdSignalRate L g a nums d n =
      L.sqrt (1 / 2 * (s + L.sqrt (s * s))) / (g.CellWidth d 0 * a) := by
  unfold mhdSignalRate mhdFastSpeed magneticFieldSq
  rw [hs, hv, hB 0, hB 1, hB 2, hB d]
  simp [sq]

/-- Lines 430-440: the unscaled particle step is the least of the value it starts
from and the crossing times `CellWidth[d][0] · a / max(|v_d|, tiny_number)` of all
ordinary and active particles along all dimensions below `GridRank`. -/
theorem particleScan_isLeast (g : grid F) (a init : F) :
    IsLeast {x | x = init ∨ ∃ d, d < g.GridRank ∧
        ((∃ i, i < g.NumberOfParticles ∧
            x = g.CellWidth d 0 * a / max |g.ParticleVelocity d i| g.tiny_number) ∨
         (∃ i, i < g.NumberOfActiveParticles ∧
            x = g.CellWidth d 0 * a / max |g.ActiveParticleVelocity i d| g.tiny_number))}
      (particleScan g a init) := by
  have h := foldl_isLeast
    (fun d => {x | ∃ i ∈ List.range g.NumberOfParticles,
        x ∈ ({g.CellWidth d 0 * a / cmax (fabs (g.ParticleVelocity d i)) g.tiny_number} : Set F)} ∪
      {x | ∃ i ∈ List.range g.NumberOfActiveParticles,
        x ∈ ({g.CellWidth d 0 * a /
          cmax (fabs (g.ActiveParticleVelocity i d)) g.tiny_number} : Set F)})
    (fun dtP dim =>
      (List.range g.NumberOfActiveParticles).foldl (fun dtP i =>
        cmin dtP (g.CellWidth dim 0 * a /
          cmax (fabs (g.ActiveParticleVelocity i dim)) g.tiny_number))
        ((List.range g.NumberOfParticles).foldl (fun dtP i =>
          cmin dtP (g.CellWidth dim 0 * a /
            cmax (fabs (g.ParticleVelocity dim i)) g.tiny_number)) dtP))
    (List.range g.GridRank)
    (fun S acc d _ hS => by
      have h1 := foldl_isLeast
        (fun i => ({g.CellWidth d 0 * a /
          cmax (fabs (g.ParticleVelocity d i)) g.tiny_number} : Set F)) _
        (List.range g.NumberOfParticles)
        (fun S acc i _ hS => cmin_isLeast S acc _ hS) S acc hS
      have h2 := foldl_isLeast
        (fun i => ({g.CellWidth d 0 * a /
          cmax (fabs (g.ActiveParticleVelocity i d)) g.tiny_number} : Set F)) _
        (List.range g.NumberOfActiveParticles)
        (fun S acc i _ hS => cmin_isLeast S acc _ hS) _ _ h1
      rw [Set.union_assoc] at h2
      exact h2)
    {init} init isLeast_singleton
  unfold particleScan
  convert h using 1
  ext x
  simp only [Set.mem_setOf_eq, Set.mem_union, Set.mem_singleton_iff, List.mem_range,
    cmax_eq_max, fabs]

theorem Flow.bind_eq_next {α β : Type} (x : Flow F α) (f : α → Flow F β) (b : β) :
    x.bind f = .next b ↔ ∃ a, x = .next a ∧ f a = .next b := by
  cases x <;> simp [Flow.bind]

theorem baryonsFD_eq_next (L : Libm F) (g : grid F) (a : F) (c c' : Candidates F) :
    baryonsFD L g a c = .next c' ↔
      ¬ (finiteDifference g ∧ g.ProblemType = 63) ∧
      (if finiteDifference g then
        { c with
          dtBaryons := (if g.HydroMethod ≠ MHD_Li then g.calc_dt.1 else c.dtBaryons) *
            g.CourantSafetyNumber
          dtViscous := if g.HydroMethod ≠ MHD_Li then g.calc_dt.2 else c.dtViscous
          dtMHD := if g.HydroMethod = MHD_Li then g.mhd_dt * g.CourantSafetyNumber * a
            else c.dtMHD }
        else c) = c' := by
  unfold baryonsFD finiteDifference
  by_cases h : 0 < g.NumberOfBaryonFields ∧ g.HydroMethod ≠ HD_RK ∧ g.HydroMethod ≠ MHD_RK
  · by_cases hpt : g.ProblemType = 63
    · simp only [if_pos h, if_pos hpt]
      cases g.ComputeOneZoneCollapseFactor <;> simp [h, hpt]
    · simp only [if_pos h, if_neg hpt]
      by_cases hli : g.HydroMethod = MHD_Li
      · simp [hli, hpt]
      · simp [hli, hpt]
  · simp [h]

theorem baryonsHD_RK_eq_next (g : grid F) (a : F) (c c' : Candidates F) :
    baryonsHD_RK g a c = .next c' ↔
      (0 < g.NumberOfBaryonFields ∧ g.HydroMethod = HD_RK →
        g.IdentifyPhysicalQuantities6.1 = true) ∧
      (if 0 < g.NumberOfBaryonFields ∧ g.HydroMethod = HD_RK then
        { c with dtBaryons :=
            g.CourantSafetyNumber / hdrkScan g a g.IdentifyPhysicalQuantities6.2 }
        else c) = c' := by
  unfold baryonsHD_RK
  by_cases h : 0 < g.NumberOfBaryonFields ∧ g.HydroMethod = HD_RK
  · by_cases hid : g.IdentifyPhysicalQuantities6.1 = true
    · simp [h, hid]
    · simp [h, hid]
  · simp [h]

theorem baryonsMHD_RK_eq_next (L : Libm F) (g : grid F) (a : F) (c c' : Candidates F) :
    baryonsMHD_RK L g a c = .next c' ↔
      (0 < g.NumberOfBaryonFields ∧ g.HydroMethod = MHD_RK →
        g.IdentifyPhysicalQuantities10.1 = true ∧
        (g.CRModel ≠ 0 → g.IdentifyPhysicalQuantities7.1 = true)) ∧
      (if 0 < g.NumberOfBaryonFields ∧ g.HydroMethod = MHD_RK then
        { c with dtMHD := g.CourantSafetyNumber / mhdScan L g a (mhdFieldNums g) }
        else c) = c' := by
  unfold baryonsMHD_RK
  by_cases h : 0 < g.NumberOfBaryonFields ∧ g.HydroMethod = MHD_RK
  · by_cases hid : g.IdentifyPhysicalQuantities10.1 = true
    · by_cases hcr : g.CRModel = 0
      · simp [h, hid, hcr]
      · by_cases hid7 : g.IdentifyPhysicalQuantities7.1 = true
        · simp [h, hid, hcr, hid7]
        · simp [h, hid, hcr, hid7]
    · simp [h, hid]
  · simp [h]

theorem expansion_eq_next (g : grid F) (c c' : Candidates F) :
    expansion g c = .next c' ↔
      (g.ComovingCoordinates ≠ 0 → g.CosmologyComputeExpansionTimestep.isSome) ∧
      (if g.ComovingCoordinates ≠ 0 then
        { c with dtExpansion := g.CosmologyComputeExpansionTimestep.getD g.huge_number }
        else c) = c' := by
  unfold expansion
  by_cases h : g.ComovingCoordinates = 0
  · simp [h]
  · cases hx : g.CosmologyComputeExpansionTimestep <;> simp [h, hx]

theorem conduction_eq_next (g : grid F) (c c' : Candidates F) :
    conduction g c = .next c' ↔
      (g.IsotropicConduction ≠ 0 ∨ g.AnisotropicConduction ≠ 0 →
        g.ComputeConductionTimeStep.isSome) ∧
      (if g.IsotropicConduction ≠ 0 ∨ g.AnisotropicConduction ≠ 0 then
        { c with dtConduction :=
            g.ComputeConductionTimeStep.getD g.huge_number * (g.NumberOfGhostZones : F) }
        else c) = c' := by
  unfold conduction
  by_cases h : g.IsotropicConduction ≠ 0 ∨ g.AnisotropicConduction ≠ 0
  · cases hx : g.ComputeConductionTimeStep <;> simp [h, hx]
  · simp [h]

theorem cosmicRays_eq_next (g : grid F) (c c' : Candidates F) :
    cosmicRays g c = .next c' ↔
      (g.CRModel ≠ 0 →
        (g.CRDiffusion ≠ 0 → g.ComputeCRDiffusionTimeStep.isSome) ∧
        (g.CRStreaming ≠ 0 → g.ComputeCRStreamingTimeStep.isSome)) ∧
      (if g.CRModel ≠ 0 then
        { c with dtCR :=
            (if g.CRStreaming ≠ 0 then g.ComputeCRStreamingTimeStep.getD g.huge_number
              else if g.CRDiffusion ≠ 0 then g.ComputeCRDiffusionTimeStep.getD g.huge_number
              else c.dtCR) * g.CRCourantSafetyNumber *
              (if g.CRDiffusion = 1 then (g.NumberOfGhostZones : F) else 1) }
        else c) = c' := by
  unfold cosmicRays
  by_cases h : g.CRModel = 0
  · simp [h]
  · by_cases hd : g.CRDiffusion = 0 <;> by_cases hs : g.CRStreaming = 0 <;>
      cases hx : g.ComputeCRDiffusionTimeStep <;>
      cases hy : g.ComputeCRStreamingTimeStep <;>
      by_cases h1 : g.CRDiffusion = 1 <;>
      simp [h, hd, hs, hx, hy, h1, Flow.bind]

theorem cooling_eq_next (g : grid F) (c c' : Candidates F) :
    cooling g c = .next c' ↔
      (g.UseCoolingTimestep = TRUE → g.ComputeCoolingTime.isSome) ∧
      (if g.UseCoolingTimestep = TRUE then
        { c with dtCooling :=
            coolingScan g (g.ComputeCoolingTime.getD fun _ => 0) c.dtCooling *
              g.CoolingTimestepSafetyFactor }
        else c) = c' := by
  unfold cooling
  by_cases h : g.UseCoolingTimestep = TRUE
  · cases hx : g.ComputeCoolingTime <;> simp [h, hx]
  · simp [h]

theorem baryonsFD_fields (L : Libm F) (g : grid F) (a : F) (c c' : Candidates F)
    (h : baryonsFD L g a c = .next c') :
    c'.dtBaryons = (if finiteDifference g then (if g.HydroMethod ≠ MHD_Li then g.calc_dt.1 else c.dtBaryons) * g.CourantSafetyNumber else c.dtBaryons) ∧
      c'.dtViscous = (if finiteDifference g ∧ g.HydroMethod ≠ MHD_Li then g.calc_dt.2 else c.dtViscous) ∧
      c'.dtParticles = c.dtParticles ∧
      c'.dtExpansion = c.dtExpansion ∧
      c'.dtAcceleration = c.dtAcceleration ∧
      c'.dtMHD = (if finiteDifference g ∧ g.HydroMethod = MHD_Li then g.mhd_dt * g.CourantSafetyNumber * a else c.dtMHD) ∧
      c'.dtConduction = c.dtConduction ∧
      c'.dtCR = c.dtCR ∧
      c'.dtGasDrag = c.dtGasDrag ∧
      c'.dtCooling = c.dtCooling ∧
      c'.dtQuantum = c.dtQuantum := by
  rw [baryonsFD_eq_next] at h
  obtain ⟨-, rfl⟩ := h
  by_cases h1 : finiteDifference g <;> by_cases h2 : g.HydroMethod = MHD_Li <;> simp [h1, h2]

theorem baryonsHD_RK_fields (g : grid F) (a : F) (c c' : Candidates F)
    (h : baryonsHD_RK g a c = .next c') :
    c'.dtBaryons = (if 0 < g.NumberOfBaryonFields ∧ g.HydroMethod = HD_RK then g.CourantSafetyNumber / hdrkScan g a g.IdentifyPhysicalQuantities6.2 else c.dtBaryons) ∧
      c'.dtViscous = c.dtViscous ∧
      c'.dtParticles = c.dtParticles ∧
      c'.dtExpansion = c.dtExpansion ∧
      c'.dtAcceleration = c.dtAcceleration ∧
      c'.dtMHD = c.dtMHD ∧
      c'.dtConduction = c.dtConduction ∧
      c'.dtCR = c.dtCR ∧
      c'.dtGasDrag = c.dtGasDrag ∧
      c'.dtCooling = c.dtCooling ∧
      c'.dtQuantum = c.dtQuantum := by
  rw [baryonsHD_RK_eq_next] at h
  obtain ⟨-, rfl⟩ := h
  by_cases h1 : 0 < g.NumberOfBaryonFields ∧ g.HydroMethod = HD_RK <;> simp [h1]

theorem baryonsMHD_RK_fields (L : Libm F) (g : grid F) (a : F) (c c' : Candidates F)
    (h : baryonsMHD_RK L g a c = .next c') :
    c'.dtBaryons = c.dtBaryons ∧
      c'.dtViscous = c.dtViscous ∧
      c'.dtParticles = c.dtParticles ∧
      c'.dtExpansion = c.dtExpansion ∧
      c'.dtAcceleration = c.dtAcceleration ∧
      c'.dtMHD = (if 0 < g.NumberOfBaryonFields ∧ g.HydroMethod = MHD_RK then g.CourantSafetyNumber / mhdScan L g a (mhdFieldNums g) else c.dtMHD) ∧
      c'.dtConduction = c.dtConduction ∧
      c'.dtCR = c.dtCR ∧
      c'.dtGasDrag = c.dtGasDrag ∧
      c'.dtCooling = c.dtCooling ∧
      c'.dtQuantum = c.dtQuantum := by
  rw [baryonsMHD_RK_eq_next] at h
  obtain ⟨-, rfl⟩ := h
  by_cases h1 : 0 < g.NumberOfBaryonFields ∧ g.HydroMethod = MHD_RK <;> simp [h1]

theorem expansion_fields (g : grid F) (c c' : Candidates F)
    (h : expansion g c = .next c') :
    c'.dtBaryons = c.dtBaryons ∧
      c'.dtViscous = c.dtViscous ∧
      c'.dtParticles = c.dtParticles ∧
      c'.dtExpansion = (if g.ComovingCoordinates ≠ 0 then g.CosmologyComputeExpansionTimestep.getD g.huge_number else c.dtExpansion) ∧
      c'.dtAcceleration = c.dtAcceleration ∧
      c'.dtMHD = c.dtMHD ∧
      c'.dtConduction = c.dtConduction ∧
      c'.dtCR = c.dtCR ∧
      c'.dtGasDrag = c.dtGasDrag ∧
      c'.dtCooling = c.dtCooling ∧
      c'.dtQuantum = c.dtQuantum := by
  rw [expansion_eq_next] at h
  obtain ⟨-, rfl⟩ := h
  by_cases h1 : g.ComovingCoordinates = 0 <;> simp [h1]

theorem conduction_fields (g : grid F) (c c' : Candidates F)
    (h : conduction g c = .next c') :
    c'.dtBaryons = c.dtBaryons ∧
      c'.dtViscous = c.dtViscous ∧
      c'.dtParticles = c.dtParticles ∧
      c'.dtExpansion = c.dtExpansion ∧
      c'.dtAcceleration = c.dtAcceleration ∧
      c'.dtMHD = c.dtMHD ∧
      c'.dtConduction = (if g.IsotropicConduction ≠ 0 ∨ g.AnisotropicConduction ≠ 0 then g.ComputeConductionTimeStep.getD g.huge_number * (g.NumberOfGhostZones : F) else c.dtConduction) ∧
      c'.dtCR = c.dtCR ∧
      c'.dtGasDrag = c.dtGasDrag ∧
      c'.dtCooling = c.dtCooling ∧
      c'.dtQuantum = c.dtQuantum := by
  rw [conduction_eq_next] at h
  obtain ⟨-, rfl⟩ := h
  by_cases h1 : g.IsotropicConduction ≠ 0 ∨ g.AnisotropicConduction ≠ 0 <;> simp [h1]

theorem cosmicRays_fields (g : grid F) (c c' : Candidates F)
    (h : cosmicRays g c = .next c') :
    c'.dtBaryons = c.dtBaryons ∧
      c'.dtViscous = c.dtViscous ∧
      c'.dtParticles = c.dtParticles ∧
      c'.dtExpansion = c.dtExpansion ∧
      c'.dtAcceleration = c.dtAcceleration ∧
      c'.dtMHD = c.dtMHD ∧
      c'.dtConduction = c.dtConduction ∧
      c'.dtCR = (if g.CRModel ≠ 0 then (if g.CRStreaming ≠ 0 then g.ComputeCRStreamingTimeStep.getD g.huge_number else if g.CRDiffusion ≠ 0 then g.ComputeCRDiffusionTimeStep.getD g.huge_number else c.dtCR) * g.CRCourantSafetyNumber * (if g.CRDiffusion = 1 then (g.NumberOfGhostZones : F) else 1) else c.dtCR) ∧
      c'.dtGasDrag = c.dtGasDrag ∧
      c'.dtCooling = c.dtCooling ∧
      c'.dtQuantum = c.dtQuantum := by
  rw [cosmicRays_eq_next] at h
  obtain ⟨-, rfl⟩ := h
  by_cases h1 : g.CRModel = 0 <;> simp [h1]

theorem cooling_fields (g : grid F) (c c' : Candidates F)
    (h : cooling g c = .next c') :
    c'.dtBaryons = c.dtBaryons ∧
      c'.dtViscous = c.dtViscous ∧
      c'.dtParticles = c.dtParticles ∧
      c'.dtExpansion = c.dtExpansion ∧
      c'.dtAcceleration = c.dtAcceleration ∧
      c'.dtMHD = c.dtMHD ∧
      c'.dtConduction = c.dtConduction ∧
      c'.dtCR = c.dtCR ∧
      c'.dtGasDrag = c.dtGasDrag ∧
      c'.dtCooling = (if g.UseCoolingTimestep = TRUE then coolingScan g (g.ComputeCoolingTime.getD fun _ => 0) c.dtCooling * g.CoolingTimestepSafetyFactor else c.dtCooling) ∧
      c'.dtQuantum = c.dtQuantum := by
  rw [cooling_eq_next] at h
  obtain ⟨-, rfl⟩ := h
  by_cases h1 : g.UseCoolingTimestep = TRUE <;> simp [h1]

theorem particles_fields (g : grid F) (a : F) (c : Candidates F) :
    (particles g a c).dtBaryons = c.dtBaryons ∧
      (particles g a c).dtViscous = c.dtViscous ∧
      (particles g a c).dtParticles = (if 0 < g.NumberOfParticles ∨ 0 < g.NumberOfActiveParticles then particleScan g a c.dtParticles * g.ParticleCourantSafetyNumber else c.dtParticles) ∧
      (particles g a c).dtExpansion = c.dtExpansion ∧
      (particles g a c).dtAcceleration = c.dtAcceleration ∧
      (particles g a c).dtMHD = c.dtMHD ∧
      (particles g a c).dtConduction = c.dtConduction ∧
      (particles g a c).dtCR = c.dtCR ∧
      (particles g a c).dtGasDrag = c.dtGasDrag ∧
      (particles g a c).dtCooling = c.dtCooling ∧
      (particles g a c).dtQuantum = c.dtQuantum := by
  unfold particles
  by_cases h1 : 0 < g.NumberOfParticles ∨ 0 < g.NumberOfActiveParticles <;> simp [h1]

theorem acceleration_fields (L : Libm F) (g : grid F) (c : Candidates F) :
    (acceleration L g c).dtBaryons = c.dtBaryons ∧
      (acceleration L g c).dtViscous = c.dtViscous ∧
      (acceleration L g c).dtParticles = c.dtParticles ∧
      (acceleration L g c).dtExpansion = c.dtExpansion ∧
      (acceleration L g c).dtAcceleration = (if g.SelfGravity ≠ 0 then (if accelerationScan L g c.dtAcceleration ≠ g.huge_number then accelerationScan L g c.dtAcceleration * (1 / 2) else accelerationScan L g c.dtAcceleration) else c.dtAcceleration) ∧
      (acceleration L g c).dtMHD = c.dtMHD ∧
      (acceleration L g c).dtConduction = c.dtConduction ∧
      (acceleration L g c).dtCR = c.dtCR ∧
      (acceleration L g c).dtGasDrag = c.dtGasDrag ∧
      (acceleration L g c).dtCooling = c.dtCooling ∧
      (acceleration L g c).dtQuantum = c.dtQuantum := by
  unfold acceleration
  by_cases h1 : g.SelfGravity = 0 <;> simp [h1]

theorem gasDrag_fields (g : grid F) (c : Candidates F) :
    (gasDrag g c).dtBaryons = c.dtBaryons ∧
      (gasDrag g c).dtViscous = c.dtViscous ∧
      (gasDrag g c).dtParticles = c.dtParticles ∧
      (gasDrag g c).dtExpansion = c.dtExpansion ∧
      (gasDrag g c).dtAcceleration = c.dtAcceleration ∧
      (gasDrag g c).dtMHD = c.dtMHD ∧
      (gasDrag g c).dtConduction = c.dtConduction ∧
      (gasDrag g c).dtCR = c.dtCR ∧
      (gasDrag g c).dtGasDrag = (if g.UseGasDrag ≠ 0 ∧ g.GasDragCoefficient ≠ 0 then 1 / 2 / g.GasDragCoefficient else c.dtGasDrag) ∧
      (gasDrag g c).dtCooling = c.dtCooling ∧
      (gasDrag g c).dtQuantum = c.dtQuantum := by
  unfold gasDrag
  by_cases h1 : g.UseGasDrag ≠ 0 ∧ g.GasDragCoefficient ≠ 0 <;> simp [h1]

theorem quantum_fields (L : Libm F) (g : grid F) (u : Units F) (a : F) (c : Candidates F) :
    (quantum L g u a c).dtBaryons = c.dtBaryons ∧
      (quantum L g u a c).dtViscous = c.dtViscous ∧
      (quantum L g u a c).dtParticles = c.dtParticles ∧
      (quantum L g u a c).dtExpansion = c.dtExpansion ∧
      (quantum L g u a c).dtAcceleration = c.dtAcceleration ∧
      (quantum L g u a c).dtMHD = c.dtMHD ∧
      (quantum L g u a c).dtConduction = c.dtConduction ∧
      (quantum L g u a c).dtCR = c.dtCR ∧
      (quantum L g u a c).dtGasDrag = c.dtGasDrag ∧
      (quantum L g u a c).dtCooling = c.dtCooling := by
  unfold quantum
  by_cases h1 : g.QuantumPressure = 0 <;> simp [h1]

theorem quantum_dtQuantum (L : Libm F) (g : grid F) (u : Units F) (a : F) (c c' : Candidates F)
    (h : c.dtQuantum = c'.dtQuantum) :
    (quantum L g u a c).dtQuantum = (quantum L g u a c').dtQuantum := by
  unfold quantum
  by_cases h1 : g.QuantumPressure = 0 <;> simp [h1, h]

/-- When lines 121-553 fall through, the candidates they leave are `finalCandidates`. -/
theorem candidates_next_eq (L : Libm F) (g : grid F) (u : Units F) (c : Candidates F)
    (hu : g.GetUnits = some u) (h : candidates L g = .next c) :
    c = finalCandidates L g u := by
  unfold candidates at h
  simp only [hu, Flow.bind_eq_next, Flow.next.injEq] at h
  obtain ⟨c1, e1, c2, e2, c3, e3, c4, e4, c5, e5, c6, e6, c7, e7, rfl⟩ := h
  have f1 := baryonsFD_fields L g _ _ _ e1
  have f2 := baryonsHD_RK_fields g _ _ _ e2
  have f3 := baryonsMHD_RK_fields L g _ _ _ e3
  have f4 := expansion_fields g _ _ e4
  have f5 := conduction_fields g _ _ e5
  have f6 := cosmicRays_fields g _ _ e6
  have f7 := cooling_fields g _ _ e7
  ext
  case dtQuantum =>
    simp only [finalCandidates]
    apply quantum_dtQuantum
    simp only [f7, gasDrag_fields, f6, f5, acceleration_fields, f4, particles_fields, f3, f2, f1]
  all_goals
    simp only [quantum_fields, f7, gasDrag_fields, f6, f5, acceleration_fields, f4,
      particles_fields, f3, f2, f1, finalCandidates, initialCandidates]
  · split_ifs with h1 h2 <;> first | rfl | exact absurd h1.2 h2.2.1
  · split_ifs with h1 h2 <;> first | rfl | exact absurd h1.2 h2.1.2.2

/-- Lines 121-553 fall through to the final reduction exactly on the inputs that
satisfy `Reaches`, and the candidates then are `finalCandidates`. -/
theorem candidates_eq_next_iff (L : Libm F) (g : grid F) (c : Candidates F) :
    candidates L g = .next c ↔
      Reaches g ∧ ∃ u, g.GetUnits = some u ∧ c = finalCandidates L g u := by
  constructor
  · intro h
    cases hu : g.GetUnits with
    | none => simp [candidates, hu] at h
    | some u =>
      refine ⟨?_, u, rfl, candidates_next_eq L g u c hu h⟩
      unfold candidates at h
      simp only [hu, Flow.bind_eq_next, Flow.next.injEq] at h
      obtain ⟨c1, e1, c2, e2, c3, e3, c4, e4, c5, e5, c6, e6, c7, e7, -⟩ := h
      exact ⟨by simp [hu], ((baryonsFD_eq_next L g _ _ _).mp e1).1,
        ((baryonsHD_RK_eq_next g _ _ _).mp e2).1, ((baryonsMHD_RK_eq_next L g _ _ _).mp e3).1,
        ((expansion_eq_next g _ _).mp e4).1, ((conduction_eq_next g _ _).mp e5).1,
        ((cosmicRays_eq_next g _ _).mp e6).1, ((cooling_eq_next g _ _).mp e7).1⟩
  · rintro ⟨⟨-, h1, h2, h3, h4, h5, h6, h7⟩, u, hu, rfl⟩
    have hex : ∃ c, candidates L g = .next c := by
      unfold candidates
      simp only [hu, Flow.bind_eq_next, Flow.next.injEq]
      exact ⟨_, _, (baryonsFD_eq_next L g _ _ _).mpr ⟨h1, rfl⟩,
        _, (baryonsHD_RK_eq_next g _ _ _).mpr ⟨h2, rfl⟩,
        _, (baryonsMHD_RK_eq_next L g _ _ _).mpr ⟨h3, rfl⟩,
        _, (expansion_eq_next g _ _).mpr ⟨h4, rfl⟩,
        _, (conduction_eq_next g _ _).mpr ⟨h5, rfl⟩,
        _, (cosmicRays_eq_next g _ _).mpr ⟨h6, rfl⟩,
        _, (cooling_eq_next g _ _).mpr ⟨h7, rfl⟩, rfl⟩
    obtain ⟨c, hc⟩ := hex
    rw [hc, candidates_next_eq L g u c hu hc]

/-- Lines 128-130: `size` is the product of the first `GridRank` dimensions. -/
theorem fieldSize_eq_prod (g : grid F) :
    fieldSize g = Finset.prod (Finset.range g.GridRank) g.GridDimension := by
  unfold fieldSize
  induction g.GridRank with
  | zero => rfl
  | succ n ih => rw [List.range_succ, List.foldl_append, ih, Finset.prod_range_succ]; rfl

/-- Lines 460-466: the unscaled acceleration step is the least of the value it
starts from and the candidates `sqrt(CellWidth[d][0] / |acceleration| + tiny_number)`
of every cell of non-zero acceleration of every populated acceleration field below
`GridRank`. -/
theorem accelerationScan_isLeast (L : Libm F) (g : grid F) (init : F) :
    IsLeast {x | x = init ∨ ∃ d acc i, d < g.GridRank ∧ g.AccelerationField d = some acc ∧
        i < fieldSize g ∧ acc i ≠ 0 ∧
        x = L.sqrt (g.CellWidth d 0 / |acc i| + g.tiny_number)}
      (accelerationScan L g init) := by
  have h := foldl_isLeast
    (fun d => {x | ∃ acc i, g.AccelerationField d = some acc ∧ i < fieldSize g ∧
      acc i ≠ 0 ∧ x = L.sqrt (g.CellWidth d 0 / |acc i| + g.tiny_number)})
    (fun dtA dim =>
      match g.AccelerationField dim with
      | some acc =>
        (List.range (fieldSize g)).foldl (fun dtA i =>
          if acc i = 0 then dtA
          else cmin dtA (L.sqrt (g.CellWidth dim 0 / fabs (acc i) + g.tiny_number))) dtA
      | none => dtA)
    (List.range g.GridRank)
    (fun S acc d _ hS => by
      cases hacc : g.AccelerationField d with
      | none => simpa [hacc] using hS
      | some field =>
        have h1 := foldl_isLeast
          (fun i => ({x | ¬ (field i = 0) ∧
            x = L.sqrt (g.CellWidth d 0 / fabs (field i) + g.tiny_number)} : Set F)) _
          (List.range (fieldSize g))
          (fun S acc i _ hS => guarded_cmin_isLeast S acc _ (field i = 0) hS) S acc hS
        simpa [hacc, fabs] using h1)
    {init} init isLeast_singleton
  unfold accelerationScan
  convert h using 1
  ext x
  simp only [Set.mem_setOf_eq, Set.mem_union, Set.mem_singleton_iff, List.mem_range]
  constructor
  · rintro (h | ⟨d, acc, i, hd, hacc, hi, hx⟩)
    · exact Or.inl h
    · exact Or.inr ⟨d, hd, acc, i, hacc, hi, hx⟩
  · rintro (h | ⟨d, hd, acc, i, hacc, hi, hx⟩)
    · exact Or.inl h
    · exact Or.inr ⟨d, acc, i, hd, hacc, hi, hx⟩

/-- The final reduction is below each candidate. -/
theorem finalReduction_le (c : Candidates F) :
    finalReduction c ≤ c.dtBaryons ∧ finalReduction c ≤ c.dtViscous ∧
    finalReduction c ≤ c.dtParticles ∧ finalReduction c ≤ c.dtExpansion ∧
    finalReduction c ≤ c.dtAcceleration ∧ finalReduction c ≤ c.dtMHD ∧
    finalReduction c ≤ c.dtConduction ∧ finalReduction c ≤ c.dtCR ∧
    finalReduction c ≤ c.dtGasDrag ∧ finalReduction c ≤ c.dtCooling ∧
    finalReduction c ≤ c.dtQuantum := by
  have h := (finalReduction_isLeast c).2
  refine ⟨h ?_, h ?_, h ?_, h ?_, h ?_, h ?_, h ?_, h ?_, h ?_, h ?_, h ?_⟩ <;> simp

/-- A bound below every candidate is below the final reduction. -/
theorem le_finalReduction (c : Candidates F) (r : F)
    (h1 : r ≤ c.dtBaryons) (h2 : r ≤ c.dtViscous) (h3 : r ≤ c.dtParticles)
    (h4 : r ≤ c.dtExpansion) (h5 : r ≤ c.dtAcceleration) (h6 : r ≤ c.dtMHD)
    (h7 : r ≤ c.dtConduction) (h8 : r ≤ c.dtCR) (h9 : r ≤ c.dtGasDrag)
    (h10 : r ≤ c.dtCooling) (h11 : r ≤ c.dtQuantum) :
    r ≤ finalReduction c := by
  simp only [finalReduction, cmin_eq_min, le_min_iff]
  exact ⟨⟨⟨⟨⟨⟨⟨⟨⟨⟨h1, h3⟩, h6⟩, h2⟩, h5⟩, h4⟩, h7⟩, h8⟩, h9⟩, h10⟩, h11⟩

/-- One of `dtViscous` and `dtMHD` is still the sentinel at the final reduction,
so the result never exceeds `huge_number`. -/
theorem finalReduction_le_huge (L : Libm F) (g : grid F) (u : Units F) :
    finalReduction (finalCandidates L g u) ≤ g.huge_number := by
  have h := finalReduction_le (finalCandidates L g u)
  by_cases hfd : finiteDifference g ∧ g.HydroMethod ≠ MHD_Li
  · have hmhd : (finalCandidates L g u).dtMHD = g.huge_number := by
      have h1 : ¬ (finiteDifference g ∧ g.HydroMethod = MHD_Li) := fun h' => hfd.2 h'.2
      have h2 : ¬ (0 < g.NumberOfBaryonFields ∧ g.HydroMethod = MHD_RK) :=
        fun h' => hfd.1.2.2 h'.2
      simp only [finalCandidates, if_neg h1, if_neg h2]
    rw [← hmhd]
    exact h.2.2.2.2.2.1
  · have hvis : (finalCandidates L g u).dtViscous = g.huge_number := by
      simp only [finalCandidates, if_neg hfd]
    rw [← hvis]
    exact h.2.1

/-- The comparison of two runs candidate by candidate: if every candidate of the
second run is at least the candidate of the first run or is the sentinel, the
result of the second run is at least the result of the first. -/
theorem finalReduction_mono (c c' : Candidates F) (huge : F)
    (hs : finalReduction c ≤ huge)
    (h1 : c.dtBaryons ≤ c'.dtBaryons ∨ c'.dtBaryons = huge)
    (h2 : c.dtViscous ≤ c'.dtViscous ∨ c'.dtViscous = huge)
    (h3 : c.dtParticles ≤ c'.dtParticles ∨ c'.dtParticles = huge)
    (h4 : c.dtExpansion ≤ c'.dtExpansion ∨ c'.dtExpansion = huge)
    (h5 : c.dtAcceleration ≤ c'.dtAcceleration ∨ c'.dtAcceleration = huge)
    (h6 : c.dtMHD ≤ c'.dtMHD ∨ c'.dtMHD = huge)
    (h7 : c.dtConduction ≤ c'.dtConduction ∨ c'.dtConduction = huge)
    (h8 : c.dtCR ≤ c'.dtCR ∨ c'.dtCR = huge)
    (h9 : c.dtGasDrag ≤ c'.dtGasDrag ∨ c'.dtGasDrag = huge)
    (h10 : c.dtCooling ≤ c'.dtCooling ∨ c'.dtCooling = huge)
    (h11 : c.dtQuantum ≤ c'.dtQuantum ∨ c'.dtQuantum = huge) :
    finalReduction c ≤ finalReduction c' := by
  obtain ⟨r1, r2, r3, r4, r5, r6, r7, r8, r9, r10, r11⟩ := finalReduction_le c
  have key : ∀ x y : F, finalReduction c ≤ x → (x ≤ y ∨ y = huge) → finalReduction c ≤ y := by
    intro x y hx hy
    rcases hy with hy | hy
    · exact le_trans hx hy
    · rw [hy]; exact hs
  exact le_finalReduction c' _ (key _ _ r1 h1) (key _ _ r2 h2) (key _ _ r3 h3) (key _ _ r4 h4)
    (key _ _ r5 h5) (key _ _ r6 h6) (key _ _ r7 h7) (key _ _ r8 h8) (key _ _ r9 h9)
    (key _ _ r10 h10) (key _ _ r11 h11)


theorem foldl_guarded_cmin_le_init {α : Type} (f : α → F) (p : α → Prop) [DecidablePred p]
    (l : List α) (init : F) :
    l.foldl (fun acc y => if p y then acc else cmin acc (f y)) init ≤ init := by
  induction l generalizing init with
  | nil => exact le_refl _
  | cons a l ih =>
    refine le_trans (ih _) ?_
    show (if p a then init else cmin init (f a)) ≤ init
    split_ifs
    · exact le_refl _
    · rw [cmin_eq_min]
      exact min_le_left _ _

/-- Without acceleration fields the scan leaves its starting value. -/
theorem accelerationScan_no_fields (L : Libm F) (g : grid F) (init : F)
    (hnull : ∀ d, d < g.GridRank → g.AccelerationField d = none) :
    accelerationScan L g init = init := by
  rcases (accelerationScan_isLeast L g init).1 with h0 | ⟨d, acc, i, hd, hacc, -, -, -⟩
  · exact h0
  · rw [hnull d hd] at hacc
    exact Option.noConfusion hacc

theorem quantum_selfGravity_off_le (L : Libm F) (g : grid F) (u : Units F) (a : F)
    (c : Candidates F) :
    (quantum L g u a c).dtQuantum ≤ (quantum L { g with SelfGravity := 0 } u a c).dtQuantum := by
  unfold quantum
  by_cases hq : g.QuantumPressure = 0
  · simp [hq]
  · simp only [ne_eq, hq, not_false_eq_true, if_true, not_true_eq_false, if_false]
    cases hp : g.PotentialField with
    | none => simp [hp, hmcoef]
    | some p =>
      by_cases hsg : g.SelfGravity = 0
      · simp [hp, hsg, hmcoef]
      · simp only [hp, hsg, not_false_eq_true, if_true]
        exact foldl_guarded_cmin_le_init _ (fun i => p i = 0) _ _

theorem quantum_potential_off_le (L : Libm F) (g : grid F) (u : Units F) (a : F)
    (c : Candidates F) :
    (quantum L g u a c).dtQuantum ≤ (quantum L { g with PotentialField := none } u a c).dtQuantum := by
  unfold quantum
  by_cases hq : g.QuantumPressure = 0
  · simp [hq]
  · simp only [ne_eq, hq, not_false_eq_true, if_true]
    cases hp : g.PotentialField with
    | none => simp [hmcoef]
    | some p =>
      by_cases hsg : g.SelfGravity = 0
      · simp [hsg, hmcoef]
      · simp only [hsg, not_false_eq_true, if_true]
        exact foldl_guarded_cmin_le_init _ (fun i => p i = 0) _ _

/-- Taking the baryon fields away. -/
theorem baryons_off_mono (L : Libm F) (g : grid F) (u : Units F) :
    finalReduction (finalCandidates L g u) ≤
      finalReduction (finalCandidates L { g with NumberOfBaryonFields := 0 } u) := by
  refine finalReduction_mono _ _ g.huge_number (finalReduction_le_huge L g u)
    (Or.inr ?_) (Or.inr ?_) (Or.inl (le_of_eq rfl))
    (Or.inl (le_of_eq rfl)) (Or.inl (le_of_eq rfl)) (Or.inr ?_)
    (Or.inl (le_of_eq rfl)) (Or.inl (le_of_eq rfl)) (Or.inl (le_of_eq rfl))
    (Or.inl (le_of_eq rfl)) (Or.inl (le_of_eq rfl)) <;>
  simp [finalCandidates, finiteDifference]

/-- Taking the particles away. -/
theorem particles_off_mono (L : Libm F) (g : grid F) (u : Units F) :
    finalReduction (finalCandidates L g u) ≤
      finalReduction (finalCandidates L
        { g with NumberOfParticles := 0, NumberOfActiveParticles := 0 } u) := by
  refine finalReduction_mono _ _ g.huge_number (finalReduction_le_huge L g u)
    (Or.inl (le_of_eq rfl)) (Or.inl (le_of_eq rfl)) (Or.inr ?_)
    (Or.inl (le_of_eq rfl)) (Or.inl (le_of_eq rfl)) (Or.inl (le_of_eq rfl))
    (Or.inl (le_of_eq rfl)) (Or.inl (le_of_eq rfl)) (Or.inl (le_of_eq rfl))
    (Or.inl (le_of_eq rfl)) (Or.inl (le_of_eq rfl))
  simp [finalCandidates]

/-- Switching self-gravity off. -/
theorem selfGravity_off_mono (L : Libm F) (g : grid F) (u : Units F) :
    finalReduction (finalCandidates L g u) ≤
      finalReduction (finalCandidates L { g with SelfGravity := 0 } u) := by
  refine finalReduction_mono _ _ g.huge_number (finalReduction_le_huge L g u)
    (Or.inl (le_of_eq rfl)) (Or.inl (le_of_eq rfl)) (Or.inl (le_of_eq rfl))
    (Or.inl (le_of_eq rfl)) (Or.inr ?_) (Or.inl (le_of_eq rfl))
    (Or.inl (le_of_eq rfl)) (Or.inl (le_of_eq rfl)) (Or.inl (le_of_eq rfl))
    (Or.inl (le_of_eq rfl)) (Or.inl ?_)
  · simp [finalCandidates]
  · exact quantum_selfGravity_off_le L g u (expansionFactor g) (initialCandidates g)

/-- Taking the acceleration fields away. -/
theorem accelerationField_off_mono (L : Libm F) (g : grid F) (u : Units F) :
    finalReduction (finalCandidates L g u) ≤
      finalReduction (finalCandidates L { g with AccelerationField := fun _ => none } u) := by
  refine finalReduction_mono _ _ g.huge_number (finalReduction_le_huge L g u)
    (Or.inl (le_of_eq rfl)) (Or.inl (le_of_eq rfl)) (Or.inl (le_of_eq rfl))
    (Or.inl (le_of_eq rfl)) (Or.inr ?_) (Or.inl (le_of_eq rfl))
    (Or.inl (le_of_eq rfl)) (Or.inl (le_of_eq rfl)) (Or.inl (le_of_eq rfl))
    (Or.inl (le_of_eq rfl)) (Or.inl (le_of_eq rfl))
  have h := accelerationScan_no_fields L { g with AccelerationField := fun _ => none }
    g.huge_number (fun _ _ => rfl)
  simp only [finalCandidates, h]
  simp

/-- Taking the potential field away. -/
theorem potentialField_off_mono (L : Libm F) (g : grid F) (u : Units F) :
    finalReduction (finalCandidates L g u) ≤
      finalReduction (finalCandidates L { g with PotentialField := none } u) := by
  refine finalReduction_mono _ _ g.huge_number (finalReduction_le_huge L g u)
    (Or.inl (le_of_eq rfl)) (Or.inl (le_of_eq rfl)) (Or.inl (le_of_eq rfl))
    (Or.inl (le_of_eq rfl)) (Or.inl (le_of_eq rfl)) (Or.inl (le_of_eq rfl))
    (Or.inl (le_of_eq rfl)) (Or.inl (le_of_eq rfl)) (Or.inl (le_of_eq rfl))
    (Or.inl (le_of_eq rfl)) (Or.inl ?_)
  exact quantum_potential_off_le L g u (expansionFactor g) (initialCandidates g)

/-- Switching both conductions off. -/
theorem conduction_off_mono (L : Libm F) (g : grid F) (u : Units F) :
    finalReduction (finalCandidates L g u) ≤
      finalReduction (finalCandidates L
        { g with IsotropicConduction := 0, AnisotropicConduction := 0 } u) := by
  refine finalReduction_mono _ _ g.huge_number (finalReduction_le_huge L g u)
    (Or.inl (le_of_eq rfl)) (Or.inl (le_of_eq rfl)) (Or.inl (le_of_eq rfl))
    (Or.inl (le_of_eq rfl)) (Or.inl (le_of_eq rfl)) (Or.inl (le_of_eq rfl))
    (Or.inr ?_) (Or.inl (le_of_eq rfl)) (Or.inl (le_of_eq rfl))
    (Or.inl (le_of_eq rfl)) (Or.inl (le_of_eq rfl))
  simp [finalCandidates]

/-- Switching the cosmic rays off, when the `MHD_RK` scan does not run. -/
theorem cosmicRays_off_mono (L : Libm F) (g : grid F) (u : Units F)
    (hC : ¬ (0 < g.NumberOfBaryonFields ∧ g.HydroMethod = MHD_RK)) :
    finalReduction (finalCandidates L g u) ≤
      finalReduction (finalCandidates L { g with CRModel := 0 } u) := by
  refine finalReduction_mono _ _ g.huge_number (finalReduction_le_huge L g u)
    (Or.inl (le_of_eq rfl)) (Or.inl (le_of_eq rfl)) (Or.inl (le_of_eq rfl))
    (Or.inl (le_of_eq rfl)) (Or.inl (le_of_eq rfl)) (Or.inl ?_)
    (Or.inl (le_of_eq rfl)) (Or.inr ?_) (Or.inl (le_of_eq rfl))
    (Or.inl (le_of_eq rfl)) (Or.inl (le_of_eq rfl))
  · by_cases hli : finiteDifference g ∧ g.HydroMethod = MHD_Li
    · have hli' : finiteDifference { g with CRModel := 0 } ∧
          ({ g with CRModel := 0 } : grid F).HydroMethod = MHD_Li := hli
      simp only [finalCandidates, if_pos hli, if_pos hli']
      exact le_of_eq rfl
    · have hli' : ¬ (finiteDifference { g with CRModel := 0 } ∧
          ({ g with CRModel := 0 } : grid F).HydroMethod = MHD_Li) := hli
      have hrk' : ¬ (0 < ({ g with CRModel := 0 } : grid F).NumberOfBaryonFields ∧
          ({ g with CRModel := 0 } : grid F).HydroMethod = MHD_RK) := hC
      simp only [finalCandidates, if_neg hli, if_neg hli', if_neg hC, if_neg hrk']
      exact le_of_eq rfl
  · simp [finalCandidates]

/-- Switching gas drag off. -/
theorem gasDrag_off_mono (L : Libm F) (g : grid F) (u : Units F) :
    finalReduction (finalCandidates L g u) ≤
      finalReduction (finalCandidates L { g with UseGasDrag := 0 } u) := by
  refine finalReduction_mono _ _ g.huge_number (finalReduction_le_huge L g u)
    (Or.inl (le_of_eq rfl)) (Or.inl (le_of_eq rfl)) (Or.inl (le_of_eq rfl))
    (Or.inl (le_of_eq rfl)) (Or.inl (le_of_eq rfl)) (Or.inl (le_of_eq rfl))
    (Or.inl (le_of_eq rfl)) (Or.inl (le_of_eq rfl)) (Or.inr ?_)
    (Or.inl (le_of_eq rfl)) (Or.inl (le_of_eq rfl))
  simp [finalCandidates]

/-- Switching the cooling time step off. -/
theorem cooling_off_mono (L : Libm F) (g : grid F) (u : Units F) :
    finalReduction (finalCandidates L g u) ≤
      finalReduction (finalCandidates L { g with UseCoolingTimestep := 0 } u) := by
  refine finalReduction_mono _ _ g.huge_number (finalReduction_le_huge L g u)
    (Or.inl (le_of_eq rfl)) (Or.inl (le_of_eq rfl)) (Or.inl (le_of_eq rfl))
    (Or.inl (le_of_eq rfl)) (Or.inl (le_of_eq rfl)) (Or.inl (le_of_eq rfl))
    (Or.inl (le_of_eq rfl)) (Or.inl (le_of_eq rfl)) (Or.inl (le_of_eq rfl))
    (Or.inr ?_) (Or.inl (le_of_eq rfl))
  simp [finalCandidates, TRUE]

/-- Switching quantum pressure off. -/
theorem quantum_off_mono (L : Libm F) (g : grid F) (u : Units F) :
    finalReduction (finalCandidates L g u) ≤
      finalReduction (finalCandidates L { g with QuantumPressure := 0 } u) := by
  refine finalReduction_mono _ _ g.huge_number (finalReduction_le_huge L g u)
    (Or.inl (le_of_eq rfl)) (Or.inl (le_of_eq rfl)) (Or.inl (le_of_eq rfl))
    (Or.inl (le_of_eq rfl)) (Or.inl (le_of_eq rfl)) (Or.inl (le_of_eq rfl))
    (Or.inl (le_of_eq rfl)) (Or.inl (le_of_eq rfl)) (Or.inl (le_of_eq rfl))
    (Or.inl (le_of_eq rfl)) (Or.inr ?_)
  simp [finalCandidates, quantum, initialCandidates]

/-- What disabling one process leaves unchanged, keeps reachable, and raises. -/
theorem disables_facts (L : Libm F) (g g' : grid F) (hd : Disables g g') :
    g'.GetUnits = g.GetUnits ∧ g'.ProcessorNumber = g.ProcessorNumber ∧
    g'.MyProcessorNumber = g.MyProcessorNumber ∧ g'.huge_number = g.huge_number ∧
    (Reaches g → Reaches g') ∧
    ∀ u, finalReduction (finalCandidates L g u) ≤ finalReduction (finalCandidates L g' u) := by
  rcases hd with rfl | rfl | rfl | rfl | rfl | rfl | ⟨rfl, hC⟩ | rfl | rfl | rfl
  · refine ⟨rfl, rfl, rfl, rfl, ?_, baryons_off_mono L g⟩
    rintro ⟨h0, h1, h2, h3, h4, h5, h6, h7⟩
    refine ⟨h0, ?_, ?_, ?_, h4, h5, h6, h7⟩
    · intro h
      exact absurd h.1.1 (lt_irrefl 0)
    · intro h
      exact absurd h.1 (lt_irrefl 0)
    · intro h
      exact absurd h.1 (lt_irrefl 0)
  · exact ⟨rfl, rfl, rfl, rfl, fun h => h, particles_off_mono L g⟩
  · exact ⟨rfl, rfl, rfl, rfl, fun h => h, selfGravity_off_mono L g⟩
  · exact ⟨rfl, rfl, rfl, rfl, fun h => h, accelerationField_off_mono L g⟩
  · exact ⟨rfl, rfl, rfl, rfl, fun h => h, potentialField_off_mono L g⟩
  · refine ⟨rfl, rfl, rfl, rfl, ?_, conduction_off_mono L g⟩
    rintro ⟨h0, h1, h2, h3, h4, h5, h6, h7⟩
    refine ⟨h0, h1, h2, h3, h4, ?_, h6, h7⟩
    intro h
    rcases h with h | h <;> exact absurd rfl h
  · refine ⟨rfl, rfl, rfl, rfl, ?_, fun u => cosmicRays_off_mono L g u hC⟩
    rintro ⟨h0, h1, h2, h3, h4, h5, h6, h7⟩
    refine ⟨h0, h1, h2, ?_, h4, h5, ?_, h7⟩
    · intro h
      exact ⟨(h3 h).1, fun hc => absurd rfl hc⟩
    · intro h
      exact absurd rfl h
  · exact ⟨rfl, rfl, rfl, rfl, fun h => h, gasDrag_off_mono L g⟩
  · refine ⟨rfl, rfl, rfl, rfl, ?_, cooling_off_mono L g⟩
    rintro ⟨h0, h1, h2, h3, h4, h5, h6, h7⟩
    refine ⟨h0, h1, h2, h3, h4, h5, h6, ?_⟩
    intro h
    have h' : (0 : Int) = TRUE := h
    exact absurd h' (by decide)
  · exact ⟨rfl, rfl, rfl, rfl, fun h => h, quantum_off_mono L g⟩

/-- The value the call returns when lines 121-553 fall through. -/
theorem ComputeTimeStep_of_next (L : Libm F) (g : grid F) (c : Candidates F)
    (h : candidates L g = .next c) :
    ComputeTimeStep L g =
      .value (if g.ProcessorNumber ≠ g.MyProcessorNumber then g.huge_number
        else finalReduction c) := by
  unfold ComputeTimeStep
  split_ifs
  · rfl
  · rw [h]

/-- The innermost loop of lines 517-519: `n` steps of `dtCooling = min(dtCooling,
cooling_time[index])` with `index++` extend a running minimum by the cooling times
of the cells `index, ..., index + n - 1`. -/
theorem counted_min_loop (ct : Nat → F) (n : Nat) :
    ∀ (lo : Nat) (S : Set F) (dtC : F) (index : Nat), IsLeast S dtC →
      IsLeast (S ∪ {x | ∃ t, t < n ∧ x = ct (index + t)})
        ((List.range' lo n).foldl (fun (st : F × Nat) _i => (cmin st.1 (ct st.2), st.2 + 1))
          (dtC, index)).1 := by
  induction n with
  | zero =>
    intro lo S dtC index h
    simpa using h
  | succ n ih =>
    intro lo S dtC index h
    rw [List.range'_succ, List.foldl_cons]
    have h1 := cmin_isLeast S dtC (ct index) h
    have h2 := ih (lo + 1) _ _ (index + 1) h1
    convert h2 using 1
    ext x
    simp only [Set.mem_union, Set.mem_setOf_eq, Set.mem_singleton_iff]
    constructor
    · rintro (h | ⟨t, ht, rfl⟩)
      · exact Or.inl (Or.inl h)
      · rcases Nat.eq_zero_or_pos t with h0 | h0
        · subst h0
          exact Or.inl (Or.inr rfl)
        · refine Or.inr ⟨t - 1, by omega, ?_⟩
          congr 1
          omega
    · rintro ((h | rfl) | ⟨t, ht, rfl⟩)
      · exact Or.inl h
      · exact Or.inr ⟨0, by omega, rfl⟩
      · refine Or.inr ⟨t + 1, by omega, ?_⟩
        congr 1
        omega

/-- Lines 514-521: the cooling scan ends with the least of its initial value and
the cooling times of the cells `(i, j, k)` with `GridStartIndex[d] ≤ index_d <
GridEndIndex[d]`: the end indices are left out. -/
theorem coolingScan_isLeast (g : grid F) (ct : Nat → F) (init : F) :
    IsLeast {x | x = init ∨ ∃ i j k,
        (g.GridStartIndex 0 ≤ i ∧ i < g.GridEndIndex 0) ∧
        (g.GridStartIndex 1 ≤ j ∧ j < g.GridEndIndex 1) ∧
        (g.GridStartIndex 2 ≤ k ∧ k < g.GridEndIndex 2) ∧
        x = ct (GRIDINDEX_NOGHOST g i j k)}
      (coolingScan g ct init) := by
  have h : IsLeast ({init} ∪ {x | ∃ k ∈ loopExcl (g.GridStartIndex 2) (g.GridEndIndex 2),
      x ∈ {x | ∃ j ∈ loopExcl (g.GridStartIndex 1) (g.GridEndIndex 1),
        x ∈ {x | ∃ t, t < g.GridEndIndex 0 - g.GridStartIndex 0 ∧
          x = ct (GRIDINDEX_NOGHOST g (g.GridStartIndex 0) j k + t)}}})
      (coolingScan g ct init) := by
    unfold coolingScan
    exact foldl_isLeast
      (fun k => {x | ∃ j ∈ loopExcl (g.GridStartIndex 1) (g.GridEndIndex 1),
        x ∈ {x | ∃ t, t < g.GridEndIndex 0 - g.GridStartIndex 0 ∧
          x = ct (GRIDINDEX_NOGHOST g (g.GridStartIndex 0) j k + t)}})
      _ (loopExcl (g.GridStartIndex 2) (g.GridEndIndex 2))
      (fun S acc k _ hS => foldl_isLeast
        (fun j => {x | ∃ t, t < g.GridEndIndex 0 - g.GridStartIndex 0 ∧
          x = ct (GRIDINDEX_NOGHOST g (g.GridStartIndex 0) j k + t)}) _ _
        (fun S acc j _ hS => counted_min_loop ct _ (g.GridStartIndex 0) S acc _ hS) S acc hS)
      {init} init isLeast_singleton
  convert h using 1
  ext x
  simp only [Set.mem_setOf_eq, Set.mem_union, Set.mem_singleton_iff, mem_loopExcl]
  constructor
  · rintro (h | ⟨i, j, k, hi, hj, hk, hx⟩)
    · exact Or.inl h
    · refine Or.inr ⟨k, hk, j, hj, i - g.GridStartIndex 0, by omega, ?_⟩
      rw [hx]
      congr 1
      unfold GRIDINDEX_NOGHOST
      omega
  · rintro (h | ⟨k, hk, j, hj, t, ht, hx⟩)
    · exact Or.inl h
    · refine Or.inr ⟨g.GridStartIndex 0 + t, j, k, by omega, hj, hk, ?_⟩
      rw [hx]
      congr 1
      unfold GRIDINDEX_NOGHOST
      omega

/-- A loop whose every step carries a property of the state from a set `S` of
values met so far to `S ∪ T y` ends with the property for all the steps. -/
theorem foldl_grow {σ α : Type} (P : Set F → σ → Prop) (T : α → Set F) (step : σ → α → σ)
    (l : List α)
    (hstep : ∀ (S : Set F) (s : σ) (y : α), y ∈ l → P S s → P (S ∪ T y) (step s y)) :
    ∀ (S : Set F) (s : σ), P S s → P (S ∪ {x | ∃ y ∈ l, x ∈ T y}) (l.foldl step s) := by
  induction l with
  | nil =>
    intro S s h
    simpa using h
  | cons a l ih =>
    intro S s h
    have h1 := hstep S s a (List.mem_cons_self a l) h
    have h2 := ih (fun S s y hy => hstep S s y (List.mem_cons_of_mem a hy)) _ _ h1
    have hset : S ∪ {x | ∃ y ∈ a :: l, x ∈ T y} = S ∪ T a ∪ {x | ∃ y ∈ l, x ∈ T y} := by
      ext x
      simp only [Set.mem_union, Set.mem_setOf_eq, List.mem_cons]
      constructor
      · rintro (h | ⟨y, rfl | hy, hx⟩)
        · exact Or.inl (Or.inl h)
        · exact Or.inl (Or.inr hx)
        · exact Or.inr ⟨y, hy, hx⟩
      · rintro ((h | h) | ⟨y, hy, hx⟩)
        · exact Or.inl h
        · exact Or.inr ⟨a, Or.inl rfl, h⟩
        · exact Or.inr ⟨y, Or.inr hy, hx⟩
    rw [hset]
    exact h2

/-- One pass of the loop body keeps the invariant and adds the estimate of the
cell, if the cell is not skipped. -/
theorem minDtCell_invariant (L : Libm F) (A : MinDtArgs F) (S : Set F) (b : BestCell F)
    (i j k : Nat) (hact : ActiveCell A i j k) (h : ScanInvariant L A S b) :
    ScanInvariant L A (S ∪ {x | NotSkipped L A i j k ∧ x = cellEstimate L A i j k})
      (minDtCell L A b i j k) := by
  obtain ⟨hlow, hmax, hcell⟩ := h
  have hkeep : (¬ NotSkipped L A i j k ∨ b.best_dt ≤ cellEstimate L A i j k) →
      ScanInvariant L A (S ∪ {x | NotSkipped L A i j k ∧ x = cellEstimate L A i j k}) b := by
    intro hk
    refine ⟨?_, hmax, hcell⟩
    rintro x (hx | ⟨hns, rfl⟩)
    · exact hlow hx
    · rcases hk with hk | hk
      · exact absurd hns hk
      · exact hk
  unfold minDtCell
  simp only
  split_ifs with h1 h2 h3
  · apply hkeep
    left
    rintro ⟨hr, hp, _⟩
    rcases h1 with h1 | h1
    · exact h1 hr
    · exact h1 hp
  · apply hkeep
    left
    rintro ⟨_, _, hd⟩
    exact absurd hd (not_lt.mpr h2)
  · have hns : NotSkipped L A i j k := by
      refine ⟨?_, ?_, not_le.mp h2⟩
      · by_contra hr
        exact h1 (Or.inl hr)
      · by_contra hp
        exact h1 (Or.inr hp)
    refine ⟨?_, le_of_lt (lt_of_lt_of_le h3 hmax), fun _ => ⟨hact, hns, rfl⟩⟩
    rintro x (hx | ⟨_, rfl⟩)
    · exact le_trans (le_of_lt h3) (hlow hx)
    · exact le_refl _
  · apply hkeep
    right
    exact not_lt.mp h3

/-- Lines 675-731: after the scan `best_dt` is at most `DBL_MAX` and at most the
estimate of every active cell that is not skipped, and if it is below `DBL_MAX`
it is the estimate of the active, not skipped cell `(best_i, best_j, best_k)`. -/
theorem minDtScan_spec (L : Libm F) (A : MinDtArgs F) :
    (∀ i j k, ActiveCell A i j k → NotSkipped L A i j k →
      (minDtScan L A).best_dt ≤ cellEstimate L A i j k) ∧
    (minDtScan L A).best_dt ≤ DBL_MAX ∧
    ((minDtScan L A).best_dt < DBL_MAX →
      ActiveCell A (minDtScan L A).best_i (minDtScan L A).best_j (minDtScan L A).best_k ∧
      NotSkipped L A (minDtScan L A).best_i (minDtScan L A).best_j (minDtScan L A).best_k ∧
      (minDtScan L A).best_dt =
        cellEstimate L A (minDtScan L A).best_i (minDtScan L A).best_j
          (minDtScan L A).best_k) := by
  have h : ScanInvariant L A (∅ ∪ {x | ∃ k ∈ loopIncl A.k1 A.k2,
      x ∈ {x | ∃ j ∈ loopIncl A.j1 A.j2,
        x ∈ {x | ∃ i ∈ loopIncl A.i1 A.i2,
          x ∈ {x | NotSkipped L A i j k ∧ x = cellEstimate L A i j k}}}})
      (minDtScan L A) := by
    unfold minDtScan
    exact foldl_grow (ScanInvariant L A)
      (fun k => {x | ∃ j ∈ loopIncl A.j1 A.j2,
        x ∈ {x | ∃ i ∈ loopIncl A.i1 A.i2,
          x ∈ {x | NotSkipped L A i j k ∧ x = cellEstimate L A i j k}}})
      _ (loopIncl A.k1 A.k2)
      (fun S s k hk hS => foldl_grow (ScanInvariant L A)
        (fun j => {x | ∃ i ∈ loopIncl A.i1 A.i2,
          x ∈ {x | NotSkipped L A i j k ∧ x = cellEstimate L A i j k}}) _ _
        (fun S s j hj hS => foldl_grow (ScanInvariant L A)
          (fun i => {x | NotSkipped L A i j k ∧ x = cellEstimate L A i j k}) _ _
          (fun S s i hi hS => minDtCell_invariant L A S s i j k
            ⟨(mem_loopIncl _ _ _).mp hi, (mem_loopIncl _ _ _).mp hj, (mem_loopIncl _ _ _).mp hk⟩
            hS) S s hS) S s hS)
      ∅ _ ⟨by simp [lowerBounds], le_refl _, fun h => absurd h (lt_irrefl _)⟩
  obtain ⟨hlow, hmax, hcell⟩ := h
  refine ⟨?_, hmax, hcell⟩
  intro i j k hact hns
  apply hlow
  right
  exact ⟨k, (mem_loopIncl _ _ _).mpr hact.2.2, j, (mem_loopIncl _ _ _).mpr hact.2.1, i,
    (mem_loopIncl _ _ _).mpr hact.1, hns, rfl⟩

/-- No active cell passes the guards: the scan ends with `best_dt = DBL_MAX` and
every output is zero. -/
theorem find_min_dt_cell_none (L : Libm F) (A : MinDtArgs F)
    (h : ∀ i j k, ActiveCell A i j k → ¬ NotSkipped L A i j k) :
    find_min_dt_cell L A = { out_rho := 0, out_cs := 0, out_dx := 0, out_dt := 0 } := by
  obtain ⟨_, _, hcell⟩ := minDtScan_spec L A
  have hnot : ¬ (minDtScan L A).best_dt < DBL_MAX := fun hlt =>
    h _ _ _ (hcell hlt).1 (hcell hlt).2.1
  unfold find_min_dt_cell
  simp only [if_neg hnot]

/-- Some active cell passes the guards with an estimate below `DBL_MAX`: the
outputs are those of the cell the scan ends with. -/
theorem find_min_dt_cell_some (L : Libm F) (A : MinDtArgs F)
    (h : ∃ i j k, ActiveCell A i j k ∧ NotSkipped L A i j k ∧
      cellEstimate L A i j k < DBL_MAX) :
    ∃ i j k, ActiveCell A i j k ∧ NotSkipped L A i j k ∧
      (∀ i' j' k', ActiveCell A i' j' k' → NotSkipped L A i' j' k' →
        cellEstimate L A i j k ≤ cellEstimate L A i' j' k') ∧
      find_min_dt_cell L A =
        { out_rho := A.dens (cellIndex A i j k)
          out_cs := L.sqrt (A.gamma * A.pres (cellIndex A i j k) / A.dens (cellIndex A i j k))
          out_dx := A.dx i
          out_dt := cellEstimate L A i j k } := by
  obtain ⟨hlow, _, hcell⟩ := minDtScan_spec L A
  obtain ⟨i, j, k, hact, hns, hlt⟩ := h
  have hbest : (minDtScan L A).best_dt < DBL_MAX := lt_of_le_of_lt (hlow i j k hact hns) hlt
  obtain ⟨hact', hns', heq⟩ := hcell hbest
  refine ⟨_, _, _, hact', hns', ?_, ?_⟩
  · intro i' j' k' ha hn
    rw [← heq]
    exact hlow i' j' k' ha hn
  · unfold find_min_dt_cell
    simp only [if_pos hbest]
    rw [← heq]

/-- A positive number below `DBL_MAX`. -/
theorem lt_DBL_MAX (x : F) (h : x ≤ 1) : x < DBL_MAX := by
  have h1 : (1 : F) ≤ 2 ^ 971 := one_le_pow₀ (by norm_num)
  have h2 : (2 : F) ≤ 2 ^ 53 - 1 := by norm_num
  have h3 : (2 : F) ≤ (2 ^ 53 - 1) * 2 ^ 971 := by
    calc (2 : F) = 2 * 1 := by ring
      _ ≤ (2 ^ 53 - 1) * 2 ^ 971 := mul_le_mul h2 h1 (by norm_num) (by norm_num)
  unfold DBL_MAX
  linarith

/-- The active range is one cell: the scan is one pass of the loop body. -/
theorem minDtScan_single (L : Libm F) (A : MinDtArgs F)
    (hi : A.i2 = A.i1) (hj : A.j2 = A.j1) (hk : A.k2 = A.k1) :
    minDtScan L A =
      minDtCell L A { best_dt := DBL_MAX, best_i := A.i1, best_j := A.j1, best_k := A.k1 }
        A.i1 A.j1 A.k1 := by
  unfold minDtScan loopIncl
  rw [hi, hj, hk]
  simp [List.range']

/-- The rational square root of `1`. -/
theorem ratLibm_sqrt_one : ratLibm.sqrt 1 = 1 := by
  have h := Rat.sqrt_eq 1
  rw [mul_one, abs_one] at h
  exact h

/-- The denominator of a cell at rest with sound speed `1` and equal widths in
`x` and `y`, for a block that is not of rank 3. -/
theorem cellDenom_at_rest (A : MinDtArgs ℚ) (i j k : Nat) (hrank : A.rank ≠ 3)
    (hip : A.ipfree ≠ 1)
    (hcs : A.gamma * A.pres (cellIndex A i j k) / A.dens (cellIndex A i j k) = 1)
    (hu : A.u (cellIndex A i j k) = 0) (hv : A.v (cellIndex A i j k) = 0)
    (hvgx : A.vgx = some 0) (hvgy : A.vgy = some 0) :
    cellDenom ratLibm A i j k = 1 / A.dx i + 1 / A.dy j := by
  unfold cellDenom
  simp only [hcs, hu, hv, hvgx, hvgy, if_neg hip, if_neg hrank, ratLibm_sqrt_one, fabs, sub_zero,
    abs_zero, add_zero]
  cases A.w <;> rfl

/-- Lines 698-714 with the pressure-free flag off: the denominator is the sum of
the `x` term and the `y` term, and of the `z` term if `rank == 3` and `w` is not
`NULL`. -/
theorem cellDenom_eq (L : Libm F) (A : MinDtArgs F) (i j k : Nat) (hip : A.ipfree ≠ 1) :
    cellDenom L A i j k =
      axisTerm L A 0 i j k + axisTerm L A 1 i j k +
        (if A.rank = 3 ∧ A.w.isSome = true then axisTerm L A 2 i j k else 0) := by
  unfold cellDenom axisTerm
  simp only [if_neg hip, fabs]
  cases hw : A.w <;> cases hx : A.vgx <;> cases hy : A.vgy <;> cases hz : A.vgz <;>
    by_cases hr : A.rank = 3 <;> simp [hr]

/-- Lines 688-728: the loop body for a cell of positive density and pressure. -/
theorem minDtCell_valid (L : Libm F) (A : MinDtArgs F) (best : BestCell F) (i j k : Nat)
    (hrho : 0 < A.dens (cellIndex A i j k)) (hP : 0 < A.pres (cellIndex A i j k)) :
    minDtCell L A best i j k =
      (if 1 / 10 ^ 20 < cellDenom L A i j k ∧ A.aye / cellDenom L A i j k < best.best_dt then
        { best_dt := A.aye / cellDenom L A i j k, best_i := i, best_j := j, best_k := k }
      else best) := by
  unfold minDtCell
  simp only
  have h1 : ¬ (¬ A.dens (cellIndex A i j k) > 0 ∨ ¬ A.pres (cellIndex A i j k) > 0) := by
    rintro (h | h)
    · exact h hrho
    · exact h hP
  rw [if_neg h1]
  by_cases h2 : cellDenom L A i j k ≤ 1 / 10 ^ 20
  · rw [if_pos h2, if_neg (fun h => absurd h.1 (not_lt.mpr h2))]
  · rw [if_neg h2]
    by_cases h3 : A.aye / cellDenom L A i j k < best.best_dt
    · rw [if_pos h3, if_pos ⟨not_le.mp h2, h3⟩]
    · rw [if_neg h3, if_neg (fun h => h3 h.2)]

/-- The body of the `HD_RK` scan compares `my_MAX` of the three contributions of
the cell with the running maximum. -/
theorem hdrkCell_contributions (g : grid F) (dxinv dyinv dzinv : F) (nums : FieldNums)
    (st : F × Nat) :
    hdrkCell g dxinv dyinv dzinv nums st =
      ((if my_MAX (hdrkContributions g dxinv dyinv dzinv nums st.2).dt_x
            (hdrkContributions g dxinv dyinv dzinv nums st.2).dt_y
            (hdrkContributions g dxinv dyinv dzinv nums st.2).dt_z > st.1
        then my_MAX (hdrkContributions g dxinv dyinv dzinv nums st.2).dt_x
            (hdrkContributions g dxinv dyinv dzinv nums st.2).dt_y
            (hdrkContributions g dxinv dyinv dzinv nums st.2).dt_z
        else st.1), st.2 + 1) := rfl

/-- The body of the `MHD_RK` scan compares `my_MAX` of the three contributions of
the cell with the running maximum. -/
theorem mhdCell_contributions (L : Libm F) (g : grid F) (dxinv dyinv dzinv : F)
    (nums : FieldNums) (st : F × Nat) :
    mhdCell L g dxinv dyinv dzinv nums st =
      ((if my_MAX (mhdContributions L g dxinv dyinv dzinv nums st.2).dt_x
            (mhdContributions L g dxinv dyinv dzinv nums st.2).dt_y
            (mhdContributions L g dxinv dyinv dzinv nums st.2).dt_z > st.1
        then my_MAX (mhdContributions L g dxinv dyinv dzinv nums st.2).dt_x
            (mhdContributions L g dxinv dyinv dzinv nums st.2).dt_y
            (mhdContributions L g dxinv dyinv dzinv nums st.2).dt_z
        else st.1), st.2 + 1) := rfl

/-- With `GridRank == 1` the contributions of the inactive axes of a cell of the
`HD_RK` scan are zero. -/
theorem hdrkContributions_rank_one (g : grid F) (dxinv dyinv dzinv : F) (nums : FieldNums)
    (n : Nat) (hrank : g.GridRank = 1) :
    (hdrkContributions g dxinv dyinv dzinv nums n).dt_y = 0 ∧
      (hdrkContributions g dxinv dyinv dzinv nums n).dt_z = 0 := by
  unfold hdrkContributions
  simp [hrank]

/-- With `GridRank == 1` the contributions of the inactive axes of a cell of the
`MHD_RK` scan are zero. -/
theorem mhdContributions_rank_one (L : Libm F) (g : grid F) (dxinv dyinv dzinv : F)
    (nums : FieldNums) (n : Nat) (hrank : g.GridRank = 1) :
    (mhdContributions L g dxinv dyinv dzinv nums n).dt_y = 0 ∧
      (mhdContributions L g dxinv dyinv dzinv nums n).dt_z = 0 := by
  unfold mhdContributions
  simp [hrank]

/-- The largest of a number and two zeros. -/
theorem my_MAX_zero_zero (x : F) : my_MAX x 0 0 = max x 0 := by
  rw [my_MAX_eq, max_assoc, max_self]

/-- Lines 261-318 with the value of the scan named. -/
theorem baryonsHD_RK_of_scan (g : grid F) (a M : F) (c : Candidates F)
    (hbaryon : 0 < g.NumberOfBaryonFields) (hhd : g.HydroMethod = HD_RK)
    (hid : g.IdentifyPhysicalQuantities6.1 = true)
    (hM : hdrkScan g a g.IdentifyPhysicalQuantities6.2 = M) :
    baryonsHD_RK g a c = .next { c with dtBaryons := g.CourantSafetyNumber / M } := by
  simp [baryonsHD_RK, hbaryon, hhd, hid, hM]

/-- The `HD_RK` scan splits into the cells other than `n0` and the cell `n0`: its
result is the larger of the maximum over the other cells (with the floor `1e-20`)
and the maximum over the axes of the cell `n0`. -/
theorem hdrkScan_split (g : grid F) (a : F) (nums : FieldNums) (n0 : Nat) (M m0 : F)
    (hrank1 : 1 ≤ g.GridRank) (hrank3 : g.GridRank ≤ 3)
    (hn0 : n0 < g.GridDimension 0 * g.GridDimension 1 * g.GridDimension 2)
    (hM : IsGreatest {x | x = 1 / 10 ^ 20 ∨ ∃ n d,
        n < g.GridDimension 0 * g.GridDimension 1 * g.GridDimension 2 ∧ n ≠ n0 ∧
        d < g.GridRank ∧ x = hdSignalRate g a nums d n} M)
    (hm0 : IsGreatest {x | ∃ d, d < g.GridRank ∧ x = hdSignalRate g a nums d n0} m0) :
    hdrkScan g a nums = max M m0 := by
  have h := hdrkScan_isGreatest g a nums hrank1 hrank3
  have hu := hM.union hm0
  refine h.unique ?_
  convert hu using 1
  ext x
  simp only [Set.mem_setOf_eq, Set.mem_union]
  constructor
  · rintro (hx | ⟨n, d, hn, hd, hx⟩)
    · exact Or.inl (Or.inl hx)
    · by_cases hne : n = n0
      · subst hne
        exact Or.inr ⟨d, hd, hx⟩
      · exact Or.inl (Or.inr ⟨n, d, hn, hne, hd, hx⟩)
  · rintro ((hx | ⟨n, d, hn, _, hd, hx⟩) | ⟨d, hd, hx⟩)
    · exact Or.inl hx
    · exact Or.inr ⟨n, d, hn, hd, hx⟩
    · exact Or.inr ⟨n0, d, hn0, hd, hx⟩

/-- The scaled signal speeds of the block `zeroDensityBlock` at `a = 1`: `10` along
`x` in cell `0`, and `1` elsewhere. -/
theorem zeroDensityBlock_rate (d n : Nat) :
    hdSignalRate (zeroDensityBlock ℚ) 1 (zeroDensityBlock ℚ).IdentifyPhysicalQuantities6.2 d n =
      if d = 0 ∧ n = 0 then 10 else 1 := by
  by_cases hd : d = 0
  · by_cases hn : n = 0
    · subst hd hn
      simp [hdSignalRate, hdInternalEnergy, velocity, zeroDensityBlock, quietGrid]
      norm_num
    · subst hd
      simp [hdSignalRate, hdInternalEnergy, velocity, zeroDensityBlock, quietGrid, hn]
  · by_cases hd1 : d = 1
    · subst hd1
      simp [hdSignalRate, hdInternalEnergy, velocity, zeroDensityBlock, quietGrid]
    · simp [hdSignalRate, hdInternalEnergy, velocity, zeroDensityBlock, quietGrid, hd, hd1]

/-- The maximum over the cells of `zeroDensityBlock` other than cell `0`. -/
theorem zeroDensityBlock_rest :
    IsGreatest {x : ℚ | x = 1 / 10 ^ 20 ∨ ∃ n d,
        n < (zeroDensityBlock ℚ).GridDimension 0 * (zeroDensityBlock ℚ).GridDimension 1 *
          (zeroDensityBlock ℚ).GridDimension 2 ∧ n ≠ 0 ∧
        d < (zeroDensityBlock ℚ).GridRank ∧
        x = hdSignalRate (zeroDensityBlock ℚ) 1
          (zeroDensityBlock ℚ).IdentifyPhysicalQuantities6.2 d n} 1 := by
  constructor
  · exact Or.inr ⟨1, 0, by decide, by decide, by decide, by rw [zeroDensityBlock_rate]; simp⟩
  · rintro x (hx | ⟨n, d, _, hn, _, hx⟩)
    · rw [hx]
      norm_num
    · rw [hx, zeroDensityBlock_rate, if_neg (fun h => hn h.2)]

/-- The maximum over the axes of cell `0` of `zeroDensityBlock`. -/
theorem zeroDensityBlock_cell :
    IsGreatest {x : ℚ | ∃ d, d < (zeroDensityBlock ℚ).GridRank ∧
        x = hdSignalRate (zeroDensityBlock ℚ) 1
          (zeroDensityBlock ℚ).IdentifyPhysicalQuantities6.2 d 0} 10 := by
  constructor
  · exact ⟨0, by decide, by rw [zeroDensityBlock_rate]; simp⟩
  · rintro x ⟨d, _, hx⟩
    rw [hx, zeroDensityBlock_rate]
    split_ifs <;> norm_num

/-- The candidate `dtCR` at the final reduction, with `CRModel` on. -/
theorem finalCandidates_dtCR (L : Libm F) (g : grid F) (u : Units F) (hcr : g.CRModel ≠ 0) :
    (finalCandidates L g u).dtCR =
      (if g.CRStreaming ≠ 0 then g.ComputeCRStreamingTimeStep.getD g.huge_number
        else if g.CRDiffusion ≠ 0 then g.ComputeCRDiffusionTimeStep.getD g.huge_number
        else g.huge_number) * g.CRCourantSafetyNumber *
        (if g.CRDiffusion = 1 then (g.NumberOfGhostZones : F) else 1) := by
  show (if g.CRModel ≠ 0 then _ else _) = _
  rw [if_pos hcr]

/-- Lines 533-539: `dx` is the least of the widths `CellWidth[d][0] · a` of the
active axes. -/
theorem quantum_dx_isLeast (g : grid F) (a : F) (hrank1 : 1 ≤ g.GridRank)
    (hrank3 : g.GridRank ≤ 3) :
    IsLeast {x | ∃ d, d < g.GridRank ∧ x = g.CellWidth d 0 * a}
      (if g.GridRank > 2 then
        cmin (if g.GridRank > 1 then cmin (g.CellWidth 0 0 * a) (g.CellWidth 1 0 * a)
          else g.CellWidth 0 0 * a) (g.CellWidth 2 0 * a)
      else if g.GridRank > 1 then cmin (g.CellWidth 0 0 * a) (g.CellWidth 1 0 * a)
      else g.CellWidth 0 0 * a) := by
  have hcases : g.GridRank = 1 ∨ g.GridRank = 2 ∨ g.GridRank = 3 := by omega
  rcases hcases with h | h | h
  · rw [h, if_neg (by decide), if_neg (by decide)]
    constructor
    · exact ⟨0, by decide, rfl⟩
    · rintro x ⟨d, hd, rfl⟩
      have hd0 : d = 0 := by omega
      rw [hd0]
  · rw [h, if_neg (by decide), if_pos (by decide), cmin_eq_min]
    constructor
    · rcases min_choice (g.CellWidth 0 0 * a) (g.CellWidth 1 0 * a) with hm | hm
      · exact ⟨0, by decide, hm⟩
      · exact ⟨1, by decide, hm⟩
    · rintro x ⟨d, hd, rfl⟩
      have hd0 : d = 0 ∨ d = 1 := by omega
      rcases hd0 with hd0 | hd0 <;> rw [hd0]
      · exact min_le_left _ _
      · exact min_le_right _ _
  · rw [h, if_pos (by decide), if_pos (by decide), cmin_eq_min, cmin_eq_min]
    constructor
    · rcases min_choice (min (g.CellWidth 0 0 * a) (g.CellWidth 1 0 * a))
        (g.CellWidth 2 0 * a) with hm | hm
      · rcases min_choice (g.CellWidth 0 0 * a) (g.CellWidth 1 0 * a) with hm' | hm'
        · exact ⟨0, by decide, by rw [hm, hm']⟩
        · exact ⟨1, by decide, by rw [hm, hm']⟩
      · exact ⟨2, by decide, hm⟩
    · rintro x ⟨d, hd, rfl⟩
      have hd0 : d = 0 ∨ d = 1 ∨ d = 2 := by omega
      rcases hd0 with hd0 | hd0 | hd0 <;> rw [hd0]
      · exact le_trans (min_le_left _ _) (min_le_left _ _)
      · exact le_trans (min_le_left _ _) (min_le_right _ _)
      · exact min_le_right _ _

/-- Lines 541-543 in the claim's form. -/
theorem quantum_scaling (x h C : F) : x / h / 2 * C = C * x / (2 * h) := by
  simp only [div_eq_mul_inv, mul_inv]
  ring

/-- Lines 548-550: the loop over the cells of the gravity mesh; the cells of zero
potential are left out. -/
theorem quantum_potential_isLeast (hm dtQ : F) (potential : Nat → F) (gsize : Nat) :
    IsLeast {x | x = dtQ ∨ ∃ i, i < gsize ∧ potential i ≠ 0 ∧ x = |hm / potential i|}
      ((List.range gsize).foldl (fun dtQ i =>
        if potential i = 0 then dtQ else cmin dtQ (fabs (hm * 1 / potential i))) dtQ) := by
  have h := foldl_isLeast (fun i => ({x | ¬ (potential i = 0) ∧
      x = fabs (hm * 1 / potential i)} : Set F))
    (fun dtQ i => if potential i = 0 then dtQ else cmin dtQ (fabs (hm * 1 / potential i)))
    (List.range gsize)
    (fun S acc i _ hS => guarded_cmin_isLeast S acc _ (potential i = 0) hS) {dtQ} dtQ
    isLeast_singleton
  convert h using 1
  ext x
  simp only [Set.mem_setOf_eq, Set.mem_union, Set.mem_singleton_iff, List.mem_range, fabs,
    mul_one, ne_eq]

/-- Lines 529-553 with `QuantumPressure` on, `POW(x, 2) = x²`. -/
theorem quantum_on (L : Libm F) (g : grid F) (u : Units F) (a : F) (c : Candidates F)
    (hq : g.QuantumPressure ≠ 0) (hpow : ∀ x, L.POW x 2 = x ^ 2) :
    ∃ dx, dx = (if g.GridRank > 2 then
        cmin (if g.GridRank > 1 then cmin (g.CellWidth 0 0 * a) (g.CellWidth 1 0 * a)
          else g.CellWidth 0 0 * a) (g.CellWidth 2 0 * a)
      else if g.GridRank > 1 then cmin (g.CellWidth 0 0 * a) (g.CellWidth 1 0 * a)
      else g.CellWidth 0 0 * a) ∧
    (quantum L g u a c).dtQuantum =
      match g.PotentialField with
      | some potential =>
        if g.SelfGravity ≠ 0 then
          (List.range (g.GravitatingMassFieldDimension 0 * g.GravitatingMassFieldDimension 1 *
            g.GravitatingMassFieldDimension 2)).foldl
            (fun dtQ i => if potential i = 0 then dtQ
              else cmin dtQ (fabs (quantumCoefficient g u a * 1 / potential i)))
            (g.CourantSafetyNumber * dx ^ 2 / (2 * quantumCoefficient g u a))
        else g.CourantSafetyNumber * dx ^ 2 / (2 * quantumCoefficient g u a)
      | none => g.CourantSafetyNumber * dx ^ 2 / (2 * quantumCoefficient g u a) := by
  refine ⟨_, rfl, ?_⟩
  unfold quantum
  rw [if_pos hq]
  simp only [hmcoef, hpow, quantum_scaling, quantumCoefficient]

/-- Lines 274-314: the `HD_RK` scan ends with the greatest of the floor `1e-20` and
the maxima `dt_ltemp` of the cells of the block. -/
theorem hdrkScan_running_max (g : grid F) (a : F) (nums : FieldNums) :
    IsGreatest {x | x = 1 / 10 ^ 20 ∨ ∃ n,
        n < g.GridDimension 0 * g.GridDimension 1 * g.GridDimension 2 ∧
        x = hdrk_dt_ltemp g a nums n}
      (hdrkScan g a nums) := by
  unfold hdrkScan
  simp only []
  rw [nested_loops_iterate]
  exact (iterate_running_max (fun n => hdrk_dt_ltemp g a nums n) (1 / 10 ^ 20) _).2

/-- Lines 339-412: the `MHD_RK` scan ends with the greatest of the floor `1e-20`
and the maxima `dt_ltemp` of the cells of the block. -/
theorem mhdScan_running_max (L : Libm F) (g : grid F) (a : F) (nums : FieldNums) :
    IsGreatest {x | x = 1 / 10 ^ 20 ∨ ∃ n,
        n < g.GridDimension 0 * g.GridDimension 1 * g.GridDimension 2 ∧
        x = mhd_dt_ltemp L g a nums n}
      (mhdScan L g a nums) := by
  unfold mhdScan
  simp only []
  rw [nested_loops_iterate]
  exact (iterate_running_max (fun n => mhd_dt_ltemp L g a nums n) (1 / 10 ^ 20) _).2

/-- A running maximum that starts at the floor `1e-20`: it is at least the floor
and every value, it is positive, dividing by it gives at most `C · 1e20` for
`C ≥ 0`, and exactly `C · 1e20` if no value exceeds the floor. -/
theorem floor_facts (M C : F) (r : Nat → F) (N : Nat)
    (h : IsGreatest {x | x = 1 / 10 ^ 20 ∨ ∃ n, n < N ∧ x = r n} M) :
    1 / 10 ^ 20 ≤ M ∧ 0 < M ∧ (∀ n, n < N → r n ≤ M) ∧
      (0 ≤ C → C / M ≤ C * 10 ^ 20) ∧
      ((∀ n, n < N → r n ≤ 1 / 10 ^ 20) → M = 1 / 10 ^ 20 ∧ C / M = C * 10 ^ 20) := by
  have hfloor : (1 : F) / 10 ^ 20 ≤ M := h.2 (Or.inl rfl)
  have hpos : (0 : F) < 1 / 10 ^ 20 := by positivity
  have hdiv : C / (1 / 10 ^ 20) = C * 10 ^ 20 := by
    rw [div_div_eq_mul_div, div_one]
  refine ⟨hfloor, lt_of_lt_of_le hpos hfloor, fun n hn => h.2 (Or.inr ⟨n, hn, rfl⟩), ?_, ?_⟩
  · intro hC
    rw [← hdiv]
    exact div_le_div_of_nonneg_left hC hpos hfloor
  · intro hall
    have hM : M = 1 / 10 ^ 20 := by
      apply le_antisymm _ hfloor
      rcases h.1 with h0 | ⟨n, hn, hx⟩
      · exact le_of_eq h0
      · rw [hx]
        exact hall n hn
    exact ⟨hM, by rw [hM, hdiv]⟩

/-- Lines 322-421 with the value of the scan named. -/
theorem baryonsMHD_RK_of_scan (L : Libm F) (g : grid F) (a : F) (c : Candidates F)
    (hbaryon : 0 < g.NumberOfBaryonFields) (hmhd : g.HydroMethod = MHD_RK)
    (hid : g.IdentifyPhysicalQuantities10.1 = true)
    (hid7 : g.CRModel ≠ 0 → g.IdentifyPhysicalQuantities7.1 = true) :
    baryonsMHD_RK L g a c =
      .next { c with dtMHD := g.CourantSafetyNumber / mhdScan L g a (mhdFieldNums g) } := by
  by_cases hcr : g.CRModel ≠ 0
  · simp [baryonsMHD_RK, hbaryon, hmhd, hid, hid7 hcr]
  · simp [baryonsMHD_RK, hbaryon, hmhd, hid, not_not.mp hcr]

/-- The rational square root of `0`. -/
theorem ratLibm_sqrt_zero : ratLibm.sqrt 0 = 0 := by
  have h := Rat.sqrt_eq 0
  rw [mul_zero, abs_zero] at h
  exact h

/-- No active cell passes the guards with an estimate below `DBL_MAX`: every
output is zero. -/
theorem find_min_dt_cell_no_candidate (L : Libm F) (A : MinDtArgs F)
    (h : ¬ ∃ i j k, ActiveCell A i j k ∧ NotSkipped L A i j k ∧
      cellEstimate L A i j k < DBL_MAX) :
    find_min_dt_cell L A = { out_rho := 0, out_cs := 0, out_dx := 0, out_dt := 0 } := by
  obtain ⟨_, _, hcell⟩ := minDtScan_spec L A
  have hnot : ¬ (minDtScan L A).best_dt < DBL_MAX := by
    intro hlt
    obtain ⟨hact, hns, heq⟩ := hcell hlt
    exact h ⟨_, _, _, hact, hns, by rw [← heq]; exact hlt⟩
  unfold find_min_dt_cell
  simp only [if_neg hnot]

/-- The estimate of a cell that is not skipped is positive when `aye > 0`. -/
theorem cellEstimate_pos (L : Libm F) (A : MinDtArgs F) (i j k : Nat) (haye : 0 < A.aye)
    (hns : NotSkipped L A i j k) : 0 < cellEstimate L A i j k := by
  have hpos : (0 : F) < 1 / 10 ^ 20 := by positivity
  exact div_pos haye (lt_trans hpos hns.2.2)

/-- The rational square root on the values of the cell of `drainedGrid` with
`CRModel` off. -/
theorem sqrt_drained :
    Rat.sqrt (1 / 2 * ((25 / 16 : ℚ) + Rat.sqrt (25 / 16 * (25 / 16)))) = 5 / 4 := by
  rw [Rat.sqrt_eq, abs_of_nonneg (by norm_num)]
  have e2 : 1 / 2 * ((25 / 16 : ℚ) + 25 / 16) = 5 / 4 * (5 / 4) := by
    norm_num
  rw [e2, Rat.sqrt_eq, abs_of_nonneg (by norm_num)]

/-- The call on `drainedGrid`: the only finite candidates are the `MHD_RK` one,
`0.5 / 1`, and the cosmic-ray one, `0.5 · huge_number`. -/
theorem drained_on : ComputeTimeStep ratLibm (drainedGrid ℚ) = .value (1 / 2) := by
  have hB : ∀ d, magneticField (drainedGrid ℚ) (mhdFieldNums (drainedGrid ℚ)) d 0 = 0 := by
    intro d
    have h1 : (drainedGrid ℚ).BaryonField (mhdFieldNums (drainedGrid ℚ)).B1Num 0 = 0 := by
      simp [mhdFieldNums, drainedGrid, quietGrid]
    have h2 : (drainedGrid ℚ).BaryonField (mhdFieldNums (drainedGrid ℚ)).B2Num 0 = 0 := by
      simp [mhdFieldNums, drainedGrid, quietGrid]
    have h3 : (drainedGrid ℚ).BaryonField (mhdFieldNums (drainedGrid ℚ)).B3Num 0 = 0 := by
      simp [mhdFieldNums, drainedGrid, quietGrid]
    unfold magneticField
    split_ifs
    · exact h1
    · exact h2
    · exact h3
  have hs : mhdSoundSpeedSq (drainedGrid ℚ) (mhdFieldNums (drainedGrid ℚ)) 0 = 1 := by
    simp [mhdSoundSpeedSq, mhdFieldNums, drainedGrid, quietGrid]
    norm_num
  have hrate : mhdSignalRate ratLibm (drainedGrid ℚ) 1 (mhdFieldNums (drainedGrid ℚ)) 0 0 = 1 := by
    rw [mhdSignalRate_unmagnetised ratLibm (drainedGrid ℚ) 1 _ 0 0 1 hs hB
      (by simp [velocity, mhdFieldNums, drainedGrid, quietGrid])]
    have hw : (drainedGrid ℚ).CellWidth 0 0 * 1 = 1 := by
      simp [drainedGrid, quietGrid]
    rw [hw, div_one, mul_one, ratLibm_sqrt_one]
    norm_num
    exact ratLibm_sqrt_one
  have hscan : mhdScan ratLibm (drainedGrid ℚ) (expansionFactor (drainedGrid ℚ))
      (mhdFieldNums (drainedGrid ℚ)) = 1 := by
    have ha : expansionFactor (drainedGrid ℚ) = 1 := by
      simp [expansionFactor, drainedGrid, quietGrid]
    rw [ha]
    have h := mhdScan_isGreatest ratLibm (drainedGrid ℚ) 1 (mhdFieldNums (drainedGrid ℚ))
      (by decide) (by decide)
    refine le_antisymm ?_ ?_
    · rcases h.1 with h0 | ⟨n, d, hn, hd, hx⟩
      · rw [h0]
        norm_num
      · have hn0 : n = 0 := by
          have : n < 1 * 1 * 1 := hn
          omega
        have hd0 : d = 0 := by
          have : d < 1 := hd
          omega
        rw [hx, hn0, hd0, hrate]
    · have := h.2 (Or.inr ⟨0, 0, by decide, by decide, rfl⟩)
      rwa [hrate] at this
  rw [ComputeTimeStep_of_next ratLibm (drainedGrid ℚ) _
    ((candidates_eq_next_iff ratLibm (drainedGrid ℚ) _).mpr
      ⟨by simp [Reaches, finiteDifference, drainedGrid, quietGrid, TRUE, MHD_RK, HD_RK],
        ⟨1, 1, 1, 1, 1⟩, rfl, rfl⟩)]
  simp only [finalCandidates, hscan]
  simp [finalReduction, drainedGrid, quietGrid, finiteDifference, quantum, initialCandidates,
    TRUE, MHD_RK, HD_RK, MHD_Li, cmin_eq_min]
  norm_num

/-- The call on `drainedOffGrid`: the only finite candidate is the `MHD_RK` one,
`0.5 / (5/4)`. -/
theorem drained_off : ComputeTimeStep ratLibm (drainedOffGrid ℚ) = .value (2 / 5) := by
  have hB : ∀ d, magneticField (drainedOffGrid ℚ) (mhdFieldNums (drainedOffGrid ℚ)) d 0 = 0 := by
    intro d
    have h1 : (drainedOffGrid ℚ).BaryonField (mhdFieldNums (drainedOffGrid ℚ)).B1Num 0 = 0 := by
      simp [mhdFieldNums, drainedOffGrid, drainedGrid, quietGrid]
    have h2 : (drainedOffGrid ℚ).BaryonField (mhdFieldNums (drainedOffGrid ℚ)).B2Num 0 = 0 := by
      simp [mhdFieldNums, drainedOffGrid, drainedGrid, quietGrid]
    have h3 : (drainedOffGrid ℚ).BaryonField (mhdFieldNums (drainedOffGrid ℚ)).B3Num 0 = 0 := by
      simp [mhdFieldNums, drainedOffGrid, drainedGrid, quietGrid]
    unfold magneticField
    split_ifs
    · exact h1
    · exact h2
    · exact h3
  have hs : mhdSoundSpeedSq (drainedOffGrid ℚ) (mhdFieldNums (drainedOffGrid ℚ)) 0 = 25 / 16 := by
    simp [mhdSoundSpeedSq, mhdFieldNums, drainedOffGrid, drainedGrid, quietGrid]
    norm_num
  have hrate : mhdSignalRate ratLibm (drainedOffGrid ℚ) 1 (mhdFieldNums (drainedOffGrid ℚ)) 0 0 =
      5 / 4 := by
    rw [mhdSignalRate_unmagnetised ratLibm (drainedOffGrid ℚ) 1 _ 0 0 (25 / 16) hs hB
      (by simp [velocity, mhdFieldNums, drainedOffGrid, drainedGrid, quietGrid])]
    have hw : (drainedOffGrid ℚ).CellWidth 0 0 * 1 = 1 := by
      simp [drainedOffGrid, drainedGrid, quietGrid]
    rw [hw, div_one]
    exact sqrt_drained
  have hscan : mhdScan ratLibm (drainedOffGrid ℚ) (expansionFactor (drainedOffGrid ℚ))
      (mhdFieldNums (drainedOffGrid ℚ)) = 5 / 4 := by
    have ha : expansionFactor (drainedOffGrid ℚ) = 1 := by
      simp [expansionFactor, drainedOffGrid, drainedGrid, quietGrid]
    rw [ha]
    have h := mhdScan_isGreatest ratLibm (drainedOffGrid ℚ) 1 (mhdFieldNums (drainedOffGrid ℚ))
      (by decide) (by decide)
    refine le_antisymm ?_ ?_
    · rcases h.1 with h0 | ⟨n, d, hn, hd, hx⟩
      · rw [h0]
        norm_num
      · have hn0 : n = 0 := by
          have : n < 1 * 1 * 1 := hn
          omega
        have hd0 : d = 0 := by
          have : d < 1 := hd
          omega
        rw [hx, hn0, hd0, hrate]
    · have := h.2 (Or.inr ⟨0, 0, by decide, by decide, rfl⟩)
      rwa [hrate] at this
  rw [ComputeTimeStep_of_next ratLibm (drainedOffGrid ℚ) _
    ((candidates_eq_next_iff ratLibm (drainedOffGrid ℚ) _).mpr
      ⟨by simp [Reaches, finiteDifference, drainedOffGrid, drainedGrid, quietGrid, TRUE,
          MHD_RK, HD_RK],
        ⟨1, 1, 1, 1, 1⟩, rfl, rfl⟩)]
  simp only [finalCandidates, hscan]
  simp [finalReduction, drainedOffGrid, drainedGrid, quietGrid, finiteDifference, quantum,
    initialCandidates, TRUE, MHD_RK, HD_RK, MHD_Li, cmin_eq_min]
  norm_num

end Lemmas

/-! ## The claims -/

section Claims

variable {F : Type} [LinearOrderedField F]

/-- C1.  On every input on which `ComputeTimeStep` reaches its final reduction
(the grid belongs to this processor and lines 121-553 fall through with the
candidates `c`), the call returns a value `dt`, and `dt` is the least element of
the set of the eleven candidates as they stand there: it is one of them and it is
`≤` each of them. -/
theorem final_reduction_is_minimum (L : Libm F) (g : grid F) (c : Candidates F)
    (hlocal : g.ProcessorNumber = g.MyProcessorNumber)
    (hreach : candidates L g = .next c) :
    ∃ dt, ComputeTimeStep L g = .value dt ∧
      IsLeast ({c.dtBaryons, c.dtParticles, c.dtMHD, c.dtViscous, c.dtAcceleration,
        c.dtExpansion, c.dtConduction, c.dtCR, c.dtGasDrag, c.dtCooling, c.dtQuantum} : Set F)
        dt :=
  ⟨finalReduction c, by simp [ComputeTimeStep, hlocal, hreach], finalReduction_isLeast c⟩

/-- Witness of C1 on the grid with two particles and gas drag, whose candidates at
the final reduction are the sentinel except `dtParticles = 1/4`, `dtGasDrag = 1/2`. -/
theorem final_reduction_is_minimum_witness :
    ∃ dt, ComputeTimeStep ratLibm (particleGrid ℚ) = .value dt ∧
      IsLeast ({10 ^ 20, 1 / 4, 10 ^ 20, 10 ^ 20, 10 ^ 20, 10 ^ 20, 10 ^ 20, 10 ^ 20, 1 / 2,
        10 ^ 20, 10 ^ 20} : Set ℚ) dt :=
  final_reduction_is_minimum ratLibm (particleGrid ℚ)
    { dtBaryons := 10 ^ 20, dtViscous := 10 ^ 20, dtParticles := 1 / 4, dtExpansion := 10 ^ 20,
      dtAcceleration := 10 ^ 20, dtMHD := 10 ^ 20, dtConduction := 10 ^ 20, dtCR := 10 ^ 20,
      dtGasDrag := 1 / 2, dtCooling := 10 ^ 20, dtQuantum := 10 ^ 20 }
    (by simp [particleGrid, quietGrid])
    (by
      simp [particleGrid, quietGrid, candidates, baryonsFD, baryonsHD_RK, baryonsMHD_RK,
        Flow.bind, expansion, particles, conduction, acceleration, cosmicRays, cooling,
        gasDrag, quantum, initialCandidates, TRUE, expansionFactor, particleScan,
        List.range_succ, cmin, cmax, fabs]
      norm_num)

/-- C2, as amended.  For a grid of this processor on which the unit lookup
succeeds and no process is enabled (no baryon fields, no particles of either kind,
and the flags of comoving coordinates, self-gravity, both conductions, cosmic
rays, gas drag, the cooling time step and quantum pressure all off),
`ComputeTimeStep` returns exactly `huge_number`. -/
theorem sentinel_neutrality (L : Libm F) (g : grid F) (u : Units F)
    (hlocal : g.ProcessorNumber = g.MyProcessorNumber)
    (hunits : g.GetUnits = some u)
    (hbaryon : g.NumberOfBaryonFields = 0)
    (hpart : g.NumberOfParticles = 0)
    (hactive : g.NumberOfActiveParticles = 0)
    (hcomoving : g.ComovingCoordinates = 0)
    (hgravity : g.SelfGravity = 0)
    (hiso : g.IsotropicConduction = 0)
    (haniso : g.AnisotropicConduction = 0)
    (hcr : g.CRModel = 0)
    (hdrag : g.UseGasDrag = 0)
    (hcool : g.UseCoolingTimestep = 0)
    (hquantum : g.QuantumPressure = 0) :
    ComputeTimeStep L g = .value g.huge_number := by
  simp [ComputeTimeStep, candidates, baryonsFD, baryonsHD_RK, baryonsMHD_RK, Flow.bind,
    expansion, particles, conduction, acceleration, cosmicRays, cooling, gasDrag, quantum,
    initialCandidates, TRUE, finalReduction, cmin, hlocal, hunits, hbaryon, hpart, hactive,
    hcomoving, hgravity, hiso, haniso, hcr, hdrag, hcool, hquantum]

/-- Witness of the amended C2 on the quiet grid. -/
theorem sentinel_neutrality_witness :
    ComputeTimeStep ratLibm (quietGrid ℚ) = .value (quietGrid ℚ).huge_number :=
  sentinel_neutrality ratLibm (quietGrid ℚ) ⟨1, 1, 1, 1, 1⟩ rfl rfl rfl rfl rfl rfl rfl rfl rfl
    rfl rfl rfl rfl

/-- C2 as stated fails: on the quiet grid whose unit lookup reports failure, every
condition of the claim holds (the grid is local and no process is enabled), and
the call ends in the fatal exit of line 123 instead of returning `huge_number`. -/
theorem sentinel_neutrality_counterexample :
    (unitlessGrid ℚ).ProcessorNumber = (unitlessGrid ℚ).MyProcessorNumber ∧
    (unitlessGrid ℚ).NumberOfBaryonFields = 0 ∧
    (unitlessGrid ℚ).NumberOfParticles = 0 ∧
    (unitlessGrid ℚ).NumberOfActiveParticles = 0 ∧
    (unitlessGrid ℚ).ComovingCoordinates = 0 ∧
    (unitlessGrid ℚ).SelfGravity = 0 ∧
    (unitlessGrid ℚ).IsotropicConduction = 0 ∧
    (unitlessGrid ℚ).AnisotropicConduction = 0 ∧
    (unitlessGrid ℚ).CRModel = 0 ∧
    (unitlessGrid ℚ).UseGasDrag = 0 ∧
    (unitlessGrid ℚ).UseCoolingTimestep = 0 ∧
    (unitlessGrid ℚ).QuantumPressure = 0 ∧
    ComputeTimeStep ratLibm (unitlessGrid ℚ) = .fatal ∧
    ComputeTimeStep ratLibm (unitlessGrid ℚ) ≠ .value (unitlessGrid ℚ).huge_number := by
  have h : ComputeTimeStep ratLibm (unitlessGrid ℚ) = .fatal := by
    simp [ComputeTimeStep, candidates, unitlessGrid, quietGrid]
  refine ⟨rfl, rfl, rfl, rfl, rfl, rfl, rfl, rfl, rfl, rfl, rfl, rfl, h, ?_⟩
  rw [h]
  exact fun h => Outcome.noConfusion h

/-- C3, as amended.  Free-fall shortcut exclusivity holds on the inputs that take
the shortcut: for two grids of this processor with baryon fields, a hydro method
that is neither `HD_RK` nor `MHD_RK`, `ProblemType == 63`, and on which the unit
lookup and the collapse-factor computation succeed, agreement on the density
field, the collapse-factor field, `OneZoneFreefallTimestepFraction`, the
gravitational constant, the active index range and field dimensions (and the
constants `pi`, `huge_number`) makes `ComputeTimeStep` return the same value,
whatever the other flags, fields and kernel results are. -/
theorem free_fall_exclusivity (L : Libm F) (g1 g2 : grid F) (u1 u2 : Units F) (ff : Nat → F)
    (hlocal1 : g1.ProcessorNumber = g1.MyProcessorNumber)
    (hlocal2 : g2.ProcessorNumber = g2.MyProcessorNumber)
    (hunits1 : g1.GetUnits = some u1) (hunits2 : g2.GetUnits = some u2)
    (hbaryon1 : 0 < g1.NumberOfBaryonFields) (hbaryon2 : 0 < g2.NumberOfBaryonFields)
    (hhd1 : g1.HydroMethod ≠ HD_RK) (hmhd1 : g1.HydroMethod ≠ MHD_RK)
    (hhd2 : g2.HydroMethod ≠ HD_RK) (hmhd2 : g2.HydroMethod ≠ MHD_RK)
    (hpt1 : g1.ProblemType = 63) (hpt2 : g2.ProblemType = 63)
    (hff : g1.ComputeOneZoneCollapseFactor = some ff)
    (hagree : FreeFallAgree g1 g2) :
    ComputeTimeStep L g1 = ComputeTimeStep L g2 := by
  obtain ⟨hdens, hcf, hfrac, hG, hstart, hend, hdim, hpi, hhuge⟩ := hagree
  rw [ComputeTimeStep_freeFall L g1 u1 ff hlocal1 hunits1 hbaryon1 hhd1 hmhd1 hpt1 hff,
    ComputeTimeStep_freeFall L g2 u2 ff hlocal2 hunits2 hbaryon2 hhd2 hmhd2 hpt2 (hcf ▸ hff)]
  simp only [freeFallTimeStep, hdens, hfrac, hG, hstart, hend, hdim, hpi, hhuge]

/-- Witness of the amended C3: the free-fall test grid and the same grid holding
two particles, with self-gravity and gas drag switched on, return the same value. -/
theorem free_fall_exclusivity_witness :
    ComputeTimeStep ratLibm (collapseGrid ℚ) =
      ComputeTimeStep ratLibm (collapseBusyGrid ℚ) :=
  free_fall_exclusivity ratLibm (collapseGrid ℚ) (collapseBusyGrid ℚ) ⟨1, 1, 1, 1, 1⟩
    ⟨1, 1, 1, 1, 1⟩ (fun _ => 0) rfl rfl rfl rfl (by decide) (by decide) (by decide) (by decide)
    (by decide) (by decide) rfl rfl rfl
    (by simp [FreeFallAgree, collapseGrid, collapseBusyGrid, quietGrid])

/-- C3 as stated fails: the two grids below both have `ProblemType == 63` and agree
on the density field, the collapse-factor field, the fraction, the gravitational
constant and the index range; they differ only in the particle count.  Their
solver is `HD_RK`, so line 142 keeps the call off the shortcut, and the call
returns `1/2` (the `HD_RK` Courant step) on one and `1/4` (the particle step) on
the other. -/
theorem free_fall_exclusivity_counterexample :
    (collapseRKGrid ℚ).ProblemType = 63 ∧ (collapseRKParticleGrid ℚ).ProblemType = 63 ∧
    FreeFallAgree (collapseRKGrid ℚ) (collapseRKParticleGrid ℚ) ∧
    ComputeTimeStep ratLibm (collapseRKGrid ℚ) = .value (1 / 2) ∧
    ComputeTimeStep ratLibm (collapseRKParticleGrid ℚ) = .value (1 / 4) := by
  refine ⟨rfl, rfl, ?_, ?_, ?_⟩
  · simp [FreeFallAgree, collapseRKGrid, collapseRKParticleGrid, collapseGrid, quietGrid]
  · simp [ComputeTimeStep, collapseRKGrid, collapseGrid, quietGrid, candidates, baryonsFD,
      baryonsHD_RK, baryonsMHD_RK, Flow.bind, expansion, particles, conduction, acceleration,
      cosmicRays, cooling, gasDrag, quantum, initialCandidates, TRUE, expansionFactor,
      hdrkScan, hdrkCell, my_MAX, HD_RK, MHD_RK, Zeus_Hydro,
      List.range_succ, cmin_eq_min, cmax_eq_max, fabs, finalReduction]
    norm_num
  · simp [ComputeTimeStep, collapseRKParticleGrid, collapseGrid, quietGrid, candidates, baryonsFD,
      baryonsHD_RK, baryonsMHD_RK, Flow.bind, expansion, particles, conduction, acceleration,
      cosmicRays, cooling, gasDrag, quantum, initialCandidates, TRUE, expansionFactor,
      hdrkScan, hdrkCell, my_MAX, HD_RK, MHD_RK, Zeus_Hydro, particleScan,
      List.range_succ, cmin_eq_min, cmax_eq_max, fabs, finalReduction]
    norm_num

/-- C4, as amended.  For a grid of this processor with baryon fields, a hydro
method that is neither `HD_RK` nor `MHD_RK` and `ProblemType == 63`, on which the
unit lookup and the collapse-factor computation succeed, with `pi > 0` and no cell
of the active index range whose divisor `32 · G · ρ · (1 − f)` is negative (`ρ` the
density and `f` the collapse factor of the cell), `ComputeTimeStep` returns
`OneZoneFreefallTimestepFraction` times `m`, where `m` is the least element of the
set holding `huge_number` and, for every cell `(i, j, k)` of the active index range
(start and end indices included) whose divisor is not zero,
`sqrt(3π / (32 · G · ρ · (1 − f)))`.  A cell whose divisor is zero has an infinite
free-fall time and does not enter the minimum; in every other cell the argument of
the root is positive.  (`POW(x, 0.5)` is `sqrt(x)`.) -/
theorem free_fall_formula (L : Libm F) (g : grid F) (u : Units F) (ff : Nat → F)
    (hpow : ∀ x, L.POW x (1 / 2) = L.sqrt x)
    (hlocal : g.ProcessorNumber = g.MyProcessorNumber)
    (hunits : g.GetUnits = some u)
    (hbaryon : 0 < g.NumberOfBaryonFields)
    (hhd : g.HydroMethod ≠ HD_RK) (hmhd : g.HydroMethod ≠ MHD_RK)
    (hpt : g.ProblemType = 63)
    (hff : g.ComputeOneZoneCollapseFactor = some ff)
    (hpi : 0 < g.pi)
    (hdiv : ∀ i j k, (g.GridStartIndex 0 ≤ i ∧ i ≤ g.GridEndIndex 0) →
      (g.GridStartIndex 1 ≤ j ∧ j ≤ g.GridEndIndex 1) →
      (g.GridStartIndex 2 ≤ k ∧ k ≤ g.GridEndIndex 2) →
      0 ≤ 32 * g.GravitationalConstant *
        g.BaryonField g.IdentifyPhysicalQuantities10.2.DensNum
          (i + j * g.GridDimension 0 + k * g.GridDimension 0 * g.GridDimension 1) *
        (1 - ff (i + j * g.GridDimension 0 + k * g.GridDimension 0 * g.GridDimension 1))) :
    ∃ m, ComputeTimeStep L g = .value (g.OneZoneFreefallTimestepFraction * m) ∧
      IsLeast {x | x = g.huge_number ∨ ∃ i j k,
        (g.GridStartIndex 0 ≤ i ∧ i ≤ g.GridEndIndex 0) ∧
        (g.GridStartIndex 1 ≤ j ∧ j ≤ g.GridEndIndex 1) ∧
        (g.GridStartIndex 2 ≤ k ∧ k ≤ g.GridEndIndex 2) ∧
        32 * g.GravitationalConstant *
          g.BaryonField g.IdentifyPhysicalQuantities10.2.DensNum
            (i + j * g.GridDimension 0 + k * g.GridDimension 0 * g.GridDimension 1) *
          (1 - ff (i + j * g.GridDimension 0 +
            k * g.GridDimension 0 * g.GridDimension 1)) ≠ 0 ∧
        x = L.sqrt ((3 * g.pi) / (32 * g.GravitationalConstant *
              g.BaryonField g.IdentifyPhysicalQuantities10.2.DensNum
                (i + j * g.GridDimension 0 + k * g.GridDimension 0 * g.GridDimension 1) *
              (1 - ff (i + j * g.GridDimension 0 +
                k * g.GridDimension 0 * g.GridDimension 1))))} m ∧
      ∀ i j k, (g.GridStartIndex 0 ≤ i ∧ i ≤ g.GridEndIndex 0) →
        (g.GridStartIndex 1 ≤ j ∧ j ≤ g.GridEndIndex 1) →
        (g.GridStartIndex 2 ≤ k ∧ k ≤ g.GridEndIndex 2) →
        32 * g.GravitationalConstant *
          g.BaryonField g.IdentifyPhysicalQuantities10.2.DensNum
            (i + j * g.GridDimension 0 + k * g.GridDimension 0 * g.GridDimension 1) *
          (1 - ff (i + j * g.GridDimension 0 +
            k * g.GridDimension 0 * g.GridDimension 1)) ≠ 0 →
        0 < (3 * g.pi) / (32 * g.GravitationalConstant *
              g.BaryonField g.IdentifyPhysicalQuantities10.2.DensNum
                (i + j * g.GridDimension 0 + k * g.GridDimension 0 * g.GridDimension 1) *
              (1 - ff (i + j * g.GridDimension 0 +
                k * g.GridDimension 0 * g.GridDimension 1))) := by
  obtain ⟨m, hm, hleast⟩ :=
    freeFallScan_isLeast L g g.IdentifyPhysicalQuantities10.2.DensNum ff
  refine ⟨m, ?_, ?_, ?_⟩
  · rw [ComputeTimeStep_freeFall L g u ff hlocal hunits hbaryon hhd hmhd hpt hff, hm, mul_comm]
  · simpa only [hpow] using hleast
  · intro i j k hi hj hk hne
    exact div_pos (mul_pos (by norm_num) hpi) (lt_of_le_of_ne (hdiv i j k hi hj hk) (Ne.symm hne))

/-- Witness of the amended C4 on the free-fall test grid (one cell of density
`1/4`, collapse factor `0`, `G = 1`, fraction `1/1000`). -/
theorem free_fall_formula_witness :
    ∃ m, ComputeTimeStep ratLibm (collapseGrid ℚ) = .value (1 / 1000 * m) ∧
      IsLeast {x : ℚ | x = 10 ^ 20 ∨ ∃ i j k : Nat,
        (0 ≤ i ∧ i ≤ 0) ∧ (0 ≤ j ∧ j ≤ 0) ∧ (0 ≤ k ∧ k ≤ 0) ∧
        32 * 1 * (if 0 = 0 then (1 / 4 : ℚ) else 0) * (1 - 0) ≠ 0 ∧
        x = Rat.sqrt ((3 * (314159265358979323846 / 10 ^ 20)) /
              (32 * 1 * (if 0 = 0 then 1 / 4 else 0) * (1 - 0)))} m ∧
      ∀ i j k : Nat, (0 ≤ i ∧ i ≤ 0) → (0 ≤ j ∧ j ≤ 0) → (0 ≤ k ∧ k ≤ 0) →
        32 * 1 * (if 0 = 0 then (1 / 4 : ℚ) else 0) * (1 - 0) ≠ 0 →
        (0 : ℚ) < (3 * (314159265358979323846 / 10 ^ 20)) /
              (32 * 1 * (if 0 = 0 then 1 / 4 else 0) * (1 - 0)) :=
  free_fall_formula ratLibm (collapseGrid ℚ) ⟨1, 1, 1, 1, 1⟩ (fun _ => 0)
    (fun x => by norm_num [ratLibm]) rfl rfl (by decide) (by decide) (by decide) rfl rfl
    (by norm_num [collapseGrid, quietGrid])
    (fun _ _ _ _ _ _ => by norm_num [collapseGrid, quietGrid])

/-- C4 as stated fails: the grid below is local, has baryon fields, a
finite-difference solver and `ProblemType == 63`, but its unit lookup reports
failure, and the call ends in the fatal exit of line 123: no value is returned. -/
theorem free_fall_formula_counterexample :
    (collapseUnitlessGrid ℚ).ProcessorNumber = (collapseUnitlessGrid ℚ).MyProcessorNumber ∧
    0 < (collapseUnitlessGrid ℚ).NumberOfBaryonFields ∧
    (collapseUnitlessGrid ℚ).HydroMethod ≠ HD_RK ∧
    (collapseUnitlessGrid ℚ).HydroMethod ≠ MHD_RK ∧
    (collapseUnitlessGrid ℚ).ProblemType = 63 ∧
    ComputeTimeStep ratLibm (collapseUnitlessGrid ℚ) = .fatal ∧
    ¬ ∃ dt, ComputeTimeStep ratLibm (collapseUnitlessGrid ℚ) = .value dt := by
  have h : ComputeTimeStep ratLibm (collapseUnitlessGrid ℚ) = .fatal := by
    simp [ComputeTimeStep, candidates, collapseUnitlessGrid, collapseGrid, quietGrid]
  refine ⟨rfl, by decide, by decide, by decide, rfl, h, ?_⟩
  rw [h]
  rintro ⟨dt, hdt⟩
  exact Outcome.noConfusion hdt

/-- C6, as amended.  For `HydroMethod == HD_RK` with baryon fields on a block of
rank 1, 2 or 3 whose fields are identified, line 316 sets
`dtBaryons = CourantSafetyNumber / M`, where `M` is the greatest element of the
set holding the floor `1e-20` and, for every cell `n` of the entire block
(`GridDimension[0] · GridDimension[1] · GridDimension[2]` cells, whatever the
active index range) and every axis `d < GridRank`, the scaled signal speed
`(cs + |v_d|) / (CellWidth[d][0] · a)`, with `cs` the sound speed of the equation
of state for `(ρ, eint)` and `eint` the dual-energy field or
`total_energy − ½|v|²`. -/
theorem hd_rk_candidate (g : grid F) (a : F) (c : Candidates F)
    (hrank1 : 1 ≤ g.GridRank) (hrank3 : g.GridRank ≤ 3)
    (hbaryon : 0 < g.NumberOfBaryonFields) (hhd : g.HydroMethod = HD_RK)
    (hid : g.IdentifyPhysicalQuantities6.1 = true) :
    ∃ M, IsGreatest {x | x = 1 / 10 ^ 20 ∨ ∃ n d,
        n < g.GridDimension 0 * g.GridDimension 1 * g.GridDimension 2 ∧ d < g.GridRank ∧
        x = hdSignalRate g a g.IdentifyPhysicalQuantities6.2 d n} M ∧
      baryonsHD_RK g a c = .next { c with dtBaryons := g.CourantSafetyNumber / M } :=
  ⟨hdrkScan g a g.IdentifyPhysicalQuantities6.2,
    hdrkScan_isGreatest g a g.IdentifyPhysicalQuantities6.2 hrank1 hrank3,
    by simp [baryonsHD_RK, hbaryon, hhd, hid]⟩

/-- Witness of the amended C6 on the one-cell `HD_RK` grid at `a = 1`. -/
theorem hd_rk_candidate_witness :
    ∃ M, IsGreatest {x : ℚ | x = 1 / 10 ^ 20 ∨ ∃ n d,
        n < 1 * 1 * 1 ∧ d < 1 ∧
        x = hdSignalRate (collapseRKGrid ℚ) 1 ⟨0, 1, 2, 3, 4, 5, 6, 7, 8, 9, 10⟩ d n} M ∧
      baryonsHD_RK (collapseRKGrid ℚ) 1 (initialCandidates (collapseRKGrid ℚ)) =
        .next { initialCandidates (collapseRKGrid ℚ) with dtBaryons := 1 / 2 / M } :=
  hd_rk_candidate (collapseRKGrid ℚ) 1 (initialCandidates (collapseRKGrid ℚ))
    (by decide) (by decide) (by decide) rfl rfl

/-- C6 as stated fails: on the one-cell `HD_RK` grid at rest whose sound speed is
`1e-30`, the maximum over the cells and axes of the scaled signal speed is `1e-30`,
so the claim gives `dtBaryons = 0.5 / 1e-30 = 5e29`; the scan starts its running
maximum at `1e-20` (line 274), and the routine sets `dtBaryons = 0.5 / 1e-20 = 5e19`
and returns it. -/
theorem hd_rk_candidate_counterexample :
    IsGreatest {x : ℚ | ∃ n d, n < 1 * 1 * 1 ∧ d < (coldGrid ℚ).GridRank ∧
      x = hdSignalRate (coldGrid ℚ) 1 (coldGrid ℚ).IdentifyPhysicalQuantities6.2 d n}
      (1 / 10 ^ 30) ∧
    baryonsHD_RK (coldGrid ℚ) 1 (initialCandidates (coldGrid ℚ)) =
      .next { initialCandidates (coldGrid ℚ) with dtBaryons := 5 * 10 ^ 19 } ∧
    ComputeTimeStep ratLibm (coldGrid ℚ) = .value (5 * 10 ^ 19) ∧
    (5 * 10 ^ 19 : ℚ) ≠ (coldGrid ℚ).CourantSafetyNumber / (1 / 10 ^ 30) := by
  refine ⟨⟨⟨0, 0, by decide, by decide, ?_⟩, ?_⟩, ?_, ?_, ?_⟩
  · simp [hdSignalRate, hdInternalEnergy, velocity, coldGrid, quietGrid]
  · rintro x ⟨n, d, hn, hd, rfl⟩
    simp [hdSignalRate, hdInternalEnergy, velocity, coldGrid, quietGrid]
  · simp [baryonsHD_RK, coldGrid, quietGrid, hdrkScan, hdrkCell, my_MAX, cmax_eq_max, fabs,
      initialCandidates, List.range_succ, HD_RK]
    norm_num
  · simp [ComputeTimeStep, coldGrid, quietGrid, candidates, baryonsFD,
      baryonsHD_RK, baryonsMHD_RK, Flow.bind, expansion, particles, conduction, acceleration,
      cosmicRays, cooling, gasDrag, quantum, initialCandidates, TRUE, expansionFactor,
      hdrkScan, hdrkCell, my_MAX, HD_RK, MHD_RK, Zeus_Hydro,
      List.range_succ, cmin_eq_min, cmax_eq_max, fabs, finalReduction]
    norm_num
  · norm_num [coldGrid, quietGrid]

/-- C8, as amended.  Whenever `NumberOfParticles > 0` or
`NumberOfActiveParticles > 0` (and `dtParticles` still holds `huge_number`, as it
does when line 426 is reached), lines 426-446 set
`dtParticles = ParticleCourantSafetyNumber · m`, where `m` is the least element of
the set holding `huge_number` and `CellWidth[d][0] · a / max(|v_d|, tiny_number)`
for every dimension `d < GridRank` and every ordinary and every active particle;
and if `ParticleCourantSafetyNumber ≥ 0`, then for every particle and dimension
`dtParticles ≤ ParticleCourantSafetyNumber · CellWidth[d][0] · a / max(|v_d|, tiny_number)`. -/
theorem particle_candidate (g : grid F) (a : F) (c : Candidates F)
    (hc : c.dtParticles = g.huge_number)
    (hp : 0 < g.NumberOfParticles ∨ 0 < g.NumberOfActiveParticles) :
    ∃ m, IsLeast {x | x = g.huge_number ∨ ∃ d, d < g.GridRank ∧
        ((∃ i, i < g.NumberOfParticles ∧
            x = g.CellWidth d 0 * a / max |g.ParticleVelocity d i| g.tiny_number) ∨
         (∃ i, i < g.NumberOfActiveParticles ∧
            x = g.CellWidth d 0 * a / max |g.ActiveParticleVelocity i d| g.tiny_number))} m ∧
      particles g a c = { c with dtParticles := g.ParticleCourantSafetyNumber * m } ∧
      (0 ≤ g.ParticleCourantSafetyNumber → ∀ d, d < g.GridRank →
        (∀ i, i < g.NumberOfParticles → (particles g a c).dtParticles ≤
          g.ParticleCourantSafetyNumber *
            (g.CellWidth d 0 * a / max |g.ParticleVelocity d i| g.tiny_number)) ∧
        (∀ i, i < g.NumberOfActiveParticles → (particles g a c).dtParticles ≤
          g.ParticleCourantSafetyNumber *
            (g.CellWidth d 0 * a / max |g.ActiveParticleVelocity i d| g.tiny_number))) := by
  have hleast := particleScan_isLeast g a g.huge_number
  have hsec : particles g a c =
      { c with dtParticles := g.ParticleCourantSafetyNumber * particleScan g a g.huge_number } := by
    simp [particles, hp, hc, mul_comm]
  refine ⟨particleScan g a g.huge_number, hleast, hsec, ?_⟩
  intro hpos d hd
  rw [hsec]
  constructor
  · intro i hi
    exact mul_le_mul_of_nonneg_left (hleast.2 (Or.inr ⟨d, hd, Or.inl ⟨i, hi, rfl⟩⟩)) hpos
  · intro i hi
    exact mul_le_mul_of_nonneg_left (hleast.2 (Or.inr ⟨d, hd, Or.inr ⟨i, hi, rfl⟩⟩)) hpos

/-- Witness of the amended C8 on the grid with two particles of speeds `1` and `2`
at `a = 1`. -/
theorem particle_candidate_witness :
    ∃ m, IsLeast {x : ℚ | x = 10 ^ 20 ∨ ∃ d, d < 1 ∧
        ((∃ i, i < 2 ∧ x = 1 * 1 / max |((i : ℕ) : ℚ) + 1| (1 / 10 ^ 20)) ∨
         (∃ i, i < 0 ∧ x = 1 * 1 / max |(0 : ℚ)| (1 / 10 ^ 20)))} m ∧
      particles (particleGrid ℚ) 1 (initialCandidates (particleGrid ℚ)) =
        { initialCandidates (particleGrid ℚ) with dtParticles := 1 / 2 * m } ∧
      ((0 : ℚ) ≤ 1 / 2 → ∀ d, d < 1 →
        (∀ i, i < 2 →
          (particles (particleGrid ℚ) 1 (initialCandidates (particleGrid ℚ))).dtParticles ≤
            1 / 2 * (1 * 1 / max |((i : ℕ) : ℚ) + 1| (1 / 10 ^ 20))) ∧
        (∀ i, i < 0 →
          (particles (particleGrid ℚ) 1 (initialCandidates (particleGrid ℚ))).dtParticles ≤
            1 / 2 * (1 * 1 / max |(0 : ℚ)| (1 / 10 ^ 20)))) :=
  particle_candidate (particleGrid ℚ) 1 (initialCandidates (particleGrid ℚ)) rfl
    (Or.inl (by decide))

/-- C8 as stated fails in its last part: with two particles of speeds `1` and `2`
in unit cells and `ParticleCourantSafetyNumber = -1`, lines 426-446 set
`dtParticles = -1 · min(huge_number, 1, 1/2) = -1/2`, which is not `≤` the bound
`-1 · 1 · 1 / max(|1|, tiny_number) = -1` of the first particle. -/
theorem particle_candidate_counterexample :
    (0 < (negativeSafetyGrid ℚ).NumberOfParticles ∨
      0 < (negativeSafetyGrid ℚ).NumberOfActiveParticles) ∧
    (particles (negativeSafetyGrid ℚ) 1 (initialCandidates (negativeSafetyGrid ℚ))).dtParticles
      = -1 / 2 ∧
    (negativeSafetyGrid ℚ).ParticleCourantSafetyNumber *
      ((negativeSafetyGrid ℚ).CellWidth 0 0 * 1 /
        max |(negativeSafetyGrid ℚ).ParticleVelocity 0 0| (negativeSafetyGrid ℚ).tiny_number)
      = -1 ∧
    ¬ ((particles (negativeSafetyGrid ℚ) 1
          (initialCandidates (negativeSafetyGrid ℚ))).dtParticles ≤
        (negativeSafetyGrid ℚ).ParticleCourantSafetyNumber *
          ((negativeSafetyGrid ℚ).CellWidth 0 0 * 1 /
            max |(negativeSafetyGrid ℚ).ParticleVelocity 0 0|
              (negativeSafetyGrid ℚ).tiny_number)) := by
  have h1 : (particles (negativeSafetyGrid ℚ) 1
      (initialCandidates (negativeSafetyGrid ℚ))).dtParticles = -1 / 2 := by
    simp [particles, particleScan, negativeSafetyGrid, quietGrid, initialCandidates,
      List.range_succ, cmin_eq_min, cmax_eq_max, fabs]
    norm_num
  have h2 : (negativeSafetyGrid ℚ).ParticleCourantSafetyNumber *
      ((negativeSafetyGrid ℚ).CellWidth 0 0 * 1 /
        max |(negativeSafetyGrid ℚ).ParticleVelocity 0 0| (negativeSafetyGrid ℚ).tiny_number)
      = -1 := by
    simp [negativeSafetyGrid, quietGrid]
    norm_num
  refine ⟨Or.inl (by decide), h1, h2, ?_⟩
  rw [h1, h2]
  norm_num

/-- C9 (the code departs from the claim).  On the one-cell grid with self-gravity
on, `CellWidth[0][0] = 1` and acceleration `1e-30`, evaluated over the reals with
the real square root: line 463 computes `sqrt(1 / 1e-30 + 1e-20)`, the ε added
after the division, so `dtAcceleration = 0.5 · sqrt(1e30 + 1e-20) > 1e14`; the
claim's candidate `sqrt(CellWidth / (|acceleration| + tiny_number))` gives
`0.5 · sqrt(1 / (1e-30 + 1e-20)) < 1e10`. -/
theorem acceleration_epsilon_outside_denominator :
    (acceleration (Libm.mk Real.sqrt fun x y => x ^ y) (faintGravityGrid ℝ)
        (initialCandidates (faintGravityGrid ℝ))).dtAcceleration =
      Real.sqrt (10 ^ 30 + 1 / 10 ^ 20) * (1 / 2) ∧
    10 ^ 14 < Real.sqrt (10 ^ 30 + 1 / 10 ^ 20) * (1 / 2) ∧
    1 / 2 * accelerationCandidateSpec (Libm.mk Real.sqrt fun x y => x ^ y) (faintGravityGrid ℝ) 0
        (fun _ => 1 / 10 ^ 30) 0 =
      1 / 2 * Real.sqrt (1 / (1 / 10 ^ 30 + 1 / 10 ^ 20)) ∧
    1 / 2 * Real.sqrt (1 / (1 / 10 ^ 30 + 1 / 10 ^ 20)) < 10 ^ 10 := by
  have hbig : (2 * 10 ^ 14 : ℝ) < Real.sqrt (10 ^ 30 + 1 / 10 ^ 20) := by
    rw [Real.lt_sqrt (by positivity)]
    norm_num
  have hlt : Real.sqrt (10 ^ 30 + 1 / 10 ^ 20) < (10 : ℝ) ^ 20 := by
    rw [Real.sqrt_lt' (by positivity)]
    norm_num
  have hsmall : Real.sqrt (1 / (1 / 10 ^ 30 + 1 / 10 ^ 20)) < (2 * 10 ^ 10 : ℝ) := by
    rw [Real.sqrt_lt' (by positivity)]
    norm_num
  have hsize : fieldSize (faintGravityGrid ℝ) = 1 := by
    simp [fieldSize, faintGravityGrid, quietGrid]
  have hcand : ∀ (acc : Nat → ℝ) (i : Nat),
      (faintGravityGrid ℝ).AccelerationField 0 = some acc →
      Real.sqrt ((faintGravityGrid ℝ).CellWidth 0 0 / |acc i| + (faintGravityGrid ℝ).tiny_number) =
        Real.sqrt (10 ^ 30 + 1 / 10 ^ 20) := by
    intro acc i hacc
    have : acc = fun _ => 1 / 10 ^ 30 := by
      simpa [faintGravityGrid, quietGrid] using hacc.symm
    subst this
    have e : (faintGravityGrid ℝ).CellWidth 0 0 / |(1 / 10 ^ 30 : ℝ)| +
        (faintGravityGrid ℝ).tiny_number = 10 ^ 30 + 1 / 10 ^ 20 := by
      rw [abs_of_pos (by positivity)]
      simp [faintGravityGrid, quietGrid]
    rw [e]
  have hscan : accelerationScan (Libm.mk Real.sqrt fun x y => x ^ y) (faintGravityGrid ℝ)
      (faintGravityGrid ℝ).huge_number = Real.sqrt (10 ^ 30 + 1 / 10 ^ 20) := by
    have h := accelerationScan_isLeast (Libm.mk Real.sqrt fun x y => x ^ y) (faintGravityGrid ℝ)
      (faintGravityGrid ℝ).huge_number
    have hrank : (faintGravityGrid ℝ).GridRank = 1 := rfl
    have hle := le_of_le_of_eq
      (h.2 (Or.inr ⟨0, fun _ => 1 / 10 ^ 30, 0, by rw [hrank]; decide, rfl,
        by rw [hsize]; decide, by positivity, rfl⟩))
      (hcand (fun _ => 1 / 10 ^ 30) 0 rfl)
    rcases h.1 with h0 | ⟨d, acc, i, hd, hacc, -, -, hx⟩
    · rw [h0] at hle
      have hh : (faintGravityGrid ℝ).huge_number = 10 ^ 20 := rfl
      rw [hh] at hle
      exact absurd hlt (not_lt.mpr hle)
    · have hd0 : d = 0 := by
        rw [hrank] at hd
        omega
      subst hd0
      rw [hx]
      exact hcand acc i hacc
  refine ⟨?_, by linarith, ?_, by linarith⟩
  · have hf := (acceleration_fields (Libm.mk Real.sqrt fun x y => x ^ y) (faintGravityGrid ℝ)
      (initialCandidates (faintGravityGrid ℝ))).2.2.2.2.1
    have hinit : (initialCandidates (faintGravityGrid ℝ)).dtAcceleration =
        (faintGravityGrid ℝ).huge_number := rfl
    have hsg : (faintGravityGrid ℝ).SelfGravity ≠ 0 := by
      simp [faintGravityGrid]
    have hne : Real.sqrt (10 ^ 30 + 1 / 10 ^ 20) ≠ (faintGravityGrid ℝ).huge_number := by
      have hh : (faintGravityGrid ℝ).huge_number = 10 ^ 20 := rfl
      rw [hh]
      exact ne_of_lt hlt
    rw [hf, hinit, hscan, if_pos hsg, if_pos hne]
  · have e : accelerationCandidateSpec (Libm.mk Real.sqrt fun x y => x ^ y) (faintGravityGrid ℝ) 0
        (fun _ => 1 / 10 ^ 30) 0 = Real.sqrt (1 / (1 / 10 ^ 30 + 1 / 10 ^ 20)) := by
      unfold accelerationCandidateSpec
      have e' : (faintGravityGrid ℝ).CellWidth 0 0 / (|(1 / 10 ^ 30 : ℝ)| +
          (faintGravityGrid ℝ).tiny_number) = 1 / (1 / 10 ^ 30 + 1 / 10 ^ 20) := by
        rw [abs_of_pos (by positivity)]
        simp [faintGravityGrid, quietGrid]
      exact congrArg Real.sqrt e'
    rw [e]

/-- C10.  When the final reduction is reached with `SelfGravity` on, on a block
with positive cell widths (the number of cells of a field is the product of the
first `GridRank` dimensions): if `AccelerationField[d]` is null for every
`d < GridRank`, then `dtAcceleration` is exactly `huge_number` (no factor `0.5`);
if some populated field produced a candidate below `huge_number`, then
`dtAcceleration` is `0.5 · m`, with `m` the least of `huge_number` and the
candidates of all cells of all populated fields; and if no populated field
produced a candidate below `huge_number`, `dtAcceleration` is `huge_number` again.
A cell of zero acceleration has an infinite candidate: it is not below
`huge_number` and does not enter the minimum. -/
theorem acceleration_zero_field_guard (L : Libm F) (g : grid F) (c : Candidates F)
    (hreach : candidates L g = .next c) (hsg : g.SelfGravity ≠ 0)
    (hwidth : ∀ d, d < g.GridRank → 0 < g.CellWidth d 0) :
    ((∀ d, d < g.GridRank → g.AccelerationField d = none) →
      c.dtAcceleration = g.huge_number) ∧
    ((∃ d acc i, d < g.GridRank ∧ g.AccelerationField d = some acc ∧
        i < Finset.prod (Finset.range g.GridRank) g.GridDimension ∧ acc i ≠ 0 ∧
        L.sqrt (g.CellWidth d 0 / |acc i| + g.tiny_number) < g.huge_number) →
      ∃ m, IsLeast {x | x = g.huge_number ∨ ∃ d acc i, d < g.GridRank ∧
          g.AccelerationField d = some acc ∧
          i < Finset.prod (Finset.range g.GridRank) g.GridDimension ∧ acc i ≠ 0 ∧
          x = L.sqrt (g.CellWidth d 0 / |acc i| + g.tiny_number)} m ∧
        m < g.huge_number ∧ c.dtAcceleration = 1 / 2 * m) ∧
    ((∀ d acc i, d < g.GridRank → g.AccelerationField d = some acc →
        i < Finset.prod (Finset.range g.GridRank) g.GridDimension → acc i ≠ 0 →
        g.huge_number ≤ L.sqrt (g.CellWidth d 0 / |acc i| + g.tiny_number)) →
      c.dtAcceleration = g.huge_number) ∧
    (∀ d acc i, d < g.GridRank → g.AccelerationField d = some acc → acc i ≠ 0 →
      0 < g.CellWidth d 0 / |acc i|) := by
  obtain ⟨-, u, -, rfl⟩ := (candidates_eq_next_iff L g c).mp hreach
  have hleast := accelerationScan_isLeast L g g.huge_number
  rw [fieldSize_eq_prod] at hleast
  simp only [finalCandidates, if_pos hsg]
  refine ⟨?_, ?_, ?_, ?_⟩
  · intro hnull
    have hscan : accelerationScan L g g.huge_number = g.huge_number := by
      rcases hleast.1 with h0 | ⟨d, acc, i, hd, hacc, -, -, -⟩
      · exact h0
      · rw [hnull d hd] at hacc
        exact Option.noConfusion hacc
    rw [hscan]
    simp
  · rintro ⟨d, acc, i, hd, hacc, hi, hne, hlt⟩
    have hm : accelerationScan L g g.huge_number < g.huge_number :=
      lt_of_le_of_lt (hleast.2 (Or.inr ⟨d, acc, i, hd, hacc, hi, hne, rfl⟩)) hlt
    refine ⟨accelerationScan L g g.huge_number, hleast, hm, ?_⟩
    rw [if_pos (ne_of_lt hm), mul_comm]
  · intro hall
    have hscan : accelerationScan L g g.huge_number = g.huge_number := by
      apply le_antisymm (hleast.2 (Or.inl rfl))
      rcases hleast.1 with h0 | ⟨d, acc, i, hd, hacc, hi, hne, hx⟩
      · exact le_of_eq h0.symm
      · rw [hx]
        exact hall d acc i hd hacc hi hne
    rw [hscan]
    simp
  · intro d acc i hd _ hne
    exact div_pos (hwidth d hd) (abs_pos.mpr hne)

/-- Witness of C10: on the grid with self-gravity on and no acceleration field the
candidate at the final reduction is `huge_number = 1e20`; so it is on the grid
whose acceleration is zero in its cell; on the grid with the acceleration `1/4`
(over the reals, with the real square root) the candidate
`sqrt(1 / (1/4) + 1e-20)` is below `huge_number` and the factor `0.5` is applied. -/
theorem acceleration_zero_field_guard_witness :
    (finalCandidates ratLibm (nullGravityGrid ℚ) ⟨1, 1, 1, 1, 1⟩).dtAcceleration = 10 ^ 20 ∧
    (finalCandidates ratLibm (zeroGravityGrid ℚ) ⟨1, 1, 1, 1, 1⟩).dtAcceleration = 10 ^ 20 ∧
    ∃ m : ℝ, IsLeast {x | x = (gravityGrid ℝ).huge_number ∨ ∃ d acc i,
        d < (gravityGrid ℝ).GridRank ∧ (gravityGrid ℝ).AccelerationField d = some acc ∧
        i < Finset.prod (Finset.range (gravityGrid ℝ).GridRank) (gravityGrid ℝ).GridDimension ∧
        acc i ≠ 0 ∧
        x = Real.sqrt ((gravityGrid ℝ).CellWidth d 0 / |acc i| + (gravityGrid ℝ).tiny_number)} m ∧
      m < (gravityGrid ℝ).huge_number ∧
      (finalCandidates (Libm.mk Real.sqrt fun x y => x ^ y) (gravityGrid ℝ)
        ⟨1, 1, 1, 1, 1⟩).dtAcceleration = 1 / 2 * m :=
  ⟨(acceleration_zero_field_guard ratLibm (nullGravityGrid ℚ) _
      ((candidates_eq_next_iff ratLibm (nullGravityGrid ℚ) _).mpr
        ⟨by simp [Reaches, finiteDifference, nullGravityGrid, quietGrid, TRUE], _, rfl, rfl⟩)
      (by simp [nullGravityGrid])
      (fun _ _ => by norm_num [nullGravityGrid, quietGrid])).1 (fun _ _ => rfl),
   (acceleration_zero_field_guard ratLibm (zeroGravityGrid ℚ) _
      ((candidates_eq_next_iff ratLibm (zeroGravityGrid ℚ) _).mpr
        ⟨by simp [Reaches, finiteDifference, zeroGravityGrid, quietGrid, TRUE], _, rfl, rfl⟩)
      (by simp [zeroGravityGrid])
      (fun _ _ => by norm_num [zeroGravityGrid, quietGrid])).2.2.1
      (fun d acc i _ hacc _ hne => by
        have hz : acc = fun _ => 0 := by
          simpa [zeroGravityGrid, quietGrid] using hacc.symm
        rw [hz] at hne
        exact absurd rfl hne),
   (acceleration_zero_field_guard (Libm.mk Real.sqrt fun x y => x ^ y) (gravityGrid ℝ) _
      ((candidates_eq_next_iff _ (gravityGrid ℝ) _).mpr
        ⟨by simp [Reaches, finiteDifference, gravityGrid, quietGrid, TRUE], _, rfl, rfl⟩)
      (by simp [gravityGrid])
      (fun _ _ => by norm_num [gravityGrid, quietGrid])).2.1
      ⟨0, fun _ => 1 / 4, 0, by decide, rfl, by simp [gravityGrid, quietGrid],
        by norm_num, by
        show Real.sqrt ((1 : ℝ) / |1 / 4| + 1 / 10 ^ 20) < 10 ^ 20
        rw [Real.sqrt_lt' (by positivity), abs_of_pos (by positivity)]
        norm_num⟩⟩

/-- C5, as amended.  Let the second input be the first with one process disabled:
no baryon fields, no particles, `SelfGravity` off, no acceleration fields, no
potential field, both conductions off, `CRModel` off on an input on which the
`MHD_RK` scan does not run, gas drag off, the cooling time step off, or quantum
pressure off (comoving coordinates are not in the list, nor is `CRModel` under
`MHD_RK` with baryon fields).  If the call on the first input reaches its final
reduction, so does the call on the second, both calls return a value, and the
value with the process disabled is greater than or equal to the value with it
enabled. -/
theorem disabling_monotone (L : Libm F) (g g' : grid F) (c : Candidates F)
    (hd : Disables g g') (hreach : candidates L g = .next c) :
    ∃ c' dt dt', candidates L g' = .next c' ∧ ComputeTimeStep L g = .value dt ∧
      ComputeTimeStep L g' = .value dt' ∧ dt ≤ dt' := by
  obtain ⟨hunits, hproc, hmy, hhuge, hR, hmono⟩ := disables_facts L g g' hd
  obtain ⟨hr, u, hu, rfl⟩ := (candidates_eq_next_iff L g c).mp hreach
  have hreach' : candidates L g' = .next (finalCandidates L g' u) :=
    (candidates_eq_next_iff L g' _).mpr ⟨hR hr, u, hunits.trans hu, rfl⟩
  refine ⟨_, _, _, hreach', ComputeTimeStep_of_next L g _ hreach,
    ComputeTimeStep_of_next L g' _ hreach', ?_⟩
  rw [hproc, hmy, hhuge]
  split_ifs
  · exact le_refl _
  · exact hmono u

/-- Witness of the amended C5: the grid with cosmic-ray diffusion and streaming
and no baryon fields, and the same grid with `CRModel` off. -/
theorem disabling_monotone_witness :
    ∃ c' dt dt',
      candidates ratLibm { streamingGrid ℚ with CRModel := 0 } = .next c' ∧
      ComputeTimeStep ratLibm (streamingGrid ℚ) = .value dt ∧
      ComputeTimeStep ratLibm { streamingGrid ℚ with CRModel := 0 } = .value dt' ∧
      dt ≤ dt' :=
  disabling_monotone ratLibm (streamingGrid ℚ) { streamingGrid ℚ with CRModel := 0 }
    (finalCandidates ratLibm (streamingGrid ℚ) ⟨1, 1, 1, 1, 1⟩)
    (Or.inr (Or.inr (Or.inr (Or.inr (Or.inr (Or.inr (Or.inl ⟨rfl, fun h =>
      absurd h.1 (by decide)⟩)))))))
    ((candidates_eq_next_iff _ (streamingGrid ℚ) _).mpr
      ⟨by simp [Reaches, finiteDifference, streamingGrid, quietGrid, TRUE], _, rfl, rfl⟩)

/-- C5 as stated fails.  (1) Comoving coordinates: with two particles of speeds `1`
and `2`, expansion factor `2` and expansion step `1000`, the call returns `1/2`; with
`ComovingCoordinates` off and everything else the same, `a` is `1` and the call
returns `1/4`.  (2) Baryon fields under the free-fall test: the call takes the
shortcut and returns the free-fall step `2`; with the baryon fields absent it
returns the particle step `1/4`.  (3) Cosmic-ray streaming: with diffusion step
`1` and streaming step `10` the stored candidate is the streaming one and the call
returns `5`; with `CRStreaming` off it returns `1/2`.  (4) `CRModel` under
`MHD_RK`: on a cell of density `1` at rest without magnetic field, with sound speed
`5/4`, `CRgamma = 4/3` and the cosmic-ray energy `-81/64`, the cosmic-ray term
lowers `cs²` from `25/16` to `1`, and the call returns `0.5 / 1 = 1/2`; with
`CRModel` off it returns `0.5 / (5/4) = 2/5`. -/
theorem disabling_monotone_counterexample :
    (ComputeTimeStep ratLibm (comovingGrid ℚ) = .value (1 / 2) ∧
      ComputeTimeStep ratLibm (comovingOffGrid ℚ) = .value (1 / 4)) ∧
    (ComputeTimeStep ratLibm (shortcutGrid ℚ) = .value 2 ∧
      ComputeTimeStep ratLibm (shortcutOffGrid ℚ) = .value (1 / 4)) ∧
    (ComputeTimeStep ratLibm (streamingGrid ℚ) = .value 5 ∧
      ComputeTimeStep ratLibm (streamingOffGrid ℚ) = .value (1 / 2)) ∧
    (drainedOffGrid ℚ = { drainedGrid ℚ with CRModel := 0 } ∧
      ComputeTimeStep ratLibm (drainedGrid ℚ) = .value (1 / 2) ∧
      ComputeTimeStep ratLibm (drainedOffGrid ℚ) = .value (2 / 5)) := by
  refine ⟨⟨?_, ?_⟩, ⟨?_, ?_⟩, ⟨?_, ?_⟩, rfl,
    drained_on, drained_off⟩
  · simp [ComputeTimeStep, comovingGrid, quietGrid, candidates, baryonsFD,
      baryonsHD_RK, baryonsMHD_RK, Flow.bind, expansion, particles, conduction, acceleration,
      cosmicRays, cooling, gasDrag, quantum, initialCandidates, TRUE, expansionFactor,
      particleScan, List.range_succ, cmin_eq_min, cmax_eq_max, fabs, finalReduction]
    norm_num
  · simp [ComputeTimeStep, comovingOffGrid, comovingGrid, quietGrid, candidates, baryonsFD,
      baryonsHD_RK, baryonsMHD_RK, Flow.bind, expansion, particles, conduction, acceleration,
      cosmicRays, cooling, gasDrag, quantum, initialCandidates, TRUE, expansionFactor,
      particleScan, List.range_succ, cmin_eq_min, cmax_eq_max, fabs, finalReduction]
    norm_num
  · rw [ComputeTimeStep_freeFall ratLibm (shortcutGrid ℚ) ⟨1, 1, 1, 1, 1⟩ (fun _ => 0) rfl rfl
      (by decide) (by decide) (by decide) rfl rfl]
    obtain ⟨m, hm, hleast⟩ := freeFallScan_isLeast ratLibm (shortcutGrid ℚ)
      (shortcutGrid ℚ).IdentifyPhysicalQuantities10.2.DensNum (fun _ => 0)
    have harg : (3 * (shortcutGrid ℚ).pi) / (32 * (shortcutGrid ℚ).GravitationalConstant *
        (shortcutGrid ℚ).BaryonField (shortcutGrid ℚ).IdentifyPhysicalQuantities10.2.DensNum
          (0 + 0 * (shortcutGrid ℚ).GridDimension 0 +
            0 * (shortcutGrid ℚ).GridDimension 0 * (shortcutGrid ℚ).GridDimension 1) *
        (1 - (fun _ => (0 : ℚ)) (0 + 0 * (shortcutGrid ℚ).GridDimension 0 +
            0 * (shortcutGrid ℚ).GridDimension 0 * (shortcutGrid ℚ).GridDimension 1))) = 2 * 2 := by
      simp only [shortcutGrid, quietGrid]
      norm_num
    have hpow : ∀ x : ℚ, ratLibm.POW x (1 / 2) = Rat.sqrt x := fun x => by
      norm_num [ratLibm]
    have hm2 : m = 2 := by
      apply le_antisymm
      · have := hleast.2 (Or.inr ⟨0, 0, 0, ⟨le_refl _, le_refl _⟩, ⟨le_refl _, le_refl _⟩,
          ⟨le_refl _, le_refl _⟩, by
            simp only [shortcutGrid, quietGrid]
            norm_num, rfl⟩)
        rw [harg, hpow, Rat.sqrt_eq] at this
        simpa using this
      · rcases hleast.1 with h0 | ⟨i, j, k, hi, hj, hk, -, hx⟩
        · rw [h0]
          show (2 : ℚ) ≤ 10 ^ 20
          norm_num
        · have hi0 : i = 0 := Nat.le_antisymm hi.2 hi.1
          have hj0 : j = 0 := Nat.le_antisymm hj.2 hj.1
          have hk0 : k = 0 := Nat.le_antisymm hk.2 hk.1
          subst hi0 hj0 hk0
          rw [harg, hpow, Rat.sqrt_eq] at hx
          rw [hx]
          simp
    rw [hm, hm2]
    show Outcome.value ((2 : ℚ) * 1) = Outcome.value 2
    rw [mul_one]
  · simp [ComputeTimeStep, shortcutOffGrid, shortcutGrid, quietGrid, candidates, baryonsFD,
      baryonsHD_RK, baryonsMHD_RK, Flow.bind, expansion, particles, conduction, acceleration,
      cosmicRays, cooling, gasDrag, quantum, initialCandidates, TRUE, expansionFactor,
      particleScan, List.range_succ, cmin_eq_min, cmax_eq_max, fabs, finalReduction]
    norm_num
  · simp [ComputeTimeStep, streamingGrid, quietGrid, candidates, baryonsFD,
      baryonsHD_RK, baryonsMHD_RK, Flow.bind, expansion, particles, conduction, acceleration,
      cosmicRays, cooling, gasDrag, quantum, initialCandidates, TRUE, expansionFactor,
      cmin_eq_min, finalReduction]
    norm_num
  · simp [ComputeTimeStep, streamingOffGrid, streamingGrid, quietGrid, candidates, baryonsFD,
      baryonsHD_RK, baryonsMHD_RK, Flow.bind, expansion, particles, conduction, acceleration,
      cosmicRays, cooling, gasDrag, quantum, initialCandidates, TRUE, expansionFactor,
      cmin_eq_min, finalReduction]
    norm_num

/-- C11 (the code departs from the claim).  The loops of lines 514-521 run over
`GridStartIndex[d] ≤ index_d < GridEndIndex[d]`: the cooling scan ends with the
least of `huge_number` and the cooling times of those cells, the cells at an end
index left out.  On the block of `2 × 2 × 2` active cells whose last cell has the
cooling time `1` and the others `100`, only the first cell is read:
`dtCooling = 0.1 · 100 = 10` and the call returns `10`, where the claim gives
`0.1 · 1`.  On the grid with one active cell (start = end in every dimension) no
cell is read: `dtCooling = 0.1 · huge_number`, above `0.1 · cooling_time[0]`. -/
theorem cooling_scan_excludes_end_indices (g : grid F) (ct : Nat → F) :
    IsLeast {x | x = g.huge_number ∨ ∃ i j k,
        (g.GridStartIndex 0 ≤ i ∧ i < g.GridEndIndex 0) ∧
        (g.GridStartIndex 1 ≤ j ∧ j < g.GridEndIndex 1) ∧
        (g.GridStartIndex 2 ≤ k ∧ k < g.GridEndIndex 2) ∧
        x = ct (GRIDINDEX_NOGHOST g i j k)}
      (coolingScan g ct g.huge_number) ∧
    (candidates ratLibm (coolingBlock ℚ) =
        .next { initialCandidates (coolingBlock ℚ) with dtCooling := 10 } ∧
      ComputeTimeStep ratLibm (coolingBlock ℚ) = .value 10 ∧
      ¬ (10 : ℚ) ≤ (coolingBlock ℚ).CoolingTimestepSafetyFactor *
          ((coolingBlock ℚ).ComputeCoolingTime.getD fun _ => 0)
            (GRIDINDEX_NOGHOST (coolingBlock ℚ) 1 1 1)) ∧
    (candidates ratLibm (coolingGrid ℚ) =
        .next { initialCandidates (coolingGrid ℚ) with dtCooling := 10 ^ 19 } ∧
      ComputeTimeStep ratLibm (coolingGrid ℚ) = .value (10 ^ 19) ∧
      ¬ (10 ^ 19 : ℚ) ≤ (coolingGrid ℚ).CoolingTimestepSafetyFactor *
          ((coolingGrid ℚ).ComputeCoolingTime.getD fun _ => 0)
            (GRIDINDEX_NOGHOST (coolingGrid ℚ) 0 0 0)) := by
  refine ⟨coolingScan_isLeast g ct g.huge_number, ⟨?_, ?_, ?_⟩, ⟨?_, ?_, ?_⟩⟩
  · simp [coolingBlock, quietGrid, candidates, baryonsFD,
      baryonsHD_RK, baryonsMHD_RK, Flow.bind, expansion, particles, conduction, acceleration,
      cosmicRays, cooling, gasDrag, quantum, initialCandidates, TRUE, expansionFactor,
      coolingScan, loopExcl, GRIDINDEX_NOGHOST, cmin_eq_min]
    norm_num
  · simp [ComputeTimeStep, coolingBlock, quietGrid, candidates, baryonsFD,
      baryonsHD_RK, baryonsMHD_RK, Flow.bind, expansion, particles, conduction, acceleration,
      cosmicRays, cooling, gasDrag, quantum, initialCandidates, TRUE, expansionFactor,
      coolingScan, loopExcl, GRIDINDEX_NOGHOST, cmin_eq_min, finalReduction]
    norm_num
  · simp [coolingBlock, quietGrid, GRIDINDEX_NOGHOST]
    norm_num
  · simp [coolingGrid, quietGrid, candidates, baryonsFD,
      baryonsHD_RK, baryonsMHD_RK, Flow.bind, expansion, particles, conduction, acceleration,
      cosmicRays, cooling, gasDrag, quantum, initialCandidates, TRUE, expansionFactor,
      coolingScan, loopExcl, GRIDINDEX_NOGHOST, cmin_eq_min]
    norm_num
  · simp [ComputeTimeStep, coolingGrid, quietGrid, candidates, baryonsFD,
      baryonsHD_RK, baryonsMHD_RK, Flow.bind, expansion, particles, conduction, acceleration,
      cosmicRays, cooling, gasDrag, quantum, initialCandidates, TRUE, expansionFactor,
      coolingScan, loopExcl, GRIDINDEX_NOGHOST, cmin_eq_min, finalReduction]
    norm_num
  · simp [coolingGrid, quietGrid, GRIDINDEX_NOGHOST]
    norm_num

/-- C12, as amended.  For every input to `find_min_dt_cell` in which at least one
cell of the active range is not skipped and has an estimate below `DBL_MAX`,
`out_dt` is the smallest estimate `dt_cell` over all the active cells that are not
skipped (it is attained at an active, not skipped cell and is at most the estimate
of each of them), and `out_rho`, `out_cs` and `out_dx` are that cell's density
`dens[idx]`, its sound speed `sqrt(γ · P / ρ)` and its cell width `dx[i]`. -/
theorem limiting_cell_minimum (L : Libm F) (A : MinDtArgs F)
    (h : ∃ i j k, ActiveCell A i j k ∧ NotSkipped L A i j k ∧
      cellEstimate L A i j k < DBL_MAX) :
    ∃ i j k, ActiveCell A i j k ∧ NotSkipped L A i j k ∧
      (find_min_dt_cell L A).out_dt = cellEstimate L A i j k ∧
      (∀ i' j' k', ActiveCell A i' j' k' → NotSkipped L A i' j' k' →
        (find_min_dt_cell L A).out_dt ≤ cellEstimate L A i' j' k') ∧
      (find_min_dt_cell L A).out_rho = A.dens (cellIndex A i j k) ∧
      (find_min_dt_cell L A).out_cs =
        L.sqrt (A.gamma * A.pres (cellIndex A i j k) / A.dens (cellIndex A i j k)) ∧
      (find_min_dt_cell L A).out_dx = A.dx i := by
  obtain ⟨i, j, k, hact, hns, hmin, hout⟩ := find_min_dt_cell_some L A h
  refine ⟨i, j, k, hact, hns, ?_, ?_, ?_, ?_, ?_⟩
  · rw [hout]
  · intro i' j' k' ha hn
    rw [hout]
    exact hmin i' j' k' ha hn
  · rw [hout]
  · rw [hout]
  · rw [hout]

/-- Witness of the amended C12 on the row of two cells whose first cell has
density `0`: the second cell is not skipped and its estimate is `1/2`. -/
theorem limiting_cell_minimum_witness :
    ∃ i j k, ActiveCell (pairArgs ℚ) i j k ∧ NotSkipped ratLibm (pairArgs ℚ) i j k ∧
      (find_min_dt_cell ratLibm (pairArgs ℚ)).out_dt = cellEstimate ratLibm (pairArgs ℚ) i j k ∧
      (∀ i' j' k', ActiveCell (pairArgs ℚ) i' j' k' → NotSkipped ratLibm (pairArgs ℚ) i' j' k' →
        (find_min_dt_cell ratLibm (pairArgs ℚ)).out_dt ≤
          cellEstimate ratLibm (pairArgs ℚ) i' j' k') ∧
      (find_min_dt_cell ratLibm (pairArgs ℚ)).out_rho =
        (pairArgs ℚ).dens (cellIndex (pairArgs ℚ) i j k) ∧
      (find_min_dt_cell ratLibm (pairArgs ℚ)).out_cs =
        ratLibm.sqrt ((pairArgs ℚ).gamma * (pairArgs ℚ).pres (cellIndex (pairArgs ℚ) i j k) /
          (pairArgs ℚ).dens (cellIndex (pairArgs ℚ) i j k)) ∧
      (find_min_dt_cell ratLibm (pairArgs ℚ)).out_dx = (pairArgs ℚ).dx i :=
  limiting_cell_minimum ratLibm (pairArgs ℚ)
    (have hd : cellDenom ratLibm (pairArgs ℚ) 1 0 0 = 2 := by
      rw [cellDenom_at_rest (pairArgs ℚ) 1 0 0 (by decide) (by decide)
        (by norm_num [pairArgs, oneCellArgs, cellIndex]) rfl rfl rfl rfl]
      norm_num [pairArgs, oneCellArgs]
    ⟨1, 0, 0, ⟨⟨by decide, by decide⟩, ⟨by decide, by decide⟩, ⟨by decide, by decide⟩⟩,
      ⟨by norm_num [pairArgs, oneCellArgs, cellIndex],
        by norm_num [pairArgs, oneCellArgs, cellIndex],
        by rw [hd]; norm_num⟩,
      by
        unfold cellEstimate
        rw [hd]
        exact lt_DBL_MAX _ (by norm_num [pairArgs, oneCellArgs])⟩)

/-- C12 as stated fails: on the one-cell block with widths `2` and `aye = DBL_MAX`
the cell is active and not skipped (density `1`, pressure `1`, denominator `1`), and
its estimate is `DBL_MAX / 1`; the test `dt_cell < best_dt` of line 723 fails
against the initial `best_dt = DBL_MAX`, so all four outputs are zero, not the
cell's estimate and density. -/
theorem limiting_cell_minimum_counterexample :
    ActiveCell (sentinelArgs ℚ) 0 0 0 ∧ NotSkipped ratLibm (sentinelArgs ℚ) 0 0 0 ∧
      cellEstimate ratLibm (sentinelArgs ℚ) 0 0 0 = DBL_MAX ∧
      (0 : ℚ) < DBL_MAX ∧
      (sentinelArgs ℚ).dens (cellIndex (sentinelArgs ℚ) 0 0 0) = 1 ∧
      find_min_dt_cell ratLibm (sentinelArgs ℚ) =
        { out_rho := 0, out_cs := 0, out_dx := 0, out_dt := 0 } := by
  have hd : cellDenom ratLibm (sentinelArgs ℚ) 0 0 0 = 1 := by
    rw [cellDenom_at_rest (sentinelArgs ℚ) 0 0 0 (by decide) (by decide)
      (by norm_num [sentinelArgs, oneCellArgs, cellIndex]) rfl rfl rfl rfl]
    norm_num [sentinelArgs, oneCellArgs]
  have haye : (sentinelArgs ℚ).aye = DBL_MAX := rfl
  refine ⟨⟨⟨le_refl _, le_refl _⟩, ⟨le_refl _, le_refl _⟩, ⟨le_refl _, le_refl _⟩⟩,
    ⟨by norm_num [sentinelArgs, oneCellArgs, cellIndex],
      by norm_num [sentinelArgs, oneCellArgs, cellIndex], by rw [hd]; norm_num⟩,
    by unfold cellEstimate; rw [hd, haye, div_one], lt_DBL_MAX 0 (by norm_num), rfl, ?_⟩
  have hscan : minDtScan ratLibm (sentinelArgs ℚ) =
      { best_dt := DBL_MAX, best_i := 0, best_j := 0, best_k := 0 } := by
    rw [minDtScan_single ratLibm (sentinelArgs ℚ) rfl rfl rfl]
    show minDtCell ratLibm (sentinelArgs ℚ)
      { best_dt := DBL_MAX, best_i := 0, best_j := 0, best_k := 0 } 0 0 0 = _
    unfold minDtCell
    simp only [hd, haye, div_one, lt_irrefl, if_false]
    split_ifs <;> rfl
  unfold find_min_dt_cell
  rw [hscan]
  simp only [lt_irrefl, if_false]

/-- C13.  For every input to `find_min_dt_cell` in which every active cell has a
non-positive density or a non-positive pressure, or in which every active cell of
positive density and pressure has a denominator that is not positive, the function
returns and its four outputs `out_rho`, `out_cs`, `out_dx` and `out_dt` are all
exactly zero. -/
theorem limiting_cell_all_skipped (L : Libm F) (A : MinDtArgs F)
    (h : (∀ i j k, ActiveCell A i j k →
          A.dens (cellIndex A i j k) ≤ 0 ∨ A.pres (cellIndex A i j k) ≤ 0) ∨
      (∀ i j k, ActiveCell A i j k → 0 < A.dens (cellIndex A i j k) →
          0 < A.pres (cellIndex A i j k) → cellDenom L A i j k ≤ 0)) :
    (find_min_dt_cell L A).out_rho = 0 ∧ (find_min_dt_cell L A).out_cs = 0 ∧
      (find_min_dt_cell L A).out_dx = 0 ∧ (find_min_dt_cell L A).out_dt = 0 := by
  have hnone : ∀ i j k, ActiveCell A i j k → ¬ NotSkipped L A i j k := by
    rintro i j k hact ⟨hr, hp, hd⟩
    rcases h with h | h
    · rcases h i j k hact with h | h
      · exact absurd hr (not_lt.mpr h)
      · exact absurd hp (not_lt.mpr h)
    · have h0 := h i j k hact hr hp
      have : (0 : F) < 1 / 10 ^ 20 := by positivity
      exact absurd (lt_trans this hd) (not_lt.mpr h0)
  rw [find_min_dt_cell_none L A hnone]
  exact ⟨rfl, rfl, rfl, rfl⟩

/-- Witness of C13 on the row of two active cells, one of density `0` and one of
pressure `-1`. -/
theorem limiting_cell_all_skipped_witness :
    (find_min_dt_cell ratLibm (voidArgs ℚ)).out_rho = 0 ∧
      (find_min_dt_cell ratLibm (voidArgs ℚ)).out_cs = 0 ∧
      (find_min_dt_cell ratLibm (voidArgs ℚ)).out_dx = 0 ∧
      (find_min_dt_cell ratLibm (voidArgs ℚ)).out_dt = 0 :=
  limiting_cell_all_skipped ratLibm (voidArgs ℚ) (Or.inl fun i j k _ => by
    by_cases h0 : cellIndex (voidArgs ℚ) i j k = 0
    · left
      show (if cellIndex (voidArgs ℚ) i j k = 0 then (0 : ℚ) else 1) ≤ 0
      rw [if_pos h0]
    · right
      show (if cellIndex (voidArgs ℚ) i j k = 0 then (1 : ℚ) else -1) ≤ 0
      rw [if_neg h0]
      norm_num)

/-- C14, as amended.  For every block whose active range contains exactly one valid
cell (positive density and positive pressure; every other active cell has a
non-positive density or pressure), if the denominator of that cell exceeds `1e-20`
and its estimate is below `DBL_MAX`, then `find_min_dt_cell` returns exactly that
cell: `out_rho` is its density, `out_cs` is `sqrt(γ · P / ρ)` of that cell,
`out_dx` is `dx` at its `i` index and `out_dt` is its own estimate. -/
theorem limiting_cell_single_valid (L : Libm F) (A : MinDtArgs F) (i j k : Nat)
    (hact : ActiveCell A i j k)
    (hrho : 0 < A.dens (cellIndex A i j k)) (hP : 0 < A.pres (cellIndex A i j k))
    (hothers : ∀ i' j' k', ActiveCell A i' j' k' → (i', j', k') ≠ (i, j, k) →
      A.dens (cellIndex A i' j' k') ≤ 0 ∨ A.pres (cellIndex A i' j' k') ≤ 0)
    (hdenom : 1 / 10 ^ 20 < cellDenom L A i j k)
    (hmax : A.aye / cellDenom L A i j k < DBL_MAX) :
    find_min_dt_cell L A =
      { out_rho := A.dens (cellIndex A i j k)
        out_cs := L.sqrt (A.gamma * A.pres (cellIndex A i j k) / A.dens (cellIndex A i j k))
        out_dx := A.dx i
        out_dt := A.aye / cellDenom L A i j k } := by
  obtain ⟨i', j', k', hact', hns', _, hout⟩ :=
    find_min_dt_cell_some L A ⟨i, j, k, hact, ⟨hrho, hP, hdenom⟩, hmax⟩
  have heq : (i', j', k') = (i, j, k) := by
    by_contra hne
    rcases hothers i' j' k' hact' hne with h | h
    · exact absurd hns'.1 (not_lt.mpr h)
    · exact absurd hns'.2.1 (not_lt.mpr h)
  obtain ⟨rfl, rfl, rfl⟩ := Prod.mk.injEq _ _ _ _ ▸ heq
  rw [hout]
  rfl

/-- Witness of the amended C14 on the row of two cells whose first cell has
density `0`: the second cell is returned, with the estimate `1 / 2`. -/
theorem limiting_cell_single_valid_witness :
    find_min_dt_cell ratLibm (pairArgs ℚ) =
      { out_rho := (pairArgs ℚ).dens (cellIndex (pairArgs ℚ) 1 0 0)
        out_cs := ratLibm.sqrt ((pairArgs ℚ).gamma *
          (pairArgs ℚ).pres (cellIndex (pairArgs ℚ) 1 0 0) /
          (pairArgs ℚ).dens (cellIndex (pairArgs ℚ) 1 0 0))
        out_dx := (pairArgs ℚ).dx 1
        out_dt := (pairArgs ℚ).aye / cellDenom ratLibm (pairArgs ℚ) 1 0 0 } :=
  have hd : cellDenom ratLibm (pairArgs ℚ) 1 0 0 = 2 := by
    rw [cellDenom_at_rest (pairArgs ℚ) 1 0 0 (by decide) (by decide)
      (by norm_num [pairArgs, oneCellArgs, cellIndex]) rfl rfl rfl rfl]
    norm_num [pairArgs, oneCellArgs]
  limiting_cell_single_valid ratLibm (pairArgs ℚ) 1 0 0
    ⟨⟨by decide, by decide⟩, ⟨by decide, by decide⟩, ⟨by decide, by decide⟩⟩
    (by norm_num [pairArgs, oneCellArgs, cellIndex])
    (by norm_num [pairArgs, oneCellArgs, cellIndex])
    (fun i' j' k' hact hne => by
      left
      obtain ⟨⟨_, hi⟩, ⟨_, hj⟩, ⟨_, hk⟩⟩ := hact
      have hi' : i' ≤ 1 := hi
      have hj' : j' = 0 := Nat.le_zero.mp hj
      have hk' : k' = 0 := Nat.le_zero.mp hk
      subst hj' hk'
      have hi0 : i' = 0 := by
        rcases Nat.le_one_iff_eq_zero_or_eq_one.mp hi' with h | h
        · exact h
        · exact absurd (by rw [h]) hne
      subst hi0
      simp [pairArgs, oneCellArgs, cellIndex])
    (by rw [hd]; norm_num)
    (by rw [hd]; exact lt_DBL_MAX _ (by norm_num [pairArgs, oneCellArgs]))

/-- C14 as stated fails: the one-cell block with cell widths `4e20` has exactly one
valid cell (density `1`, pressure `1`, sound speed `1`), whose denominator
`1/4e20 + 1/4e20 = 5e-21` is not above `1e-20`; the cell is skipped by line 715 and
all four outputs are zero, not the density `1` and the sound speed `1` of the cell. -/
theorem limiting_cell_single_valid_counterexample :
    ActiveCell (wideArgs ℚ) 0 0 0 ∧
      (∀ i j k, ActiveCell (wideArgs ℚ) i j k → (i, j, k) = (0, 0, 0)) ∧
      (wideArgs ℚ).dens (cellIndex (wideArgs ℚ) 0 0 0) = 1 ∧
      (wideArgs ℚ).pres (cellIndex (wideArgs ℚ) 0 0 0) = 1 ∧
      cellDenom ratLibm (wideArgs ℚ) 0 0 0 = 5 / 10 ^ 21 ∧
      find_min_dt_cell ratLibm (wideArgs ℚ) =
        { out_rho := 0, out_cs := 0, out_dx := 0, out_dt := 0 } := by
  have hd : cellDenom ratLibm (wideArgs ℚ) 0 0 0 = 5 / 10 ^ 21 := by
    rw [cellDenom_at_rest (wideArgs ℚ) 0 0 0 (by decide) (by decide)
      (by norm_num [wideArgs, oneCellArgs, cellIndex]) rfl rfl rfl rfl]
    norm_num [wideArgs, oneCellArgs]
  refine ⟨⟨⟨le_refl _, le_refl _⟩, ⟨le_refl _, le_refl _⟩, ⟨le_refl _, le_refl _⟩⟩, ?_,
    rfl, rfl, hd, ?_⟩
  · rintro i j k ⟨⟨_, hi⟩, ⟨_, hj⟩, ⟨_, hk⟩⟩
    have hi' : i = 0 := Nat.le_zero.mp hi
    have hj' : j = 0 := Nat.le_zero.mp hj
    have hk' : k = 0 := Nat.le_zero.mp hk
    rw [hi', hj', hk']
  · apply find_min_dt_cell_none
    rintro i j k ⟨⟨_, hi⟩, ⟨_, hj⟩, ⟨_, hk⟩⟩ ⟨_, _, hlt⟩
    have hi' : i = 0 := Nat.le_zero.mp hi
    have hj' : j = 0 := Nat.le_zero.mp hj
    have hk' : k = 0 := Nat.le_zero.mp hk
    subst hi' hj' hk'
    rw [hd] at hlt
    norm_num at hlt

/-- C15 (the code departs from the claim).  A failure of the cosmic-ray diffusion
or streaming routine makes the function execute `return FAIL` (lines 484-493):
the caller receives the value `FAIL = 0` as a time step, not a fatal error.  The
status of `CosmologyComputeExpansionFactor` (line 137) and of
`IdentifyPhysicalQuantities` in the finite-difference branch (line 148) is not
tested: the call goes on and returns a time step.  The unit lookup, the expansion
time step, the conduction routine and the field identification of the `HD_RK` and
`MHD_RK` branches do end the run. -/
theorem failures_not_all_fatal :
    (ComputeTimeStep ratLibm (diffusionFailGrid ℚ) = .value 0 ∧
      ComputeTimeStep ratLibm (streamingFailGrid ℚ) = .value 0 ∧
      ComputeTimeStep ratLibm (expansionFactorFailGrid ℚ) = .value 1 ∧
      ComputeTimeStep ratLibm (identifyFailGrid ℚ) = .value (1 / 2)) ∧
    (ComputeTimeStep ratLibm { quietGrid ℚ with GetUnits := none } = .fatal ∧
      ComputeTimeStep ratLibm
        { quietGrid ℚ with ComovingCoordinates := 1, CosmologyComputeExpansionTimestep := none } =
        .fatal ∧
      ComputeTimeStep ratLibm
        { quietGrid ℚ with IsotropicConduction := 1, ComputeConductionTimeStep := none } =
        .fatal ∧
      ComputeTimeStep ratLibm
        { quietGrid ℚ with NumberOfBaryonFields := 1, HydroMethod := HD_RK,
                           IdentifyPhysicalQuantities6 := (false, ⟨0, 1, 2, 3, 4, 5, 6, 7, 8, 9, 10⟩) } =
        .fatal ∧
      ComputeTimeStep ratLibm
        { quietGrid ℚ with NumberOfBaryonFields := 1, HydroMethod := MHD_RK,
                           IdentifyPhysicalQuantities10 := (false, ⟨0, 1, 2, 3, 4, 5, 6, 7, 8, 9, 10⟩) } =
        .fatal) := by
  refine ⟨⟨?_, ?_, ?_, ?_⟩, ⟨?_, ?_, ?_, ?_, ?_⟩⟩
  · simp [ComputeTimeStep, diffusionFailGrid, quietGrid, candidates, baryonsFD,
      baryonsHD_RK, baryonsMHD_RK, Flow.bind, expansion, particles, conduction, acceleration,
      cosmicRays, initialCandidates, expansionFactor, FAIL]
  · simp [ComputeTimeStep, streamingFailGrid, quietGrid, candidates, baryonsFD,
      baryonsHD_RK, baryonsMHD_RK, Flow.bind, expansion, particles, conduction, acceleration,
      cosmicRays, initialCandidates, expansionFactor, FAIL]
  · simp [ComputeTimeStep, expansionFactorFailGrid, quietGrid, candidates, baryonsFD,
      baryonsHD_RK, baryonsMHD_RK, Flow.bind, expansion, particles, conduction, acceleration,
      cosmicRays, cooling, gasDrag, quantum, initialCandidates, TRUE, expansionFactor,
      cmin_eq_min, finalReduction]
    norm_num
  · simp [ComputeTimeStep, identifyFailGrid, quietGrid, candidates, baryonsFD,
      baryonsHD_RK, baryonsMHD_RK, Flow.bind, expansion, particles, conduction, acceleration,
      cosmicRays, cooling, gasDrag, quantum, initialCandidates, TRUE, expansionFactor,
      cmin_eq_min, finalReduction, Zeus_Hydro, HD_RK, MHD_RK, MHD_Li]
    norm_num
  · simp [ComputeTimeStep, quietGrid, candidates]
  · simp [ComputeTimeStep, quietGrid, candidates, baryonsFD,
      baryonsHD_RK, baryonsMHD_RK, Flow.bind, expansion, particles, initialCandidates,
      expansionFactor]
  · simp [ComputeTimeStep, quietGrid, candidates, baryonsFD,
      baryonsHD_RK, baryonsMHD_RK, Flow.bind, expansion, particles, conduction, acceleration,
      initialCandidates, expansionFactor]
  · simp [ComputeTimeStep, quietGrid, candidates, baryonsFD,
      baryonsHD_RK, baryonsMHD_RK, Flow.bind, initialCandidates, expansionFactor, HD_RK, MHD_RK]
  · simp [ComputeTimeStep, quietGrid, candidates, baryonsFD,
      baryonsHD_RK, baryonsMHD_RK, Flow.bind, initialCandidates, expansionFactor, HD_RK, MHD_RK]

/-- C16.  For `GridRank == 1`, in the `HD_RK` and in the `MHD_RK` per-cell scan,
the contributions `dt_y` and `dt_z` of the two inactive axes are exactly zero for
every cell, whatever the fields hold (and whatever `dyinv` and `dzinv` are), so the
per-cell maximum `my_MAX(dt_x, dt_y, dt_z)` that the loop body compares with the
running maximum is `max(dt_x, 0)`. -/
theorem rank_one_inactive_axes (L : Libm F) (g : grid F) (dxinv dyinv dzinv : F)
    (nums : FieldNums) (st : F × Nat) (hrank : g.GridRank = 1) :
    ((hdrkContributions g dxinv dyinv dzinv nums st.2).dt_y = 0 ∧
      (hdrkContributions g dxinv dyinv dzinv nums st.2).dt_z = 0 ∧
      hdrkCell g dxinv dyinv dzinv nums st =
        ((if max (hdrkContributions g dxinv dyinv dzinv nums st.2).dt_x 0 > st.1
          then max (hdrkContributions g dxinv dyinv dzinv nums st.2).dt_x 0
          else st.1), st.2 + 1)) ∧
    ((mhdContributions L g dxinv dyinv dzinv nums st.2).dt_y = 0 ∧
      (mhdContributions L g dxinv dyinv dzinv nums st.2).dt_z = 0 ∧
      mhdCell L g dxinv dyinv dzinv nums st =
        ((if max (mhdContributions L g dxinv dyinv dzinv nums st.2).dt_x 0 > st.1
          then max (mhdContributions L g dxinv dyinv dzinv nums st.2).dt_x 0
          else st.1), st.2 + 1)) := by
  obtain ⟨hy, hz⟩ := hdrkContributions_rank_one g dxinv dyinv dzinv nums st.2 hrank
  obtain ⟨hy', hz'⟩ := mhdContributions_rank_one L g dxinv dyinv dzinv nums st.2 hrank
  refine ⟨⟨hy, hz, ?_⟩, ⟨hy', hz', ?_⟩⟩
  · rw [hdrkCell_contributions, hy, hz, my_MAX_zero_zero]
  · rw [mhdCell_contributions, hy', hz', my_MAX_zero_zero]

/-- Witness of C16 on the one-cell grid of rank 1 whose `y` and `z` velocities are
`7` and `-9`, with `dyinv = 5` and `dzinv = 3`. -/
theorem rank_one_inactive_axes_witness :
    ((hdrkContributions (sidewaysGrid ℚ) 1 5 3 ⟨0, 1, 2, 3, 4, 5, 6, 7, 8, 9, 10⟩ 0).dt_y = 0 ∧
      (hdrkContributions (sidewaysGrid ℚ) 1 5 3 ⟨0, 1, 2, 3, 4, 5, 6, 7, 8, 9, 10⟩ 0).dt_z = 0 ∧
      hdrkCell (sidewaysGrid ℚ) 1 5 3 ⟨0, 1, 2, 3, 4, 5, 6, 7, 8, 9, 10⟩ (1 / 10 ^ 20, 0) =
        ((if max (hdrkContributions (sidewaysGrid ℚ) 1 5 3
              ⟨0, 1, 2, 3, 4, 5, 6, 7, 8, 9, 10⟩ 0).dt_x 0 > 1 / 10 ^ 20
          then max (hdrkContributions (sidewaysGrid ℚ) 1 5 3
              ⟨0, 1, 2, 3, 4, 5, 6, 7, 8, 9, 10⟩ 0).dt_x 0
          else 1 / 10 ^ 20), 0 + 1)) ∧
    ((mhdContributions ratLibm (sidewaysGrid ℚ) 1 5 3
        ⟨0, 1, 2, 3, 4, 5, 6, 7, 8, 9, 10⟩ 0).dt_y = 0 ∧
      (mhdContributions ratLibm (sidewaysGrid ℚ) 1 5 3
        ⟨0, 1, 2, 3, 4, 5, 6, 7, 8, 9, 10⟩ 0).dt_z = 0 ∧
      mhdCell ratLibm (sidewaysGrid ℚ) 1 5 3 ⟨0, 1, 2, 3, 4, 5, 6, 7, 8, 9, 10⟩
          (1 / 10 ^ 20, 0) =
        ((if max (mhdContributions ratLibm (sidewaysGrid ℚ) 1 5 3
              ⟨0, 1, 2, 3, 4, 5, 6, 7, 8, 9, 10⟩ 0).dt_x 0 > 1 / 10 ^ 20
          then max (mhdContributions ratLibm (sidewaysGrid ℚ) 1 5 3
              ⟨0, 1, 2, 3, 4, 5, 6, 7, 8, 9, 10⟩ 0).dt_x 0
          else 1 / 10 ^ 20), 0 + 1)) :=
  rank_one_inactive_axes ratLibm (sidewaysGrid ℚ) 1 5 3 ⟨0, 1, 2, 3, 4, 5, 6, 7, 8, 9, 10⟩
    (1 / 10 ^ 20, 0) rfl

/-- C17, as amended.  The `HD_RK` scan (lines 278-314) skips no cell: for every
block of rank 1, 2 or 3 and every cell `n0` of it, a cell of zero density
included, the maximum `dt_temp` is the larger of the maximum `M` over the
remaining cells (with the floor `1e-20`) and the maximum `m0` over the active axes
of the scaled signal speed `(cs + |v_d|) / (CellWidth[d][0] · a)` of the cell `n0`
itself, `cs` being what the equation of state returns for it; and
`dtBaryons = CourantSafetyNumber / max(M, m0)`.  It equals the value of the
remaining cells alone exactly when `m0 ≤ M`. -/
theorem hd_rk_scan_keeps_every_cell (g : grid F) (a : F) (c : Candidates F) (n0 : Nat)
    (M m0 : F)
    (hrank1 : 1 ≤ g.GridRank) (hrank3 : g.GridRank ≤ 3)
    (hbaryon : 0 < g.NumberOfBaryonFields) (hhd : g.HydroMethod = HD_RK)
    (hid : g.IdentifyPhysicalQuantities6.1 = true)
    (hn0 : n0 < g.GridDimension 0 * g.GridDimension 1 * g.GridDimension 2)
    (hM : IsGreatest {x | x = 1 / 10 ^ 20 ∨ ∃ n d,
        n < g.GridDimension 0 * g.GridDimension 1 * g.GridDimension 2 ∧ n ≠ n0 ∧
        d < g.GridRank ∧ x = hdSignalRate g a g.IdentifyPhysicalQuantities6.2 d n} M)
    (hm0 : IsGreatest {x | ∃ d, d < g.GridRank ∧
        x = hdSignalRate g a g.IdentifyPhysicalQuantities6.2 d n0} m0) :
    hdrkScan g a g.IdentifyPhysicalQuantities6.2 = max M m0 ∧
      baryonsHD_RK g a c = .next { c with dtBaryons := g.CourantSafetyNumber / max M m0 } ∧
      (hdrkScan g a g.IdentifyPhysicalQuantities6.2 = M ↔ m0 ≤ M) := by
  have hscan := hdrkScan_split g a g.IdentifyPhysicalQuantities6.2 n0 M m0 hrank1 hrank3 hn0
    hM hm0
  refine ⟨hscan, baryonsHD_RK_of_scan g a _ c hbaryon hhd hid hscan, ?_⟩
  rw [hscan]
  exact max_eq_left_iff

/-- Witness of the amended C17 on the block of `2 × 2 × 2` cells whose cell `0`
has density `0` and the `x` velocity `9`: `M = 1` and `m0 = 10`. -/
theorem hd_rk_scan_keeps_every_cell_witness :
    hdrkScan (zeroDensityBlock ℚ) 1 (zeroDensityBlock ℚ).IdentifyPhysicalQuantities6.2 =
        max 1 10 ∧
      baryonsHD_RK (zeroDensityBlock ℚ) 1 (initialCandidates (zeroDensityBlock ℚ)) =
        .next { initialCandidates (zeroDensityBlock ℚ) with
          dtBaryons := (zeroDensityBlock ℚ).CourantSafetyNumber / max 1 10 } ∧
      (hdrkScan (zeroDensityBlock ℚ) 1 (zeroDensityBlock ℚ).IdentifyPhysicalQuantities6.2 = 1 ↔
        (10 : ℚ) ≤ 1) :=
  hd_rk_scan_keeps_every_cell (zeroDensityBlock ℚ) 1 (initialCandidates (zeroDensityBlock ℚ)) 0
    1 10 (by decide) (by decide) (by decide) rfl rfl (by decide)
    zeroDensityBlock_rest zeroDensityBlock_cell

/-- C17 as stated fails: in the block of `2 × 2 × 2` cells with sound speed `1`,
unit widths and `a = 1`, cell `0` has density `0` and the `x` velocity `9`, and
the other cells are at rest.  The remaining cells alone give the maximum `1`,
hence `dtBaryons = 0.5 / 1`; the scan reads cell `0` like any other cell, its
maximum is `1 + 9 = 10` and `dtBaryons = 0.5 / 10`. -/
theorem hd_rk_scan_keeps_every_cell_counterexample :
    (zeroDensityBlock ℚ).BaryonField (zeroDensityBlock ℚ).IdentifyPhysicalQuantities6.2.DensNum 0
        = 0 ∧
      IsGreatest {x : ℚ | x = 1 / 10 ^ 20 ∨ ∃ n d,
        n < (zeroDensityBlock ℚ).GridDimension 0 * (zeroDensityBlock ℚ).GridDimension 1 *
          (zeroDensityBlock ℚ).GridDimension 2 ∧ n ≠ 0 ∧
        d < (zeroDensityBlock ℚ).GridRank ∧
        x = hdSignalRate (zeroDensityBlock ℚ) 1
          (zeroDensityBlock ℚ).IdentifyPhysicalQuantities6.2 d n} 1 ∧
      hdrkScan (zeroDensityBlock ℚ) 1 (zeroDensityBlock ℚ).IdentifyPhysicalQuantities6.2 = 10 ∧
      baryonsHD_RK (zeroDensityBlock ℚ) 1 (initialCandidates (zeroDensityBlock ℚ)) =
        .next { initialCandidates (zeroDensityBlock ℚ) with dtBaryons := 1 / 2 / 10 } ∧
      (zeroDensityBlock ℚ).CourantSafetyNumber = 1 / 2 := by
  have hscan : hdrkScan (zeroDensityBlock ℚ) 1
      (zeroDensityBlock ℚ).IdentifyPhysicalQuantities6.2 = 10 := by
    rw [hdrkScan_split (zeroDensityBlock ℚ) 1 _ 0 1 10 (by decide) (by decide) (by decide)
      zeroDensityBlock_rest zeroDensityBlock_cell]
    norm_num
  refine ⟨?_, zeroDensityBlock_rest, hscan, ?_, rfl⟩
  · simp [zeroDensityBlock, quietGrid]
  · exact baryonsHD_RK_of_scan (zeroDensityBlock ℚ) 1 10 _ (by decide) rfl rfl hscan

/-- C18.  When the final reduction is reached with `CRModel` on, `dtCR` is the
value `last` produced by whichever of the diffusion and streaming routines ran
last (the streaming result whenever `CRStreaming` is on, also when `CRDiffusion`
is on too; the diffusion result when only `CRDiffusion` is on; the untouched
`huge_number` when neither ran), multiplied by `CRCourantSafetyNumber`, and
multiplied by `NumberOfGhostZones` as well if and only if `CRDiffusion == 1`. -/
theorem cosmic_ray_candidate (L : Libm F) (g : grid F) (c : Candidates F)
    (hreach : candidates L g = .next c) (hcr : g.CRModel ≠ 0) :
    ∃ last,
      (g.CRStreaming ≠ 0 → g.ComputeCRStreamingTimeStep = some last) ∧
      (g.CRStreaming = 0 → g.CRDiffusion ≠ 0 → g.ComputeCRDiffusionTimeStep = some last) ∧
      (g.CRStreaming = 0 → g.CRDiffusion = 0 → last = g.huge_number) ∧
      (g.CRDiffusion = 1 →
        c.dtCR = last * g.CRCourantSafetyNumber * (g.NumberOfGhostZones : F)) ∧
      (g.CRDiffusion ≠ 1 → c.dtCR = last * g.CRCourantSafetyNumber) := by
  obtain ⟨hr, u, hu, rfl⟩ := (candidates_eq_next_iff L g c).mp hreach
  obtain ⟨_, _, _, _, _, _, hcrs, _⟩ := hr
  obtain ⟨hdiff, hstream⟩ := hcrs hcr
  rw [finalCandidates_dtCR L g u hcr]
  by_cases hs : g.CRStreaming ≠ 0
  · obtain ⟨v, hv⟩ := Option.isSome_iff_exists.mp (hstream hs)
    refine ⟨v, fun _ => hv, fun h => absurd h hs, fun h => absurd h hs, ?_, ?_⟩
    · intro h1
      rw [if_pos hs, if_pos h1, hv]
      rfl
    · intro h1
      rw [if_pos hs, if_neg h1, hv, mul_one]
      rfl
  · have hs0 : g.CRStreaming = 0 := not_not.mp hs
    by_cases hd : g.CRDiffusion ≠ 0
    · obtain ⟨v, hv⟩ := Option.isSome_iff_exists.mp (hdiff hd)
      refine ⟨v, fun h => absurd hs0 h, fun _ _ => hv, fun _ h => absurd h hd, ?_, ?_⟩
      · intro h1
        rw [if_neg hs, if_pos hd, if_pos h1, hv]
        rfl
      · intro h1
        rw [if_neg hs, if_pos hd, if_neg h1, hv, mul_one]
        rfl
    · have hd0 : g.CRDiffusion = 0 := not_not.mp hd
      refine ⟨g.huge_number, fun h => absurd hs0 h, fun _ h => absurd hd0 h, fun _ _ => rfl,
        ?_, ?_⟩
      · intro h1
        rw [hd0] at h1
        exact absurd h1 (by decide)
      · intro h1
        rw [if_neg hs, if_neg hd, if_neg h1, mul_one]

/-- Witness of C18 on the grid with diffusion in mode `1` (time step `3`) and
streaming (time step `10`) both on: `dtCR` is `10 · 0.5 · 3`. -/
theorem cosmic_ray_candidate_witness :
    ∃ last : ℚ,
      ((subcycledGrid ℚ).CRStreaming ≠ 0 →
        (subcycledGrid ℚ).ComputeCRStreamingTimeStep = some last) ∧
      ((subcycledGrid ℚ).CRStreaming = 0 → (subcycledGrid ℚ).CRDiffusion ≠ 0 →
        (subcycledGrid ℚ).ComputeCRDiffusionTimeStep = some last) ∧
      ((subcycledGrid ℚ).CRStreaming = 0 → (subcycledGrid ℚ).CRDiffusion = 0 →
        last = (subcycledGrid ℚ).huge_number) ∧
      ((subcycledGrid ℚ).CRDiffusion = 1 →
        (finalCandidates ratLibm (subcycledGrid ℚ) ⟨1, 1, 1, 1, 1⟩).dtCR =
          last * (subcycledGrid ℚ).CRCourantSafetyNumber *
            ((subcycledGrid ℚ).NumberOfGhostZones : ℚ)) ∧
      ((subcycledGrid ℚ).CRDiffusion ≠ 1 →
        (finalCandidates ratLibm (subcycledGrid ℚ) ⟨1, 1, 1, 1, 1⟩).dtCR =
          last * (subcycledGrid ℚ).CRCourantSafetyNumber) :=
  cosmic_ray_candidate ratLibm (subcycledGrid ℚ) _
    ((candidates_eq_next_iff ratLibm (subcycledGrid ℚ) _).mpr
      ⟨by simp [Reaches, finiteDifference, subcycledGrid, quietGrid, TRUE], _, rfl, rfl⟩)
    (by decide)

/-- C19.  When the final reduction is reached with `QuantumPressure` on, on a block
of rank 1, 2 or 3 and with `POW(x, 2) = x²`: let
`coef = 5.9157166856e27 · TimeUnits / (LengthUnits / a)² / FDMMass`, not zero, and
let `dx` be the minimum over the active axes `d < GridRank` of `CellWidth[d][0] · a`.
Then `dtQuantum = CourantSafetyNumber · dx² / (2 · coef)` when `SelfGravity` is off
or there is no `PotentialField`, and otherwise `dtQuantum` is the minimum of that
value and `|coef / PotentialField[i]|` over every cell `i` of the gravity mesh
(`GravitatingMassFieldDimension[0] · [1] · [2]` cells) whose potential is not zero.
A cell of zero potential has an infinite bound and does not enter the minimum; the
bound of every other cell is positive. -/
theorem quantum_candidate (L : Libm F) (g : grid F) (u : Units F) (c : Candidates F)
    (hreach : candidates L g = .next c) (hu : g.GetUnits = some u)
    (hq : g.QuantumPressure ≠ 0) (hpow : ∀ x, L.POW x 2 = x ^ 2)
    (hrank1 : 1 ≤ g.GridRank) (hrank3 : g.GridRank ≤ 3)
    (hcoef : quantumCoefficient g u (expansionFactor g) ≠ 0) :
    ∃ dx, IsLeast {x | ∃ d, d < g.GridRank ∧ x = g.CellWidth d 0 * expansionFactor g} dx ∧
      (g.SelfGravity = 0 ∨ g.PotentialField = none →
        c.dtQuantum = g.CourantSafetyNumber * dx ^ 2 /
          (2 * quantumCoefficient g u (expansionFactor g))) ∧
      (∀ potential, g.SelfGravity ≠ 0 → g.PotentialField = some potential →
        IsLeast {x | x = g.CourantSafetyNumber * dx ^ 2 /
              (2 * quantumCoefficient g u (expansionFactor g)) ∨
            ∃ i, i < g.GravitatingMassFieldDimension 0 * g.GravitatingMassFieldDimension 1 *
              g.GravitatingMassFieldDimension 2 ∧ potential i ≠ 0 ∧
              x = |quantumCoefficient g u (expansionFactor g) / potential i|}
          c.dtQuantum ∧
        ∀ i, potential i ≠ 0 →
          0 < |quantumCoefficient g u (expansionFactor g) / potential i|) := by
  have hc := candidates_next_eq L g u c hu hreach
  obtain ⟨dx, hdx, hval⟩ := quantum_on L g u (expansionFactor g) (initialCandidates g) hq hpow
  have hdt : c.dtQuantum = (quantum L g u (expansionFactor g) (initialCandidates g)).dtQuantum := by
    rw [hc]
    rfl
  refine ⟨dx, ?_, ?_, ?_⟩
  · rw [hdx]
    exact quantum_dx_isLeast g (expansionFactor g) hrank1 hrank3
  · rintro (h | h)
    · rw [hdt, hval]
      cases hp : g.PotentialField with
      | none => rfl
      | some potential => simp [h]
    · rw [hdt, hval, h]
  · intro potential hs hp
    refine ⟨?_, fun i hi => abs_pos.mpr (div_ne_zero hcoef hi)⟩
    rw [hdt, hval, hp]
    simp only [if_pos hs]
    exact quantum_potential_isLeast _ _ potential _

/-- Witness of C19 on the grid of rank 2 with cell widths `2` and `3`, unit
conversion factors `1` and a potential field of two cells. -/
theorem quantum_candidate_witness :
    ∃ dx : ℚ, IsLeast {x | ∃ d, d < (quantumGrid ℚ).GridRank ∧
        x = (quantumGrid ℚ).CellWidth d 0 * expansionFactor (quantumGrid ℚ)} dx ∧
      ((quantumGrid ℚ).SelfGravity = 0 ∨ (quantumGrid ℚ).PotentialField = none →
        (finalCandidates ratLibm (quantumGrid ℚ) ⟨1, 1, 1, 1, 1⟩).dtQuantum =
          (quantumGrid ℚ).CourantSafetyNumber * dx ^ 2 /
            (2 * quantumCoefficient (quantumGrid ℚ) ⟨1, 1, 1, 1, 1⟩
              (expansionFactor (quantumGrid ℚ)))) ∧
      (∀ potential, (quantumGrid ℚ).SelfGravity ≠ 0 →
        (quantumGrid ℚ).PotentialField = some potential →
        IsLeast {x | x = (quantumGrid ℚ).CourantSafetyNumber * dx ^ 2 /
              (2 * quantumCoefficient (quantumGrid ℚ) ⟨1, 1, 1, 1, 1⟩
                (expansionFactor (quantumGrid ℚ))) ∨
            ∃ i, i < (quantumGrid ℚ).GravitatingMassFieldDimension 0 *
                (quantumGrid ℚ).GravitatingMassFieldDimension 1 *
                (quantumGrid ℚ).GravitatingMassFieldDimension 2 ∧ potential i ≠ 0 ∧
              x = |quantumCoefficient (quantumGrid ℚ) ⟨1, 1, 1, 1, 1⟩
                (expansionFactor (quantumGrid ℚ)) / potential i|}
          (finalCandidates ratLibm (quantumGrid ℚ) ⟨1, 1, 1, 1, 1⟩).dtQuantum ∧
        ∀ i, potential i ≠ 0 →
          0 < |quantumCoefficient (quantumGrid ℚ) ⟨1, 1, 1, 1, 1⟩
                (expansionFactor (quantumGrid ℚ)) / potential i|) :=
  quantum_candidate ratLibm (quantumGrid ℚ) ⟨1, 1, 1, 1, 1⟩ _
    ((candidates_eq_next_iff ratLibm (quantumGrid ℚ) _).mpr
      ⟨by simp [Reaches, finiteDifference, quantumGrid, quietGrid, TRUE], _, rfl, rfl⟩)
    rfl (by decide) (fun x => by simp [ratLibm, sq]) (by decide) (by decide)
    (by norm_num [quantumCoefficient, expansionFactor, quantumGrid, quietGrid])

/-- C20, as amended.  With the pressure-free flag off, the denominator that
`find_min_dt_cell` builds for a cell is the sum of the `x` term and the `y` term
`(c_s + |v_axis − v_grid,axis|) / Δaxis`, `c_s = sqrt(γ · P / ρ)`, for every rank,
and of the `z` term if `rank == 3` and `w` is not `NULL`; for a cell of positive
density and pressure the loop body compares `aye / denom` with the running best,
provided `denom` exceeds `1e-20`.  So the estimate is the claimed
`aye / Σ over the first rank axes` for rank 2 and for rank 3 with a `w` field. -/
theorem limiting_cell_estimate_formula (L : Libm F) (A : MinDtArgs F) (best : BestCell F)
    (i j k : Nat) (hip : A.ipfree ≠ 1)
    (hrho : 0 < A.dens (cellIndex A i j k)) (hP : 0 < A.pres (cellIndex A i j k)) :
    cellDenom L A i j k =
      axisTerm L A 0 i j k + axisTerm L A 1 i j k +
        (if A.rank = 3 ∧ A.w.isSome = true then axisTerm L A 2 i j k else 0) ∧
    minDtCell L A best i j k =
      (if 1 / 10 ^ 20 < cellDenom L A i j k ∧ A.aye / cellDenom L A i j k < best.best_dt then
        { best_dt := A.aye / cellDenom L A i j k, best_i := i, best_j := j, best_k := k }
      else best) ∧
    (A.rank = 2 ∨ (A.rank = 3 ∧ A.w.isSome = true) →
      A.aye / cellDenom L A i j k = cellEstimateSpec L A i j k) := by
  refine ⟨cellDenom_eq L A i j k hip, minDtCell_valid L A best i j k hrho hP, ?_⟩
  intro h
  rw [cellDenom_eq L A i j k hip]
  unfold cellEstimateSpec
  rcases h with h | ⟨h, hw⟩
  · rw [h]
    simp [List.range_succ]
  · rw [h]
    simp [List.range_succ, hw, add_assoc]

/-- Witness of the amended C20 on the one-cell block of rank 2. -/
theorem limiting_cell_estimate_formula_witness :
    cellDenom ratLibm (flatArgs ℚ) 0 0 0 =
      axisTerm ratLibm (flatArgs ℚ) 0 0 0 0 + axisTerm ratLibm (flatArgs ℚ) 1 0 0 0 +
        (if (flatArgs ℚ).rank = 3 ∧ (flatArgs ℚ).w.isSome = true then
          axisTerm ratLibm (flatArgs ℚ) 2 0 0 0 else 0) ∧
    minDtCell ratLibm (flatArgs ℚ) { best_dt := DBL_MAX, best_i := 0, best_j := 0, best_k := 0 }
        0 0 0 =
      (if 1 / 10 ^ 20 < cellDenom ratLibm (flatArgs ℚ) 0 0 0 ∧
          (flatArgs ℚ).aye / cellDenom ratLibm (flatArgs ℚ) 0 0 0 < DBL_MAX then
        { best_dt := (flatArgs ℚ).aye / cellDenom ratLibm (flatArgs ℚ) 0 0 0,
          best_i := 0, best_j := 0, best_k := 0 }
      else { best_dt := DBL_MAX, best_i := 0, best_j := 0, best_k := 0 }) ∧
    ((flatArgs ℚ).rank = 2 ∨ ((flatArgs ℚ).rank = 3 ∧ (flatArgs ℚ).w.isSome = true) →
      (flatArgs ℚ).aye / cellDenom ratLibm (flatArgs ℚ) 0 0 0 =
        cellEstimateSpec ratLibm (flatArgs ℚ) 0 0 0) :=
  limiting_cell_estimate_formula ratLibm (flatArgs ℚ)
    { best_dt := DBL_MAX, best_i := 0, best_j := 0, best_k := 0 } 0 0 0 (by decide)
    (by norm_num [flatArgs, oneCellArgs, cellIndex])
    (by norm_num [flatArgs, oneCellArgs, cellIndex])

/-- C20 as stated fails for rank 1: on the one-cell block of rank 1 at rest, with
sound speed `1`, widths `1` and `aye = 1`, the claimed estimate has the `x` term
only and is `1 / 1 = 1`; the function adds the `y` term `(1 + 0) / dy[0] = 1`
(lines 710-711 do not test the rank) and returns `out_dt = 1 / 2`. -/
theorem limiting_cell_estimate_formula_counterexample :
    (oneCellArgs ℚ).rank = 1 ∧ (oneCellArgs ℚ).ipfree = 0 ∧
      ActiveCell (oneCellArgs ℚ) 0 0 0 ∧ NotSkipped ratLibm (oneCellArgs ℚ) 0 0 0 ∧
      cellEstimateSpec ratLibm (oneCellArgs ℚ) 0 0 0 = 1 ∧
      cellEstimate ratLibm (oneCellArgs ℚ) 0 0 0 = 1 / 2 ∧
      (find_min_dt_cell ratLibm (oneCellArgs ℚ)).out_dt = 1 / 2 := by
  have hd : cellDenom ratLibm (oneCellArgs ℚ) 0 0 0 = 2 := by
    rw [cellDenom_at_rest (oneCellArgs ℚ) 0 0 0 (by decide) (by decide)
      (by norm_num [oneCellArgs, cellIndex]) rfl rfl rfl rfl]
    norm_num [oneCellArgs]
  have hact : ActiveCell (oneCellArgs ℚ) 0 0 0 :=
    ⟨⟨le_refl _, le_refl _⟩, ⟨le_refl _, le_refl _⟩, ⟨le_refl _, le_refl _⟩⟩
  have hns : NotSkipped ratLibm (oneCellArgs ℚ) 0 0 0 :=
    ⟨by norm_num [oneCellArgs, cellIndex], by norm_num [oneCellArgs, cellIndex],
      by rw [hd]; norm_num⟩
  have hest : cellEstimate ratLibm (oneCellArgs ℚ) 0 0 0 = 1 / 2 := by
    unfold cellEstimate
    rw [hd]
    rfl
  refine ⟨rfl, rfl, hact, hns, ?_, hest, ?_⟩
  · have hs : ratLibm.sqrt ((oneCellArgs ℚ).gamma * (oneCellArgs ℚ).pres
        (cellIndex (oneCellArgs ℚ) 0 0 0) / (oneCellArgs ℚ).dens
        (cellIndex (oneCellArgs ℚ) 0 0 0)) = 1 := by
      rw [show (oneCellArgs ℚ).gamma * (oneCellArgs ℚ).pres (cellIndex (oneCellArgs ℚ) 0 0 0) /
        (oneCellArgs ℚ).dens (cellIndex (oneCellArgs ℚ) 0 0 0) = 1 by
          norm_num [oneCellArgs, cellIndex]]
      exact ratLibm_sqrt_one
    unfold cellEstimateSpec axisTerm
    rw [show (oneCellArgs ℚ).rank = 1 from rfl]
    rw [show List.range 1 = [0] from rfl]
    simp only [List.map_cons, List.map_nil, List.sum_cons, List.sum_nil, if_true, hs]
    norm_num [oneCellArgs, cellIndex]
  · obtain ⟨i, j, k, ⟨⟨_, hi⟩, ⟨_, hj⟩, ⟨_, hk⟩⟩, _, _, hout⟩ :=
      find_min_dt_cell_some ratLibm (oneCellArgs ℚ)
        ⟨0, 0, 0, hact, hns, by rw [hest]; exact lt_DBL_MAX _ (by norm_num)⟩
    have hi' : i = 0 := Nat.le_zero.mp hi
    have hj' : j = 0 := Nat.le_zero.mp hj
    have hk' : k = 0 := Nat.le_zero.mp hk
    subst hi' hj' hk'
    rw [hout]
    exact hest

/-- C22.  In the `HD_RK` and in the `MHD_RK` branch the running maximum `dt_temp`
starts at `1e-20` and only grows: after the scan it is at least `1e-20` and at
least the maximum `dt_ltemp` of every cell, hence positive, so
`CourantSafetyNumber / dt_temp` does not divide by zero; for
`CourantSafetyNumber ≥ 0` the quotient is at most `CourantSafetyNumber · 1e20`;
and on a block where no cell's scaled signal speed exceeds `1e-20` the scan ends
with exactly `1e-20` and the quotient is exactly `CourantSafetyNumber · 1e20`.
The quotient is the candidate `dtBaryons`, resp. `dtMHD`, that the branch sets. -/
theorem riemann_solver_floor (L : Libm F) (g : grid F) (a : F) (c : Candidates F) :
    (1 / 10 ^ 20 ≤ hdrkScan g a g.IdentifyPhysicalQuantities6.2 ∧
      0 < hdrkScan g a g.IdentifyPhysicalQuantities6.2 ∧
      (∀ n, n < g.GridDimension 0 * g.GridDimension 1 * g.GridDimension 2 →
        hdrk_dt_ltemp g a g.IdentifyPhysicalQuantities6.2 n ≤
          hdrkScan g a g.IdentifyPhysicalQuantities6.2) ∧
      (0 ≤ g.CourantSafetyNumber →
        g.CourantSafetyNumber / hdrkScan g a g.IdentifyPhysicalQuantities6.2 ≤
          g.CourantSafetyNumber * 10 ^ 20) ∧
      ((∀ n, n < g.GridDimension 0 * g.GridDimension 1 * g.GridDimension 2 →
          hdrk_dt_ltemp g a g.IdentifyPhysicalQuantities6.2 n ≤ 1 / 10 ^ 20) →
        hdrkScan g a g.IdentifyPhysicalQuantities6.2 = 1 / 10 ^ 20 ∧
        g.CourantSafetyNumber / hdrkScan g a g.IdentifyPhysicalQuantities6.2 =
          g.CourantSafetyNumber * 10 ^ 20) ∧
      (0 < g.NumberOfBaryonFields ∧ g.HydroMethod = HD_RK ∧
          g.IdentifyPhysicalQuantities6.1 = true →
        baryonsHD_RK g a c = .next { c with
          dtBaryons := g.CourantSafetyNumber /
            hdrkScan g a g.IdentifyPhysicalQuantities6.2 })) ∧
    (1 / 10 ^ 20 ≤ mhdScan L g a (mhdFieldNums g) ∧
      0 < mhdScan L g a (mhdFieldNums g) ∧
      (∀ n, n < g.GridDimension 0 * g.GridDimension 1 * g.GridDimension 2 →
        mhd_dt_ltemp L g a (mhdFieldNums g) n ≤ mhdScan L g a (mhdFieldNums g)) ∧
      (0 ≤ g.CourantSafetyNumber →
        g.CourantSafetyNumber / mhdScan L g a (mhdFieldNums g) ≤
          g.CourantSafetyNumber * 10 ^ 20) ∧
      ((∀ n, n < g.GridDimension 0 * g.GridDimension 1 * g.GridDimension 2 →
          mhd_dt_ltemp L g a (mhdFieldNums g) n ≤ 1 / 10 ^ 20) →
        mhdScan L g a (mhdFieldNums g) = 1 / 10 ^ 20 ∧
        g.CourantSafetyNumber / mhdScan L g a (mhdFieldNums g) =
          g.CourantSafetyNumber * 10 ^ 20) ∧
      (0 < g.NumberOfBaryonFields ∧ g.HydroMethod = MHD_RK ∧
          g.IdentifyPhysicalQuantities10.1 = true ∧
          (g.CRModel ≠ 0 → g.IdentifyPhysicalQuantities7.1 = true) →
        baryonsMHD_RK L g a c = .next { c with
          dtMHD := g.CourantSafetyNumber / mhdScan L g a (mhdFieldNums g) })) := by
  obtain ⟨h1, h2, h3, h4, h5⟩ := floor_facts _ g.CourantSafetyNumber _ _
    (hdrkScan_running_max g a g.IdentifyPhysicalQuantities6.2)
  obtain ⟨k1, k2, k3, k4, k5⟩ := floor_facts _ g.CourantSafetyNumber _ _
    (mhdScan_running_max L g a (mhdFieldNums g))
  refine ⟨⟨h1, h2, h3, h4, h5, ?_⟩, ⟨k1, k2, k3, k4, k5, ?_⟩⟩
  · rintro ⟨hb, hhd, hid⟩
    exact baryonsHD_RK_of_scan g a _ c hb hhd hid rfl
  · rintro ⟨hb, hmhd, hid, hid7⟩
    exact baryonsMHD_RK_of_scan L g a c hb hmhd hid hid7

/-- Witness of C22 on the one-cell grids at rest with sound speed `0`, at `a = 1`:
the scans end with `1e-20` and the candidates are `0.5 · 1e20`. -/
theorem riemann_solver_floor_witness :
    ((stillGrid ℚ).CourantSafetyNumber /
          hdrkScan (stillGrid ℚ) 1 (stillGrid ℚ).IdentifyPhysicalQuantities6.2 ≤
        (stillGrid ℚ).CourantSafetyNumber * 10 ^ 20 ∧
      (stillGrid ℚ).CourantSafetyNumber /
          hdrkScan (stillGrid ℚ) 1 (stillGrid ℚ).IdentifyPhysicalQuantities6.2 =
        (stillGrid ℚ).CourantSafetyNumber * 10 ^ 20 ∧
      baryonsHD_RK (stillGrid ℚ) 1 (initialCandidates (stillGrid ℚ)) =
        .next { initialCandidates (stillGrid ℚ) with
          dtBaryons := (stillGrid ℚ).CourantSafetyNumber /
            hdrkScan (stillGrid ℚ) 1 (stillGrid ℚ).IdentifyPhysicalQuantities6.2 }) ∧
    ((stillMHDGrid ℚ).CourantSafetyNumber /
          mhdScan ratLibm (stillMHDGrid ℚ) 1 (mhdFieldNums (stillMHDGrid ℚ)) ≤
        (stillMHDGrid ℚ).CourantSafetyNumber * 10 ^ 20 ∧
      (stillMHDGrid ℚ).CourantSafetyNumber /
          mhdScan ratLibm (stillMHDGrid ℚ) 1 (mhdFieldNums (stillMHDGrid ℚ)) =
        (stillMHDGrid ℚ).CourantSafetyNumber * 10 ^ 20 ∧
      baryonsMHD_RK ratLibm (stillMHDGrid ℚ) 1 (initialCandidates (stillMHDGrid ℚ)) =
        .next { initialCandidates (stillMHDGrid ℚ) with
          dtMHD := (stillMHDGrid ℚ).CourantSafetyNumber /
            mhdScan ratLibm (stillMHDGrid ℚ) 1 (mhdFieldNums (stillMHDGrid ℚ)) }) := by
  obtain ⟨⟨_, _, _, h4, h5, h6⟩, _⟩ :=
    riemann_solver_floor ratLibm (stillGrid ℚ) 1 (initialCandidates (stillGrid ℚ))
  obtain ⟨_, ⟨_, _, _, k4, k5, k6⟩⟩ :=
    riemann_solver_floor ratLibm (stillMHDGrid ℚ) 1 (initialCandidates (stillMHDGrid ℚ))
  have hC : (0 : ℚ) ≤ (stillGrid ℚ).CourantSafetyNumber := by
    norm_num [stillGrid, quietGrid]
  have hC' : (0 : ℚ) ≤ (stillMHDGrid ℚ).CourantSafetyNumber := by
    norm_num [stillMHDGrid, quietGrid]
  have hall : ∀ n, n < (stillGrid ℚ).GridDimension 0 * (stillGrid ℚ).GridDimension 1 *
      (stillGrid ℚ).GridDimension 2 →
      hdrk_dt_ltemp (stillGrid ℚ) 1 (stillGrid ℚ).IdentifyPhysicalQuantities6.2 n ≤
        1 / 10 ^ 20 := by
    intro n _
    have h0 : hdrk_dt_ltemp (stillGrid ℚ) 1 (stillGrid ℚ).IdentifyPhysicalQuantities6.2 n = 0 := by
      simp [hdrk_dt_ltemp, hdrkContributions, dxinv, dyinv, dzinv, my_MAX, cmax_eq_max, fabs,
        stillGrid, quietGrid]
    rw [h0]
    positivity
  have hall' : ∀ n, n < (stillMHDGrid ℚ).GridDimension 0 * (stillMHDGrid ℚ).GridDimension 1 *
      (stillMHDGrid ℚ).GridDimension 2 →
      mhd_dt_ltemp ratLibm (stillMHDGrid ℚ) 1 (mhdFieldNums (stillMHDGrid ℚ)) n ≤
        1 / 10 ^ 20 := by
    intro n _
    have h0 : mhd_dt_ltemp ratLibm (stillMHDGrid ℚ) 1 (mhdFieldNums (stillMHDGrid ℚ)) n = 0 := by
      simp [mhd_dt_ltemp, mhdContributions, mhdFieldNums, fastSpeed, dxinv, dyinv, dzinv,
        my_MAX, cmax_eq_max, fabs, stillMHDGrid, quietGrid, ratLibm_sqrt_zero]
    rw [h0]
    positivity
  exact ⟨⟨h4 hC, (h5 hall).2, h6 ⟨by decide, rfl, rfl⟩⟩,
    ⟨k4 hC', (k5 hall').2, k6 ⟨by decide, rfl, rfl, fun _ => rfl⟩⟩⟩

/-- C23.  For every input to `find_min_dt_cell` with `aye > 0` and `γ > 0` (the
square root of a positive number being positive): either all four outputs are
zero, or a cell was selected, and then `out_rho > 0`, `out_cs > 0` and
`0 < out_dt < DBL_MAX`; and `out_dt = 0` if and only if no active cell has a
positive density, a positive pressure, a denominator above `1e-20` and an estimate
below `DBL_MAX`. -/
theorem zero_means_no_cell (L : Libm F) (A : MinDtArgs F)
    (haye : 0 < A.aye) (hgamma : 0 < A.gamma) (hsqrt : ∀ x, 0 < x → 0 < L.sqrt x) :
    (find_min_dt_cell L A = { out_rho := 0, out_cs := 0, out_dx := 0, out_dt := 0 } ∨
      ((∃ i j k, ActiveCell A i j k ∧ NotSkipped L A i j k ∧
          find_min_dt_cell L A =
            { out_rho := A.dens (cellIndex A i j k)
              out_cs := L.sqrt (A.gamma * A.pres (cellIndex A i j k) /
                A.dens (cellIndex A i j k))
              out_dx := A.dx i
              out_dt := cellEstimate L A i j k }) ∧
        0 < (find_min_dt_cell L A).out_rho ∧ 0 < (find_min_dt_cell L A).out_cs ∧
        0 < (find_min_dt_cell L A).out_dt ∧ (find_min_dt_cell L A).out_dt < DBL_MAX)) ∧
    ((find_min_dt_cell L A).out_dt = 0 ↔
      ¬ ∃ i j k, ActiveCell A i j k ∧
        (0 < A.dens (cellIndex A i j k) ∧ 0 < A.pres (cellIndex A i j k) ∧
          1 / 10 ^ 20 < cellDenom L A i j k) ∧
        A.aye / cellDenom L A i j k < DBL_MAX) := by
  by_cases h : ∃ i j k, ActiveCell A i j k ∧ NotSkipped L A i j k ∧
      cellEstimate L A i j k < DBL_MAX
  · obtain ⟨hlow, _, hcell⟩ := minDtScan_spec L A
    obtain ⟨i, j, k, hact, hns, _, hout⟩ := find_min_dt_cell_some L A h
    have hdt : (find_min_dt_cell L A).out_dt = cellEstimate L A i j k := by rw [hout]
    have hpos : 0 < cellEstimate L A i j k := cellEstimate_pos L A i j k haye hns
    have hlt : cellEstimate L A i j k < DBL_MAX := by
      obtain ⟨i', j', k', hact', hns', hlt'⟩ := h
      have hle : cellEstimate L A i j k ≤ cellEstimate L A i' j' k' := by
        rw [← hdt]
        have hb : (minDtScan L A).best_dt < DBL_MAX :=
          lt_of_le_of_lt (hlow i' j' k' hact' hns') hlt'
        have hd : (find_min_dt_cell L A).out_dt = (minDtScan L A).best_dt := by
          unfold find_min_dt_cell
          simp only [if_pos hb]
        rw [hd]
        exact hlow i' j' k' hact' hns'
      exact lt_of_le_of_lt hle hlt'
    constructor
    · right
      refine ⟨⟨i, j, k, hact, hns, hout⟩, ?_, ?_, ?_, ?_⟩
      · rw [hout]
        exact hns.1
      · rw [hout]
        exact hsqrt _ (div_pos (mul_pos hgamma hns.2.1) hns.1)
      · rw [hdt]
        exact hpos
      · rw [hdt]
        exact hlt
    · constructor
      · intro h0
        rw [hdt] at h0
        exact absurd h0 (ne_of_gt hpos)
      · intro hnone
        exact absurd h hnone
  · have hout := find_min_dt_cell_no_candidate L A h
    constructor
    · left
      exact hout
    · constructor
      · intro _
        exact h
      · intro _
        rw [hout]

/-- Witness of C23 over the reals, with the real square root, on the one-cell
block at rest (`aye = 1`, `γ = 1`). -/
theorem zero_means_no_cell_witness :
    (find_min_dt_cell (Libm.mk Real.sqrt fun x y => x ^ y) (oneCellArgs ℝ) =
        { out_rho := 0, out_cs := 0, out_dx := 0, out_dt := 0 } ∨
      ((∃ i j k, ActiveCell (oneCellArgs ℝ) i j k ∧
          NotSkipped (Libm.mk Real.sqrt fun x y => x ^ y) (oneCellArgs ℝ) i j k ∧
          find_min_dt_cell (Libm.mk Real.sqrt fun x y => x ^ y) (oneCellArgs ℝ) =
            { out_rho := (oneCellArgs ℝ).dens (cellIndex (oneCellArgs ℝ) i j k)
              out_cs := Real.sqrt ((oneCellArgs ℝ).gamma *
                (oneCellArgs ℝ).pres (cellIndex (oneCellArgs ℝ) i j k) /
                (oneCellArgs ℝ).dens (cellIndex (oneCellArgs ℝ) i j k))
              out_dx := (oneCellArgs ℝ).dx i
              out_dt := cellEstimate (Libm.mk Real.sqrt fun x y => x ^ y)
                (oneCellArgs ℝ) i j k }) ∧
        0 < (find_min_dt_cell (Libm.mk Real.sqrt fun x y => x ^ y) (oneCellArgs ℝ)).out_rho ∧
        0 < (find_min_dt_cell (Libm.mk Real.sqrt fun x y => x ^ y) (oneCellArgs ℝ)).out_cs ∧
        0 < (find_min_dt_cell (Libm.mk Real.sqrt fun x y => x ^ y) (oneCellArgs ℝ)).out_dt ∧
        (find_min_dt_cell (Libm.mk Real.sqrt fun x y => x ^ y) (oneCellArgs ℝ)).out_dt <
          DBL_MAX)) ∧
    ((find_min_dt_cell (Libm.mk Real.sqrt fun x y => x ^ y) (oneCellArgs ℝ)).out_dt = 0 ↔
      ¬ ∃ i j k, ActiveCell (oneCellArgs ℝ) i j k ∧
        (0 < (oneCellArgs ℝ).dens (cellIndex (oneCellArgs ℝ) i j k) ∧
          0 < (oneCellArgs ℝ).pres (cellIndex (oneCellArgs ℝ) i j k) ∧
          1 / 10 ^ 20 < cellDenom (Libm.mk Real.sqrt fun x y => x ^ y) (oneCellArgs ℝ) i j k) ∧
        (oneCellArgs ℝ).aye /
          cellDenom (Libm.mk Real.sqrt fun x y => x ^ y) (oneCellArgs ℝ) i j k < DBL_MAX) :=
  zero_means_no_cell (Libm.mk Real.sqrt fun x y => x ^ y) (oneCellArgs ℝ)
    (by norm_num [oneCellArgs]) (by norm_num [oneCellArgs])
    (fun x hx => Real.sqrt_pos.mpr hx)

end Claims

end Enzo
